import Mathlib

/-!
# Comparison semantics of typed values (hphp/runtime/base/tv-comparisons.cpp)

A shallow embedding of the relational-operator family `cellRelOp`, the
operation policies `Eq`, `Lt`, `Lte`, `Gt`, `Gte`, `Cmp`, the strict
equality `cellSame`, and the public entry points built from them.

Conventions of the embedding:

* A `Cell` is the tagged union of the source; the payload is carried by the
  constructor, so discriminant and payload always agree.  String and
  container kinds carry the flag that tells the persistent kind from the
  counted one (`KindOfPersistentString` / `KindOfString`, ...).
* Heap objects are handles (addresses); what the runtime computes from them
  (container comparison, object conversion, string parsing, names of
  functions and classes) is supplied by an environment `Env`.
* A call yields an `Outcome`: the diagnostics raised, in order, and either a
  value or the error thrown.  Where the source evaluates two helper calls as
  arguments of one call, the log lists them left to right.
* `int64_t` is `Int` (only compared, never computed with); `double` is `Dbl`,
  the IEEE-754 values as the comparison operators see them.
-/

namespace HPHP

/-! ## Doubles -/

/-- The values of a `double` as seen by the comparison operators: not-a-number,
the two infinities and the finite values (the two zeros are one value). -/
inductive Dbl where
  | nan
  | ninf
  | fin (q : ℚ)
  | pinf
  deriving DecidableEq

namespace Dbl

/-- The `==` of two doubles: false as soon as one side is not-a-number. -/
def eq : Dbl → Dbl → Bool
  | nan, _ => false
  | _, nan => false
  | ninf, ninf => true
  | pinf, pinf => true
  | fin a, fin b => decide (a = b)
  | _, _ => false

/-- The `<` of two doubles: false as soon as one side is not-a-number. -/
def lt : Dbl → Dbl → Bool
  | nan, _ => false
  | _, nan => false
  | ninf, ninf => false
  | ninf, _ => true
  | fin a, fin b => decide (a < b)
  | fin _, pinf => true
  | _, _ => false

/-- The `>` of two doubles. -/
def gt (a b : Dbl) : Bool := lt b a

/-- The `<=` of two doubles. -/
def le (a b : Dbl) : Bool := lt a b || eq a b

/-- The `>=` of two doubles. -/
def ge (a b : Dbl) : Bool := lt b a || eq a b

/-- Rounding of a natural number to 53 significant bits, ties to even. -/
def roundNat (m : Nat) : Nat :=
  if m < 2 ^ 53 then m
  else
    let k := Nat.log2 m - 52
    let q := m / 2 ^ k
    let r := m % 2 ^ k
    let half := 2 ^ (k - 1)
    let up := decide (half < r) || (decide (r = half) && decide (q % 2 = 1))
    (if up then q + 1 else q) * 2 ^ k

/-- The implicit conversion of an `int64_t` to `double` (round to nearest,
ties to even); every `int64_t` is in the range of the finite doubles. -/
def ofInt (n : Int) : Dbl :=
  if 0 ≤ n then fin (roundNat n.toNat) else fin (-(roundNat (-n).toNat : ℚ))

/-- The test `d != 0`, true for not-a-number. -/
def nonZero (d : Dbl) : Bool := !eq d (fin 0)

/-- The predicate that a double is a number. -/
def isNum : Dbl → Bool
  | nan => false
  | _ => true

end Dbl

/-! ## Primitive operands and the primitive operators -/

/-- An operand of the policies' templated `operator()(T, U)`: the source
instantiates it at `bool`, `int` / `int64_t` and `double`. -/
inductive Prim where
  | b (x : Bool)
  | i (x : Int)
  | d (x : Dbl)
  deriving DecidableEq

namespace Prim

/-- Whether the operand has type `double`. -/
def isDbl : Prim → Bool
  | d _ => true
  | _ => false

/-- Integral promotion: `false`, `true` become 0, 1. -/
def asInt : Prim → Int
  | b x => if x then 1 else 0
  | i x => x
  | d _ => 0

/-- Conversion to `double` of the usual arithmetic conversions. -/
def asDbl : Prim → Dbl
  | d x => x
  | p => Dbl.ofInt p.asInt

end Prim

/-- The `t == u` of the source on primitive operands. -/
def primEq (t u : Prim) : Bool :=
  if t.isDbl || u.isDbl then Dbl.eq t.asDbl u.asDbl else decide (t.asInt = u.asInt)

/-- The `t < u` of `std::less<>`. -/
def primLt (t u : Prim) : Bool :=
  if t.isDbl || u.isDbl then Dbl.lt t.asDbl u.asDbl else decide (t.asInt < u.asInt)

/-- The `t <= u` of `std::less_equal<>`. -/
def primLte (t u : Prim) : Bool :=
  if t.isDbl || u.isDbl then Dbl.le t.asDbl u.asDbl else decide (t.asInt ≤ u.asInt)

/-- The `t > u` of `std::greater<>`. -/
def primGt (t u : Prim) : Bool :=
  if t.isDbl || u.isDbl then Dbl.gt t.asDbl u.asDbl else decide (u.asInt < t.asInt)

/-- The `t >= u` of `std::greater_equal<>`. -/
def primGte (t u : Prim) : Bool :=
  if t.isDbl || u.isDbl then Dbl.ge t.asDbl u.asDbl else decide (u.asInt ≤ t.asInt)

/-- The three-way primitive `(t == u) ? 0 : ((t > u) ? 1 : -1)`. -/
def PHPPrimitiveCmp (t u : Prim) : Int :=
  if primEq t u then 0 else if primGt t u then 1 else -1

/-! ## Runtime values -/

/-- The contents of a string (`StringData`). -/
abbrev StringData := String

/-- The `staticEmptyString()` of the source. -/
def staticEmptyString : StringData := ""

/-- Handle of a container (`ArrayData*`). -/
structure ArrayData where
  addr : Nat
  deriving DecidableEq

/-- Handle of an object (`ObjectData*`). -/
structure ObjectData where
  addr : Nat
  deriving DecidableEq

/-- Handle of a resource (`ResourceHdr*`, and its `data()`). -/
structure ResourceData where
  addr : Nat
  deriving DecidableEq

/-- Handle of a function (`const Func*`). -/
structure Func where
  addr : Nat
  deriving DecidableEq

/-- Handle of a class (`const Class*`). -/
structure Class where
  addr : Nat
  deriving DecidableEq

/-- Handle of a record (`RecordData*`). -/
structure RecordData where
  addr : Nat
  deriving DecidableEq

/-- A class-method pair (`ClsMethDataRef`) with its `getCls()` and
`getFunc()`; `==` is identity of the pair value. -/
structure ClsMethDataRef where
  getCls : Class
  getFunc : Func
  deriving DecidableEq

/-- A typed value (`Cell`): discriminant and matching payload.  The flag of
the string and container kinds is true for the persistent kind. -/
inductive Cell where
  | uninit
  | null
  | bool (v : Bool)
  | int (num : Int)
  | dbl (dbl : Dbl)
  | str (persistent : Bool) (pstr : StringData)
  | vec (persistent : Bool) (parr : ArrayData)
  | dict (persistent : Bool) (parr : ArrayData)
  | keyset (persistent : Bool) (parr : ArrayData)
  | arr (persistent : Bool) (parr : ArrayData)
  | obj (pobj : ObjectData)
  | res (pres : ResourceData)
  | func (pfunc : Func)
  | cls (pclass : Class)
  | clsmeth (pclsmeth : ClsMethDataRef)
  | record (prec : RecordData)
  | ref
  deriving DecidableEq

namespace Cell

/-- The source's `isNullType`: `KindOfUninit` or `KindOfNull`. -/
def isNullType : Cell → Bool
  | uninit | null => true
  | _ => false

/-- The source's `isStringType`. -/
def isStringType : Cell → Bool
  | str _ _ => true
  | _ => false

/-- The source's `isVecType`. -/
def isVecType : Cell → Bool
  | vec _ _ => true
  | _ => false

/-- The source's `isDictType`. -/
def isDictType : Cell → Bool
  | dict _ _ => true
  | _ => false

/-- The source's `isKeysetType`. -/
def isKeysetType : Cell → Bool
  | keyset _ _ => true
  | _ => false

/-- The source's `isArrayType`: the legacy array kinds. -/
def isArrayType : Cell → Bool
  | arr _ _ => true
  | _ => false

/-- The source's `isHackArrayType`: vec, dict or keyset. -/
def isHackArrayType (c : Cell) : Bool :=
  c.isVecType || c.isDictType || c.isKeysetType

/-- The source's `isFuncType`. -/
def isFuncType : Cell → Bool
  | func _ => true
  | _ => false

/-- The source's `isClassType`. -/
def isClassType : Cell → Bool
  | cls _ => true
  | _ => false

/-- The source's `isClsMethType`. -/
def isClsMethType : Cell → Bool
  | clsmeth _ => true
  | _ => false

/-- The part of `cellIsPlausible` the embedding does not enforce by typing:
a cell is never of kind `KindOfRef`. -/
def isPlausible : Cell → Bool
  | ref => false
  | _ => true

end Cell

/-- The kinds of the value model, persistent and counted kinds merged. -/
inductive Kind where
  | Uninit | Null | Boolean | Int64 | Double | String | LegacyArray | Vector
  | Dictionary | Set | Object | Resource | FunctionRef | ClassRef
  | ClassMethodPair | Record | IndirectReference
  deriving DecidableEq

/-- The kind of a cell. -/
def Cell.kind : Cell → Kind
  | .uninit => .Uninit
  | .null => .Null
  | .bool _ => .Boolean
  | .int _ => .Int64
  | .dbl _ => .Double
  | .str _ _ => .String
  | .vec _ _ => .Vector
  | .dict _ _ => .Dictionary
  | .keyset _ _ => .Set
  | .arr _ _ => .LegacyArray
  | .obj _ => .Object
  | .res _ => .Resource
  | .func _ => .FunctionRef
  | .cls _ => .ClassRef
  | .clsmeth _ => .ClassMethodPair
  | .record _ => .Record
  | .ref => .IndirectReference

/-! ## Outcomes: diagnostics and errors -/

/-- The diagnostics a comparison can raise, one per raising helper. -/
inductive Diag where
  /-- The helper `raiseHackArrCompatArrNonArrCmp`. -/
  | arrNonArr
  /-- The helper `raiseHackArrCompatArrHackArrCmp`. -/
  | arrHackArr
  /-- The helper `raiseClsMethToVecWarningHelper`. -/
  | clsMethToVec
  /-- The conversion notice of `funcToStringHelper`. -/
  | funcToString
  /-- The conversion notice of `classToStringHelper`. -/
  | classToString
  deriving DecidableEq

/-- The errors that end a comparison. -/
inductive Err where
  /-- Thrown by `throw_vec_compare_exception`. -/
  | vecCompare
  /-- Thrown by `throw_dict_compare_exception`. -/
  | dictCompare
  /-- Thrown by `throw_keyset_compare_exception`. -/
  | keysetCompare
  /-- Thrown by `throw_collection_compare_exception`. -/
  | collectionCompare
  /-- Thrown by `throw_rec_non_rec_compare_exception`. -/
  | recNonRecCompare
  /-- Thrown by `throw_clsmeth_compare_exception`. -/
  | clsmethCompare
  /-- Thrown by `throw_record_compare_exception`. -/
  | recordCompare
  /-- The fatal `not_reached()`. -/
  | notReached
  /-- A payload field read under the wrong discriminant. -/
  | invalidRead
  deriving DecidableEq

deriving instance DecidableEq for Except

/-- What a call produces: the diagnostics raised, in order, and the value
returned or the error thrown. -/
structure Outcome (α : Type) where
  log : List Diag
  res : Except Err α

namespace Outcome

/-- Return a value, raising nothing. -/
def ret {α : Type} (v : α) : Outcome α := ⟨[], .ok v⟩

/-- Throw an error. -/
def throw {α : Type} (e : Err) : Outcome α := ⟨[], .error e⟩

/-- Raise a diagnostic, then go on. -/
def raise {α : Type} (d : Diag) (k : Outcome α) : Outcome α := ⟨d :: k.log, k.res⟩

/-- Raise a diagnostic when the condition holds, then go on. -/
def raiseIf {α : Type} (c : Bool) (d : Diag) (k : Outcome α) : Outcome α :=
  if c then raise d k else k

/-- Sequencing: the second call runs only if the first returned. -/
def bind {α β : Type} (x : Outcome α) (k : α → Outcome β) : Outcome β :=
  match x.res with
  | .ok v => ⟨x.log ++ (k v).log, (k v).res⟩
  | .error e => ⟨x.log, .error e⟩

/-- The number of diagnostics of one kind in the log. -/
def count {α : Type} (x : Outcome α) (d : Diag) : Nat := x.log.count d

end Outcome

instance {α : Type} [DecidableEq α] : DecidableEq (Outcome α) := fun a b =>
  match a, b with
  | ⟨l₁, r₁⟩, ⟨l₂, r₂⟩ =>
    if h : l₁ = l₂ ∧ r₁ = r₂ then isTrue (by rw [h.1, h.2])
    else isFalse (fun e => h (by cases e; exact ⟨rfl, rfl⟩))

/-! ## Collaborators and configuration -/

/-- The result of `stringToNumeric`: an integer, a double, or not numeric. -/
inductive Numeric where
  | int (num : Int)
  | dbl (dbl : Dbl)
  | none
  deriving DecidableEq

/-- The collaborators the comparator calls; none of them is defined in
tv-comparisons.cpp.  Each field names the function of the runtime it stands
for. -/
structure Env where
  /-- The parser `stringToNumeric(const StringData*)`. -/
  stringToNumeric : StringData → Numeric
  /-- The method `StringData::equal`. -/
  strEqual : StringData → StringData → Bool
  /-- The method `StringData::same`. -/
  strSame : StringData → StringData → Bool
  /-- The method `StringData::compare`. -/
  strCompare : StringData → StringData → Int
  /-- The method `StringData::toBoolean`. -/
  strToBoolean : StringData → Bool
  /-- The method `StringData::toDouble`. -/
  strToDouble : StringData → Dbl
  /-- The method `ArrayData::empty`. -/
  arrEmpty : ArrayData → Bool
  /-- The function `ArrayData::Equal`. -/
  arrEqual : ArrayData → ArrayData → Bool
  /-- The function `ArrayData::Same`. -/
  arrSame : ArrayData → ArrayData → Bool
  /-- The function `ArrayData::Lt`. -/
  arrLt : ArrayData → ArrayData → Bool
  /-- The function `ArrayData::Lte`. -/
  arrLte : ArrayData → ArrayData → Bool
  /-- The function `ArrayData::Gt`. -/
  arrGt : ArrayData → ArrayData → Bool
  /-- The function `ArrayData::Gte`. -/
  arrGte : ArrayData → ArrayData → Bool
  /-- The function `ArrayData::Compare`. -/
  arrCompare : ArrayData → ArrayData → Int
  /-- The function `PackedArray::VecEqual`. -/
  vecEqual : ArrayData → ArrayData → Bool
  /-- The function `PackedArray::VecSame`. -/
  vecSame : ArrayData → ArrayData → Bool
  /-- The function `PackedArray::VecLt`. -/
  vecLt : ArrayData → ArrayData → Bool
  /-- The function `PackedArray::VecLte`. -/
  vecLte : ArrayData → ArrayData → Bool
  /-- The function `PackedArray::VecGt`. -/
  vecGt : ArrayData → ArrayData → Bool
  /-- The function `PackedArray::VecGte`. -/
  vecGte : ArrayData → ArrayData → Bool
  /-- The function `PackedArray::VecCmp`. -/
  vecCmp : ArrayData → ArrayData → Int
  /-- The function `MixedArray::DictEqual`. -/
  dictEqual : ArrayData → ArrayData → Bool
  /-- The function `MixedArray::DictSame`. -/
  dictSame : ArrayData → ArrayData → Bool
  /-- The function `SetArray::Equal`. -/
  keysetEqual : ArrayData → ArrayData → Bool
  /-- The function `SetArray::Same`. -/
  keysetSame : ArrayData → ArrayData → Bool
  /-- The method `ObjectData::isCollection`. -/
  objIsCollection : ObjectData → Bool
  /-- The method `ObjectData::hasToString`. -/
  objHasToString : ObjectData → Bool
  /-- The method `ObjectData::invokeToString`. -/
  objInvokeToString : ObjectData → StringData
  /-- The method `ObjectData::toInt64`. -/
  objToInt64 : ObjectData → Int
  /-- The method `ObjectData::toDouble`. -/
  objToDouble : ObjectData → Dbl
  /-- The method `ObjectData::toBoolean`. -/
  objToBoolean : ObjectData → Bool
  /-- The method `ObjectData::equal`. -/
  objEqual : ObjectData → ObjectData → Bool
  /-- The method `ObjectData::less`. -/
  objLess : ObjectData → ObjectData → Bool
  /-- The method `ObjectData::lessEqual`. -/
  objLessEqual : ObjectData → ObjectData → Bool
  /-- The method `ObjectData::more`. -/
  objMore : ObjectData → ObjectData → Bool
  /-- The method `ObjectData::moreEqual`. -/
  objMoreEqual : ObjectData → ObjectData → Bool
  /-- The method `ObjectData::compare`. -/
  objCompare : ObjectData → ObjectData → Int
  /-- The method `ResourceData::o_toInt64`. -/
  resToInt64 : ResourceData → Int
  /-- The method `ResourceData::o_toDouble`. -/
  resToDouble : ResourceData → Dbl
  /-- The method `ResourceData::o_toBoolean`. -/
  resToBoolean : ResourceData → Bool
  /-- The name returned by `funcToStringHelper`. -/
  funcName : Func → StringData
  /-- The name returned by `classToStringHelper`. -/
  className : Class → StringData
  /-- The container built by `clsMethToVecHelper`. -/
  clsMethToVec : ClsMethDataRef → ArrayData
  /-- The function `RecordData::equal`. -/
  recEqual : RecordData → RecordData → Bool
  /-- The function `RecordData::same`. -/
  recSame : RecordData → RecordData → Bool
  /-- The conversion `cellToBool` of tv-conversions. -/
  cellToBool : Cell → Bool

/-- The runtime-wide configuration read during a comparison. -/
structure RuntimeOption where
  /-- The option `RuntimeOption::EvalHackArrDVArrs`. -/
  EvalHackArrDVArrs : Bool
  /-- The value of `checkHACCompare()`. -/
  checkHACCompare : Bool
  /-- The value of `checkHACCompareNonAnyArray()`. -/
  checkHACCompareNonAnyArray : Bool

open Outcome

/-! ## Operation policies -/

/-- What `cellRelOp` needs of its template parameter `Op`: the call operator
at each pair of argument types, the same-kind container operators, the six
mismatch cases and the two notice predicates. -/
structure Op (R : Type) where
  /-- The templated `operator()(T, U)` on non-pointer operands. -/
  prim : Prim → Prim → R
  /-- The operator on two `const StringData*`. -/
  str : StringData → StringData → R
  /-- The operator on two legacy `const ArrayData*`. -/
  arr : ArrayData → ArrayData → R
  /-- The operator on two `const Func*`. -/
  func : Func → Func → Outcome R
  /-- The operator on two `const Class*`. -/
  cls : Class → Class → Outcome R
  /-- The operator on two `const ObjectData*`. -/
  obj : ObjectData → ObjectData → R
  /-- The operator on two `const ResourceData*`. -/
  res : ResourceData → ResourceData → R
  /-- The member `vec`. -/
  vec : ArrayData → ArrayData → R
  /-- The member `dict`. -/
  dict : ArrayData → ArrayData → Outcome R
  /-- The member `keyset`. -/
  keyset : ArrayData → ArrayData → Outcome R
  /-- The operator on two `ClsMethDataRef`. -/
  clsmeth : ClsMethDataRef → ClsMethDataRef → Outcome R
  /-- The operator on two `const RecordData*`. -/
  record : RecordData → RecordData → Outcome R
  vecVsNonVec : Outcome R
  dictVsNonDict : Outcome R
  keysetVsNonKeyset : Outcome R
  collectionVsNonObj : Outcome R
  recordVsNonRecord : Outcome R
  clsmethVsNonClsMeth : Outcome R
  noticeOnArrNonArr : Bool
  noticeOnArrHackArr : Bool

/-- The policy `struct Eq`. -/
@[simps]
def Policy.Eq (E : Env) (F : RuntimeOption) : Op Bool where
  prim := primEq
  str := E.strEqual
  arr := E.arrEqual
  func := fun f1 f2 => ret (decide (f1 = f2))
  cls := fun c1 c2 => ret (decide (c1 = c2))
  obj := E.objEqual
  res := fun r1 r2 => decide (r1 = r2)
  vec := E.vecEqual
  dict := fun a1 a2 => ret (E.dictEqual a1 a2)
  keyset := fun a1 a2 => ret (E.keysetEqual a1 a2)
  clsmeth := fun c1 c2 => ret (decide (c1 = c2))
  record := fun r1 r2 => ret (E.recEqual r1 r2)
  vecVsNonVec := ret false
  dictVsNonDict := ret false
  keysetVsNonKeyset := ret false
  collectionVsNonObj := ret false
  recordVsNonRecord := throw .recNonRecCompare
  clsmethVsNonClsMeth := ret false
  noticeOnArrNonArr := false
  noticeOnArrHackArr := F.checkHACCompare

/-- The template `struct CompareBase<RetType, PrimitiveCmpOp>`, completed by
the three operators its derived policies add (legacy arrays, objects, `vec`).
The operators on `Func*` and `Class*` are declared to return `bool`:
`toBool` is the conversion of `RetType` to `bool` at their `return`, and
`ofBool` the conversion back where `cellRelOp` returns their result. -/
@[simps]
def CompareBase {R : Type} (E : Env) (F : RuntimeOption)
    (PrimitiveCmpOp : Prim → Prim → R) (toBool : R → Bool) (ofBool : Bool → R)
    (arr : ArrayData → ArrayData → R) (obj : ObjectData → ObjectData → R)
    (vec : ArrayData → ArrayData → R) : Op R where
  prim := PrimitiveCmpOp
  str := fun sd1 sd2 => PrimitiveCmpOp (.i (E.strCompare sd1 sd2)) (.i 0)
  arr := arr
  func := fun f1 f2 =>
    raise .funcToString (raise .funcToString
      (ret (ofBool (toBool
        (PrimitiveCmpOp (.i (E.strCompare (E.funcName f1) (E.funcName f2))) (.i 0))))))
  cls := fun c1 c2 =>
    raise .classToString (raise .classToString
      (ret (ofBool (toBool
        (PrimitiveCmpOp (.i (E.strCompare (E.className c1) (E.className c2))) (.i 0))))))
  obj := obj
  res := fun rd1 rd2 => PrimitiveCmpOp (.i (E.resToInt64 rd1)) (.i (E.resToInt64 rd2))
  vec := vec
  dict := fun _ _ => throw .dictCompare
  keyset := fun _ _ => throw .keysetCompare
  clsmeth := fun c1 c2 =>
    raise .classToString (raise .classToString
      (if E.strCompare (E.className c1.getCls) (E.className c2.getCls) ≠ 0 then
        ret (PrimitiveCmpOp
          (.i (E.strCompare (E.className c1.getCls) (E.className c2.getCls))) (.i 0))
      else
        raise .funcToString (raise .funcToString
          (ret (PrimitiveCmpOp
            (.i (E.strCompare (E.funcName c1.getFunc) (E.funcName c2.getFunc))) (.i 0))))))
  record := fun _ _ => throw .recordCompare
  vecVsNonVec := throw .vecCompare
  dictVsNonDict := throw .dictCompare
  keysetVsNonKeyset := throw .keysetCompare
  collectionVsNonObj := throw .collectionCompare
  recordVsNonRecord := throw .recNonRecCompare
  clsmethVsNonClsMeth := throw .clsmethCompare
  noticeOnArrNonArr := F.checkHACCompareNonAnyArray
  noticeOnArrHackArr := F.checkHACCompare

/-- The policy `struct Lt : CompareBase<bool, std::less<>>`. -/
def Policy.Lt (E : Env) (F : RuntimeOption) : Op Bool :=
  CompareBase E F primLt id id E.arrLt E.objLess E.vecLt

/-- The policy `struct Lte : CompareBase<bool, std::less_equal<>>`. -/
def Policy.Lte (E : Env) (F : RuntimeOption) : Op Bool :=
  CompareBase E F primLte id id E.arrLte E.objLessEqual E.vecLte

/-- The policy `struct Gt : CompareBase<bool, std::greater<>>`. -/
def Policy.Gt (E : Env) (F : RuntimeOption) : Op Bool :=
  CompareBase E F primGt id id E.arrGt E.objMore E.vecGt

/-- The policy `struct Gte : CompareBase<bool, std::greater_equal<>>`. -/
def Policy.Gte (E : Env) (F : RuntimeOption) : Op Bool :=
  CompareBase E F primGte id id E.arrGte E.objMoreEqual E.vecGte

/-- The policy `struct Cmp : CompareBase<int64_t, PHPPrimitiveCmp>`; a
non-zero `int64_t` converts to `true`, and `true` back to 1. -/
def Policy.Cmp (E : Env) (F : RuntimeOption) : Op Int :=
  CompareBase E F PHPPrimitiveCmp (fun r => decide (r ≠ 0)) (fun b => if b then 1 else 0)
    E.arrCompare E.objCompare E.vecCmp

/-! ## The dispatch engine: the overloads of `cellRelOp` -/

section Dispatch

variable {R : Type}

/-- The overload `cellRelOp(Op, Cell, bool)`. -/
def cellRelOpBool (E : Env) (F : RuntimeOption) (op : Op R) (cell : Cell) (val : Bool) :
    Outcome R :=
  if cell.isVecType then op.vecVsNonVec
  else if cell.isDictType then op.dictVsNonDict
  else if cell.isKeysetType then op.keysetVsNonKeyset
  else if cell.isClsMethType then
    if F.EvalHackArrDVArrs then op.clsmethVsNonClsMeth
    else
      raiseIf op.noticeOnArrNonArr .arrNonArr
        (ret (op.prim (.b (E.cellToBool cell)) (.b val)))
  else
    raiseIf (op.noticeOnArrNonArr && cell.isArrayType) .arrNonArr
      (ret (op.prim (.b (E.cellToBool cell)) (.b val)))

/-- The helper `strRelOp(op, cell, val, str)`: the string is parsed and the
number found, or zero, is compared with `val`. -/
def strRelOp (E : Env) (op : Op R) (_cell : Cell) (val : Prim) (str : StringData) : R :=
  match E.stringToNumeric str with
  | .int n => op.prim (.i n) val
  | .dbl d => op.prim (.d d) val
  | .none => op.prim (.i 0) val

/-- The overload `cellRelOp(Op, Cell, int64_t)`. -/
def cellRelOpInt64 (E : Env) (F : RuntimeOption) (op : Op R) (cell : Cell) (val : Int) :
    Outcome R :=
  match cell with
  | .uninit | .null => ret (op.prim (.b false) (.b (decide (val ≠ 0))))
  | .bool b => ret (op.prim (.b b) (.b (decide (val ≠ 0))))
  | .int num => ret (op.prim (.i num) (.i val))
  | .dbl dbl => ret (op.prim (.d dbl) (.i val))
  | .str _ pstr => ret (strRelOp E op cell (.i val) pstr)
  | .vec _ _ => op.vecVsNonVec
  | .dict _ _ => op.dictVsNonDict
  | .keyset _ _ => op.keysetVsNonKeyset
  | .arr _ _ =>
    raiseIf op.noticeOnArrNonArr .arrNonArr (ret (op.prim (.b true) (.b false)))
  | .obj pobj =>
    if E.objIsCollection pobj then op.collectionVsNonObj
    else ret (op.prim (.i (E.objToInt64 pobj)) (.i val))
  | .res pres => ret (op.prim (.i (E.resToInt64 pres)) (.i val))
  | .func pfunc => raise .funcToString (ret (strRelOp E op cell (.i val) (E.funcName pfunc)))
  | .cls pclass =>
    raise .classToString (ret (strRelOp E op cell (.i val) (E.className pclass)))
  | .clsmeth _ =>
    if F.EvalHackArrDVArrs then op.clsmethVsNonClsMeth
    else raiseIf op.noticeOnArrNonArr .arrNonArr (ret (op.prim (.b true) (.b false)))
  | .record _ => op.recordVsNonRecord
  | .ref => throw .notReached

/-- The overload `cellRelOp(Op, Cell, double)`. -/
def cellRelOpDouble (E : Env) (F : RuntimeOption) (op : Op R) (cell : Cell) (val : Dbl) :
    Outcome R :=
  match cell with
  | .uninit | .null => ret (op.prim (.b false) (.b val.nonZero))
  | .bool b => ret (op.prim (.b b) (.b val.nonZero))
  | .int num => ret (op.prim (.i num) (.d val))
  | .dbl dbl => ret (op.prim (.d dbl) (.d val))
  | .str _ pstr => ret (strRelOp E op cell (.d val) pstr)
  | .vec _ _ => op.vecVsNonVec
  | .dict _ _ => op.dictVsNonDict
  | .keyset _ _ => op.keysetVsNonKeyset
  | .arr _ _ =>
    raiseIf op.noticeOnArrNonArr .arrNonArr (ret (op.prim (.b true) (.b false)))
  | .obj pobj =>
    if E.objIsCollection pobj then op.collectionVsNonObj
    else ret (op.prim (.d (E.objToDouble pobj)) (.d val))
  | .res pres => ret (op.prim (.d (E.resToDouble pres)) (.d val))
  | .func pfunc => raise .funcToString (ret (strRelOp E op cell (.d val) (E.funcName pfunc)))
  | .cls pclass =>
    raise .classToString (ret (strRelOp E op cell (.d val) (E.className pclass)))
  | .clsmeth _ =>
    if F.EvalHackArrDVArrs then op.clsmethVsNonClsMeth
    else raiseIf op.noticeOnArrNonArr .arrNonArr (ret (op.prim (.b true) (.b false)))
  | .record _ => op.recordVsNonRecord
  | .ref => throw .notReached

/-- The overload `cellRelOp(Op, Cell, const StringData*)`. -/
def cellRelOpString (E : Env) (F : RuntimeOption) (op : Op R) (cell : Cell)
    (val : StringData) : Outcome R :=
  match cell with
  | .uninit | .null => ret (op.str staticEmptyString val)
  | .int num =>
    match E.stringToNumeric val with
    | .int n => ret (op.prim (.i num) (.i n))
    | .dbl d => ret (op.prim (.i num) (.d d))
    | .none => ret (op.prim (.i num) (.i 0))
  | .bool b => ret (op.prim (.b b) (.b (E.strToBoolean val)))
  | .dbl dbl =>
    match E.stringToNumeric val with
    | .int n => ret (op.prim (.d dbl) (.i n))
    | .dbl d => ret (op.prim (.d dbl) (.d d))
    | .none => ret (op.prim (.d dbl) (.i 0))
  | .str _ pstr => ret (op.str pstr val)
  | .vec _ _ => op.vecVsNonVec
  | .dict _ _ => op.dictVsNonDict
  | .keyset _ _ => op.keysetVsNonKeyset
  | .arr _ _ =>
    raiseIf op.noticeOnArrNonArr .arrNonArr (ret (op.prim (.b true) (.b false)))
  | .obj od =>
    if E.objIsCollection od then op.collectionVsNonObj
    else if E.objHasToString od then ret (op.str (E.objInvokeToString od) val)
    else ret (op.prim (.b true) (.b false))
  | .res rd => ret (op.prim (.d (E.resToDouble rd)) (.d (E.strToDouble val)))
  | .func pfunc => raise .funcToString (ret (op.str (E.funcName pfunc) val))
  | .cls pclass => raise .classToString (ret (op.str (E.className pclass) val))
  | .clsmeth _ =>
    if F.EvalHackArrDVArrs then op.clsmethVsNonClsMeth
    else raiseIf op.noticeOnArrNonArr .arrNonArr (ret (op.prim (.b true) (.b false)))
  | .record _ => op.recordVsNonRecord
  | .ref => throw .notReached

/-- The overload `cellRelOp(Op, Cell, const ArrayData*)` for a legacy array;
`nonArr` and `hackArr` are its two local notice helpers. -/
def cellRelOpArray (E : Env) (F : RuntimeOption) (op : Op R) (cell : Cell)
    (ad : ArrayData) : Outcome R :=
  let nonArr := fun (k : Outcome R) => raiseIf op.noticeOnArrNonArr .arrNonArr k
  let hackArr := fun (k : Outcome R) => raiseIf op.noticeOnArrHackArr .arrHackArr k
  match cell with
  | .uninit | .null => nonArr (ret (op.prim (.b false) (.b (!E.arrEmpty ad))))
  | .bool b => nonArr (ret (op.prim (.i (if b then 1 else 0)) (.b (!E.arrEmpty ad))))
  | .int _ => nonArr (ret (op.prim (.b false) (.b true)))
  | .dbl _ => nonArr (ret (op.prim (.b false) (.b true)))
  | .str _ _ | .func _ | .cls _ => nonArr (ret (op.prim (.b false) (.b true)))
  | .vec _ _ => hackArr op.vecVsNonVec
  | .dict _ _ => hackArr op.dictVsNonDict
  | .keyset _ _ => hackArr op.keysetVsNonKeyset
  | .arr _ parr => ret (op.arr parr ad)
  | .obj od =>
    nonArr (if E.objIsCollection od then op.collectionVsNonObj
            else ret (op.prim (.b true) (.b false)))
  | .res _ => nonArr (ret (op.prim (.b false) (.b true)))
  | .clsmeth pclsmeth =>
    if F.EvalHackArrDVArrs then op.clsmethVsNonClsMeth
    else raise .clsMethToVec (ret (op.arr (E.clsMethToVec pclsmeth) ad))
  | .record _ => op.recordVsNonRecord
  | .ref => throw .notReached

/-- The overload `cellRelOp(Op, Cell, const ObjectData*)`; `strRelOp` is its
local helper for a string on the left. -/
def cellRelOpObject (E : Env) (F : RuntimeOption) (op : Op R) (cell : Cell)
    (od : ObjectData) : Outcome R :=
  let strRelOp := fun (sd : StringData) =>
    if E.objIsCollection od then op.collectionVsNonObj
    else if E.objHasToString od then ret (op.str sd (E.objInvokeToString od))
    else ret (op.prim (.b false) (.b true))
  match cell with
  | .uninit | .null => ret (op.prim (.b false) (.b true))
  | .bool b => ret (op.prim (.b b) (.b (E.objToBoolean od)))
  | .int num =>
    if E.objIsCollection od then op.collectionVsNonObj
    else ret (op.prim (.i num) (.i (E.objToInt64 od)))
  | .dbl dbl =>
    if E.objIsCollection od then op.collectionVsNonObj
    else ret (op.prim (.d dbl) (.d (E.objToDouble od)))
  | .str _ pstr => strRelOp pstr
  | .vec _ _ => op.vecVsNonVec
  | .dict _ _ => op.dictVsNonDict
  | .keyset _ _ => op.keysetVsNonKeyset
  | .arr _ _ =>
    raiseIf op.noticeOnArrNonArr .arrNonArr
      (if E.objIsCollection od then op.collectionVsNonObj
       else ret (op.prim (.b false) (.b true)))
  | .obj pobj => ret (op.obj pobj od)
  | .res _ => ret (op.prim (.b false) (.b true))
  | .func pfunc => raise .funcToString (strRelOp (E.funcName pfunc))
  | .cls pclass => raise .classToString (strRelOp (E.className pclass))
  | .clsmeth _ =>
    if F.EvalHackArrDVArrs then op.clsmethVsNonClsMeth
    else
      raiseIf op.noticeOnArrNonArr .arrNonArr
        (if E.objIsCollection od then op.collectionVsNonObj
         else ret (op.prim (.b false) (.b true)))
  | .record _ => op.recordVsNonRecord
  | .ref => throw .notReached

/-- The overload `cellRelOp(Op, Cell, const RecordData*)`.  On a cell that is
not a record the result of `recordVsNonRecord()` is dropped and the record
field of the cell is read all the same. -/
def cellRelOpRecord (op : Op R) (cell : Cell) (rec : RecordData) : Outcome R :=
  match cell with
  | .record prec => op.record prec rec
  | _ => Outcome.bind op.recordVsNonRecord (fun _ => throw .invalidRead)

/-- The overloads `cellRelOp(Op, Cell, const ResourceData*)` and
`cellRelOp(Op, Cell, const ResourceHdr*)`. -/
def cellRelOpResource (E : Env) (F : RuntimeOption) (op : Op R) (cell : Cell)
    (rd : ResourceData) : Outcome R :=
  match cell with
  | .uninit | .null => ret (op.prim (.b false) (.b true))
  | .bool b => ret (op.prim (.b b) (.b (E.resToBoolean rd)))
  | .int num => ret (op.prim (.i num) (.i (E.resToInt64 rd)))
  | .dbl dbl => ret (op.prim (.d dbl) (.d (E.resToDouble rd)))
  | .str _ pstr => ret (op.prim (.d (E.strToDouble pstr)) (.d (E.resToDouble rd)))
  | .vec _ _ => op.vecVsNonVec
  | .dict _ _ => op.dictVsNonDict
  | .keyset _ _ => op.keysetVsNonKeyset
  | .arr _ _ =>
    raiseIf op.noticeOnArrNonArr .arrNonArr (ret (op.prim (.b true) (.b false)))
  | .obj _ => ret (op.prim (.b true) (.b false))
  | .res pres => ret (op.res pres rd)
  | .func pfunc =>
    raise .funcToString
      (ret (op.prim (.d (E.strToDouble (E.funcName pfunc))) (.d (E.resToDouble rd))))
  | .cls pclass =>
    raise .classToString
      (ret (op.prim (.d (E.strToDouble (E.className pclass))) (.d (E.resToDouble rd))))
  | .clsmeth _ =>
    raise .clsMethToVec
      (if F.EvalHackArrDVArrs then op.vecVsNonVec
       else raiseIf op.noticeOnArrNonArr .arrNonArr (ret (op.prim (.b true) (.b false))))
  | .record _ => op.recordVsNonRecord
  | .ref => throw .notReached

/-- The function `cellRelOpVec`. -/
def cellRelOpVec (E : Env) (F : RuntimeOption) (op : Op R) (cell : Cell)
    (a : ArrayData) : Outcome R :=
  match cell with
  | .clsmeth pclsmeth =>
    if F.EvalHackArrDVArrs then
      raise .clsMethToVec (ret (op.vec (E.clsMethToVec pclsmeth) a))
    else op.vecVsNonVec
  | .vec _ parr => ret (op.vec parr a)
  | _ =>
    if cell.isDictType then op.dictVsNonDict
    else if cell.isKeysetType then op.keysetVsNonKeyset
    else raiseIf (op.noticeOnArrHackArr && cell.isArrayType) .arrHackArr op.vecVsNonVec

/-- The function `cellRelOpDict`. -/
def cellRelOpDict (op : Op R) (cell : Cell) (a : ArrayData) : Outcome R :=
  match cell with
  | .dict _ parr => op.dict parr a
  | _ =>
    if cell.isVecType then op.vecVsNonVec
    else if cell.isKeysetType then op.keysetVsNonKeyset
    else raiseIf (op.noticeOnArrHackArr && cell.isArrayType) .arrHackArr op.dictVsNonDict

/-- The function `cellRelOpKeyset`. -/
def cellRelOpKeyset (op : Op R) (cell : Cell) (a : ArrayData) : Outcome R :=
  match cell with
  | .keyset _ parr => op.keyset parr a
  | _ =>
    if cell.isVecType then op.vecVsNonVec
    else if cell.isDictType then op.dictVsNonDict
    else raiseIf (op.noticeOnArrHackArr && cell.isArrayType) .arrHackArr op.keysetVsNonKeyset

/-- The overload `cellRelOp(Op, Cell, ClsMethDataRef)`. -/
def cellRelOpClsMeth (E : Env) (F : RuntimeOption) (op : Op R) (cell : Cell)
    (clsMeth : ClsMethDataRef) : Outcome R :=
  match cell with
  | .uninit | .null | .int _ | .dbl _ | .str _ _ | .func _ | .cls _ | .res _ =>
    if F.EvalHackArrDVArrs then op.clsmethVsNonClsMeth
    else ret (op.prim (.b false) (.b true))
  | .bool b =>
    if F.EvalHackArrDVArrs then op.clsmethVsNonClsMeth
    else ret (op.prim (.i (if b then 1 else 0)) (.b true))
  | .clsmeth pclsmeth => op.clsmeth pclsmeth clsMeth
  | .dict _ _ => op.dictVsNonDict
  | .keyset _ _ => op.keysetVsNonKeyset
  | .arr _ parr =>
    if F.EvalHackArrDVArrs then op.clsmethVsNonClsMeth
    else raise .clsMethToVec (ret (op.arr parr (E.clsMethToVec clsMeth)))
  | .vec _ parr =>
    if F.EvalHackArrDVArrs then
      raise .clsMethToVec (ret (op.vec parr (E.clsMethToVec clsMeth)))
    else op.vecVsNonVec
  | .obj od =>
    if F.EvalHackArrDVArrs then op.clsmethVsNonClsMeth
    else if E.objIsCollection od then op.collectionVsNonObj
    else ret (op.prim (.b true) (.b false))
  | .record _ => op.recordVsNonRecord
  | .ref => throw .notReached

/-- The overload `cellRelOp(Op, Cell, const Func*)`; every call of
`funcToStringHelper(val)` is a `funcToString` entry of the log. -/
def cellRelOpFunc (E : Env) (F : RuntimeOption) (op : Op R) (cell : Cell)
    (val : Func) : Outcome R :=
  match cell with
  | .uninit | .null => raise .funcToString (ret (op.str staticEmptyString (E.funcName val)))
  | .int num =>
    raise .funcToString
      (match E.stringToNumeric (E.funcName val) with
       | .int n => ret (op.prim (.i num) (.i n))
       | .dbl d => ret (op.prim (.i num) (.d d))
       | .none => ret (op.prim (.i num) (.i 0)))
  | .bool b => raise .funcToString (ret (op.prim (.b b) (.b (E.strToBoolean (E.funcName val)))))
  | .dbl dbl =>
    raise .funcToString
      (match E.stringToNumeric (E.funcName val) with
       | .int n => ret (op.prim (.d dbl) (.i n))
       | .dbl d => ret (op.prim (.d dbl) (.d d))
       | .none => ret (op.prim (.d dbl) (.i 0)))
  | .str _ pstr => raise .funcToString (ret (op.str pstr (E.funcName val)))
  | .vec _ _ => op.vecVsNonVec
  | .dict _ _ => op.dictVsNonDict
  | .keyset _ _ => op.keysetVsNonKeyset
  | .arr _ _ =>
    raiseIf op.noticeOnArrNonArr .arrNonArr
      (raise .funcToString (ret (op.prim (.b true) (.b false))))
  | .obj od =>
    if E.objIsCollection od then op.collectionVsNonObj
    else if E.objHasToString od then
      raise .funcToString (ret (op.str (E.objInvokeToString od) (E.funcName val)))
    else ret (op.prim (.b true) (.b false))
  | .res rd =>
    raise .funcToString
      (ret (op.prim (.d (E.resToDouble rd)) (.d (E.strToDouble (E.funcName val)))))
  | .func pfunc => op.func pfunc val
  | .cls pclass =>
    raise .classToString (raise .funcToString
      (ret (op.str (E.className pclass) (E.funcName val))))
  | .clsmeth _ =>
    raise .clsMethToVec
      (if F.EvalHackArrDVArrs then op.vecVsNonVec
       else
         raiseIf op.noticeOnArrNonArr .arrNonArr
           (raise .funcToString (ret (op.prim (.b true) (.b false)))))
  | .record _ => op.recordVsNonRecord
  | .ref => throw .notReached

/-- The overload `cellRelOp(Op, Cell, const Class*)`; every call of
`classToStringHelper(val)` is a `classToString` entry of the log. -/
def cellRelOpClass (E : Env) (F : RuntimeOption) (op : Op R) (cell : Cell)
    (val : Class) : Outcome R :=
  match cell with
  | .uninit | .null =>
    raise .classToString (ret (op.str staticEmptyString (E.className val)))
  | .int num =>
    raise .classToString
      (match E.stringToNumeric (E.className val) with
       | .int n => ret (op.prim (.i num) (.i n))
       | .dbl d => ret (op.prim (.i num) (.d d))
       | .none => ret (op.prim (.i num) (.i 0)))
  | .bool b =>
    raise .classToString (ret (op.prim (.b b) (.b (E.strToBoolean (E.className val)))))
  | .dbl dbl =>
    raise .classToString
      (match E.stringToNumeric (E.className val) with
       | .int n => ret (op.prim (.d dbl) (.i n))
       | .dbl d => ret (op.prim (.d dbl) (.d d))
       | .none => ret (op.prim (.d dbl) (.i 0)))
  | .str _ pstr => raise .classToString (ret (op.str pstr (E.className val)))
  | .vec _ _ => op.vecVsNonVec
  | .dict _ _ => op.dictVsNonDict
  | .keyset _ _ => op.keysetVsNonKeyset
  | .arr _ _ =>
    raiseIf op.noticeOnArrNonArr .arrNonArr
      (raise .classToString (ret (op.prim (.b true) (.b false))))
  | .obj od =>
    if E.objIsCollection od then op.collectionVsNonObj
    else if E.objHasToString od then
      raise .classToString (ret (op.str (E.objInvokeToString od) (E.className val)))
    else ret (op.prim (.b true) (.b false))
  | .res rd =>
    raise .classToString
      (ret (op.prim (.d (E.resToDouble rd)) (.d (E.strToDouble (E.className val)))))
  | .func pfunc =>
    raise .funcToString (raise .classToString
      (ret (op.str (E.funcName pfunc) (E.className val))))
  | .cls pclass => op.cls pclass val
  | .clsmeth _ =>
    raise .clsMethToVec
      (if F.EvalHackArrDVArrs then op.vecVsNonVec
       else
         raiseIf op.noticeOnArrNonArr .arrNonArr
           (raise .classToString (ret (op.prim (.b true) (.b false)))))
  | .record _ => op.recordVsNonRecord
  | .ref => throw .notReached

/-- The overload `cellRelOp(Op, Cell, Cell)`: the kind of the second operand
selects the overload that inspects the first. -/
def cellRelOp (E : Env) (F : RuntimeOption) (op : Op R) (c1 c2 : Cell) : Outcome R :=
  match c2 with
  | .uninit | .null =>
    match c1 with
    | .str _ pstr => ret (op.str pstr staticEmptyString)
    | .obj _ => ret (op.prim (.b true) (.b false))
    | _ => cellRelOpBool E F op c1 false
  | .int num => cellRelOpInt64 E F op c1 num
  | .bool b => cellRelOpBool E F op c1 b
  | .dbl dbl => cellRelOpDouble E F op c1 dbl
  | .str _ pstr => cellRelOpString E F op c1 pstr
  | .vec _ parr => cellRelOpVec E F op c1 parr
  | .dict _ parr => cellRelOpDict op c1 parr
  | .keyset _ parr => cellRelOpKeyset op c1 parr
  | .arr _ parr => cellRelOpArray E F op c1 parr
  | .obj pobj => cellRelOpObject E F op c1 pobj
  | .res pres => cellRelOpResource E F op c1 pres
  | .func pfunc => cellRelOpFunc E F op c1 pfunc
  | .cls pclass => cellRelOpClass E F op c1 pclass
  | .clsmeth pclsmeth => cellRelOpClsMeth E F op c1 pclsmeth
  | .record prec => cellRelOpRecord op c1 prec
  | .ref => throw .notReached

end Dispatch

/-! ## Strict equality -/

/-- The function `cellSame`; `phpArrayCheck` is its local notice helper. -/
def cellSame (E : Env) (F : RuntimeOption) (c1 c2 : Cell) : Outcome Bool :=
  if c1.isNullType && c2.isNullType then ret true
  else if c1.isNullType || c2.isNullType then ret false
  else
    let phpArrayCheck := fun (k : Outcome Bool) =>
      raiseIf (F.checkHACCompare && c2.isArrayType) .arrHackArr k
    match c1 with
    | .bool v =>
      match c2 with
      | .bool w => ret (decide (v = w))
      | _ => ret false
    | .int num =>
      match c2 with
      | .int num2 => ret (decide (num = num2))
      | _ => ret false
    | .dbl dbl =>
      match c2 with
      | .dbl dbl2 => ret (Dbl.eq dbl dbl2)
      | _ => ret false
    | .str _ pstr =>
      match c2 with
      | .func pfunc => raise .funcToString (ret (E.strSame pstr (E.funcName pfunc)))
      | .cls pclass => raise .classToString (ret (E.strSame pstr (E.className pclass)))
      | .str _ pstr2 => ret (E.strSame pstr pstr2)
      | _ => ret false
    | .func pfunc =>
      match c2 with
      | .str _ pstr2 => raise .funcToString (ret (E.strSame (E.funcName pfunc) pstr2))
      | .func pfunc2 => ret (decide (pfunc = pfunc2))
      | _ => ret false
    | .cls pclass =>
      match c2 with
      | .str _ pstr2 => raise .classToString (ret (E.strSame (E.className pclass) pstr2))
      | .cls pclass2 => ret (decide (pclass = pclass2))
      | _ => ret false
    | .vec _ parr =>
      match c2 with
      | .clsmeth pclsmeth =>
        if !F.EvalHackArrDVArrs then ret false
        else raise .clsMethToVec (ret (E.vecSame parr (E.clsMethToVec pclsmeth)))
      | .vec _ parr2 => ret (E.vecSame parr parr2)
      | _ => phpArrayCheck (ret false)
    | .dict _ parr =>
      match c2 with
      | .dict _ parr2 => ret (E.dictSame parr parr2)
      | _ => phpArrayCheck (ret false)
    | .keyset _ parr =>
      match c2 with
      | .keyset _ parr2 => ret (E.keysetSame parr parr2)
      | _ => phpArrayCheck (ret false)
    | .arr _ parr =>
      match c2 with
      | .clsmeth pclsmeth =>
        if F.EvalHackArrDVArrs then ret false
        else raise .clsMethToVec (ret (E.arrSame parr (E.clsMethToVec pclsmeth)))
      | .arr _ parr2 => ret (E.arrSame parr parr2)
      | _ => raiseIf (F.checkHACCompare && c2.isHackArrayType) .arrHackArr (ret false)
    | .obj pobj =>
      match c2 with
      | .obj pobj2 => ret (decide (pobj = pobj2))
      | _ => ret false
    | .res pres =>
      match c2 with
      | .res pres2 => ret (decide (pres = pres2))
      | _ => ret false
    | .clsmeth pclsmeth =>
      match c2 with
      | .vec _ parr2 =>
        if F.EvalHackArrDVArrs then
          raise .clsMethToVec (ret (E.vecSame (E.clsMethToVec pclsmeth) parr2))
        else ret false
      | .arr _ parr2 =>
        if F.EvalHackArrDVArrs then ret false
        else raise .clsMethToVec (ret (E.arrSame (E.clsMethToVec pclsmeth) parr2))
      | .clsmeth pclsmeth2 => ret (decide (pclsmeth = pclsmeth2))
      | _ => ret false
    | .record prec =>
      match c2 with
      | .record prec2 => ret (E.recSame prec prec2)
      | _ => ret false
    | .uninit | .null | .ref => throw .notReached

/-! ## Public entry points -/

/-- The function `cellEqual(Cell, Cell)`. -/
def cellEqual (E : Env) (F : RuntimeOption) (c1 c2 : Cell) : Outcome Bool :=
  cellRelOp E F (Policy.Eq E F) c1 c2

/-- The function `cellLess(Cell, Cell)`. -/
def cellLess (E : Env) (F : RuntimeOption) (c1 c2 : Cell) : Outcome Bool :=
  cellRelOp E F (Policy.Lt E F) c1 c2

/-- The function `cellGreater(Cell, Cell)`. -/
def cellGreater (E : Env) (F : RuntimeOption) (c1 c2 : Cell) : Outcome Bool :=
  cellRelOp E F (Policy.Gt E F) c1 c2

/-- The function `cellCompare(Cell, Cell)`. -/
def cellCompare (E : Env) (F : RuntimeOption) (c1 c2 : Cell) : Outcome Int :=
  cellRelOp E F (Policy.Cmp E F) c1 c2

/-- The function `cellLessOrEqual(Cell, Cell)`. -/
def cellLessOrEqual (E : Env) (F : RuntimeOption) (c1 c2 : Cell) : Outcome Bool :=
  cellRelOp E F (Policy.Lte E F) c1 c2

/-- The function `cellGreaterOrEqual(Cell, Cell)`. -/
def cellGreaterOrEqual (E : Env) (F : RuntimeOption) (c1 c2 : Cell) : Outcome Bool :=
  cellRelOp E F (Policy.Gte E F) c1 c2

/-! ## A concrete environment

A small runtime on which the definitions can be evaluated: strings are
compared by content, the parser knows the decimal strings `"123"` and
`"1.5"`, containers, objects and records are compared by address, functions
and classes are named `f`, `ff`, ... and `C`, `CC`, ... after their address,
and the boolean conversion follows the payload. -/

/-- Three-way comparison of two integers or addresses. -/
def cmp3 (a b : Int) : Int := if a = b then 0 else if b < a then 1 else -1

/-- The boolean conversion of the example runtime. -/
def exampleCellToBool : Cell → Bool
  | .bool v => v
  | .int n => decide (n ≠ 0)
  | .dbl d => d.nonZero
  | .str _ s => decide (s ≠ "" ∧ s ≠ "0")
  | .vec _ a | .dict _ a | .keyset _ a | .arr _ a => decide (a.addr ≠ 0)
  | .obj _ | .res _ | .func _ | .cls _ | .clsmeth _ => true
  | _ => false

/-- The example runtime. -/
def exampleEnv : Env where
  stringToNumeric := fun s =>
    if s = "123" then .int 123 else if s = "1.5" then .dbl (.fin (3 / 2)) else .none
  strEqual := fun s t => decide (s = t)
  strSame := fun s t => decide (s = t)
  strCompare := fun s t => if s = t then 0 else if s.data < t.data then -1 else 1
  strToBoolean := fun s => decide (s ≠ "" ∧ s ≠ "0")
  strToDouble := fun s => if s = "123" then .fin 123 else if s = "1.5" then .fin (3 / 2) else .fin 0
  arrEmpty := fun a => decide (a.addr = 0)
  arrEqual := fun a b => decide (a = b)
  arrSame := fun a b => decide (a = b)
  arrLt := fun a b => decide (a.addr < b.addr)
  arrLte := fun a b => decide (a.addr ≤ b.addr)
  arrGt := fun a b => decide (b.addr < a.addr)
  arrGte := fun a b => decide (b.addr ≤ a.addr)
  arrCompare := fun a b => cmp3 a.addr b.addr
  vecEqual := fun a b => decide (a = b)
  vecSame := fun a b => decide (a = b)
  vecLt := fun a b => decide (a.addr < b.addr)
  vecLte := fun a b => decide (a.addr ≤ b.addr)
  vecGt := fun a b => decide (b.addr < a.addr)
  vecGte := fun a b => decide (b.addr ≤ a.addr)
  vecCmp := fun a b => cmp3 a.addr b.addr
  dictEqual := fun a b => decide (a = b)
  dictSame := fun a b => decide (a = b)
  keysetEqual := fun a b => decide (a = b)
  keysetSame := fun a b => decide (a = b)
  objIsCollection := fun o => decide (o.addr % 2 = 1)
  objHasToString := fun o => decide (o.addr % 4 = 0)
  objInvokeToString := fun _ => "object"
  objToInt64 := fun _ => 1
  objToDouble := fun _ => .fin 1
  objToBoolean := fun _ => true
  objEqual := fun a b => decide (a = b)
  objLess := fun a b => decide (a.addr < b.addr)
  objLessEqual := fun a b => decide (a.addr ≤ b.addr)
  objMore := fun a b => decide (b.addr < a.addr)
  objMoreEqual := fun a b => decide (b.addr ≤ a.addr)
  objCompare := fun a b => cmp3 a.addr b.addr
  resToInt64 := fun r => r.addr
  resToDouble := fun r => Dbl.ofInt r.addr
  resToBoolean := fun _ => true
  funcName := fun f => String.mk (List.replicate (f.addr + 1) 'f')
  className := fun c => String.mk (List.replicate (c.addr + 1) 'C')
  clsMethToVec := fun m => ⟨1000 + 2 * m.getCls.addr + m.getFunc.addr⟩
  recEqual := fun a b => decide (a = b)
  recSame := fun a b => decide (a = b)
  cellToBool := exampleCellToBool

/-- A configuration with every flag off. -/
def flagsOff : RuntimeOption := ⟨false, false, false⟩

/-- A configuration with every flag on. -/
def flagsOn : RuntimeOption := ⟨true, true, true⟩

/-! ## Auxiliary predicates used by the proofs -/

/-- Whether a primitive operand is a number (anything but a not-a-number double). -/
def Prim.isNum : Prim → Bool
  | .d x => x.isNum
  | _ => true

/-- The three-way result `c` agrees with the booleans of less, equal, greater. -/
@[irreducible]
def ThreeWay (c : Int) (l e g : Bool) : Prop :=
  (c < 0 ↔ l = true) ∧ (c = 0 ↔ e = true) ∧ (0 < c ↔ g = true)

/-- Whenever the four calls (compare, less, equal, greater) all return, their
values agree. -/
def Agree (C : Outcome Int) (L E G : Outcome Bool) : Prop :=
  ∀ c l e g, C.res = .ok c → L.res = .ok l → E.res = .ok e → G.res = .ok g → ThreeWay c l e g

/-- Both calls return, and their values are related by `P`. -/
def Both {α β : Type} (P : α → β → Prop) (X : Outcome α) (Y : Outcome β) : Prop :=
  ∃ x y, X.res = .ok x ∧ Y.res = .ok y ∧ P x y

/-- The primitive operand a parsed string stands for: the number found, or zero. -/
def Numeric.toPrim : Numeric → Prim
  | .int n => .i n
  | .dbl d => .d d
  | .none => .i 0

/-- Every value the call returns satisfies `P`. -/
def Always {α : Type} (P : α → Prop) (X : Outcome α) : Prop :=
  ∀ x, X.res = .ok x → P x

/-- The call neither reaches `not_reached()` nor reads a field under the wrong
discriminant. -/
def NoFatal {α : Type} (X : Outcome α) : Prop :=
  X.res ≠ .error .notReached ∧ X.res ≠ .error .invalidRead

/-- Each of the five ordering operators (less, lessOrEqual, greater,
greaterOrEqual, compare) on the operands `a`, `b` throws the error `e`. -/
def OrderingsThrow (E : Env) (F : RuntimeOption) (a b : Cell) (e : Err) : Prop :=
  (cellLess E F a b).res = .error e ∧ (cellLessOrEqual E F a b).res = .error e ∧
  (cellGreater E F a b).res = .error e ∧ (cellGreaterOrEqual E F a b).res = .error e ∧
  (cellCompare E F a b).res = .error e

/-- The cell with its storage class erased: a persistent string, vector,
dictionary, set or legacy array becomes its non-persistent twin with the same
payload, and Uninit becomes Null. -/
def Cell.eraseStorage : Cell → Cell
  | .uninit => .null
  | .str _ pstr => .str false pstr
  | .vec _ parr => .vec false parr
  | .dict _ parr => .dict false parr
  | .keyset _ parr => .keyset false parr
  | .arr _ parr => .arr false parr
  | c => c

/-! ## Basic facts about outcomes and primitive operators -/

@[simp] theorem Outcome.raiseIf_true {α : Type} (d : Diag) (k : Outcome α) :
    raiseIf true d k = raise d k := rfl

@[simp] theorem Outcome.raiseIf_false {α : Type} (d : Diag) (k : Outcome α) :
    raiseIf false d k = k := rfl

@[simp] theorem Outcome.ret_res {α : Type} (v : α) : (ret v).res = .ok v := rfl

@[simp] theorem Outcome.ret_log {α : Type} (v : α) : (ret v).log = [] := rfl

@[simp] theorem Outcome.throw_res {α : Type} (e : Err) : (throw e : Outcome α).res = .error e :=
  rfl

@[simp] theorem Outcome.throw_log {α : Type} (e : Err) : (throw e : Outcome α).log = [] := rfl

@[simp] theorem Outcome.raise_res {α : Type} (d : Diag) (k : Outcome α) :
    (raise d k).res = k.res := rfl

@[simp] theorem Outcome.raise_log {α : Type} (d : Diag) (k : Outcome α) :
    (raise d k).log = d :: k.log := rfl

@[simp] theorem Outcome.raiseIf_res {α : Type} (c : Bool) (d : Diag) (k : Outcome α) :
    (raiseIf c d k).res = k.res := by
  cases c <;> rfl

@[simp] theorem Outcome.bind_throw {α β : Type} (e : Err) (k : α → Outcome β) :
    Outcome.bind (throw e) k = throw e := rfl

/-! ## Numeric-string coercion -/

/-- C1: for each of equal, less, lessOrEqual, greater, greaterOrEqual and
compare, an integer against a string is the policy's primitive operator on
the integer and the number the string parses to (an integer, a double, or
zero for a non-numeric string), the parsed number standing on the side of the
string; so `equal(123, "123")` and `equal(0, "abc")` are true once the parser
reads `"123"` as 123 and `"abc"` as not numeric. -/
theorem C1_numeric_string_coercion (E : Env) (F : RuntimeOption) (i : Int) (p : Bool)
    (s : StringData) :
    (cellEqual E F (.int i) (.str p s) = ret (match E.stringToNumeric s with
      | .int n => primEq (.i i) (.i n)
      | .dbl d => primEq (.i i) (.d d)
      | .none => primEq (.i i) (.i 0))) ∧
    (cellEqual E F (.str p s) (.int i) = ret (match E.stringToNumeric s with
      | .int n => primEq (.i n) (.i i)
      | .dbl d => primEq (.d d) (.i i)
      | .none => primEq (.i 0) (.i i))) ∧
    (cellLess E F (.int i) (.str p s) = ret (match E.stringToNumeric s with
      | .int n => primLt (.i i) (.i n)
      | .dbl d => primLt (.i i) (.d d)
      | .none => primLt (.i i) (.i 0))) ∧
    (cellLess E F (.str p s) (.int i) = ret (match E.stringToNumeric s with
      | .int n => primLt (.i n) (.i i)
      | .dbl d => primLt (.d d) (.i i)
      | .none => primLt (.i 0) (.i i))) ∧
    (cellLessOrEqual E F (.int i) (.str p s) = ret (match E.stringToNumeric s with
      | .int n => primLte (.i i) (.i n)
      | .dbl d => primLte (.i i) (.d d)
      | .none => primLte (.i i) (.i 0))) ∧
    (cellLessOrEqual E F (.str p s) (.int i) = ret (match E.stringToNumeric s with
      | .int n => primLte (.i n) (.i i)
      | .dbl d => primLte (.d d) (.i i)
      | .none => primLte (.i 0) (.i i))) ∧
    (cellGreater E F (.int i) (.str p s) = ret (match E.stringToNumeric s with
      | .int n => primGt (.i i) (.i n)
      | .dbl d => primGt (.i i) (.d d)
      | .none => primGt (.i i) (.i 0))) ∧
    (cellGreater E F (.str p s) (.int i) = ret (match E.stringToNumeric s with
      | .int n => primGt (.i n) (.i i)
      | .dbl d => primGt (.d d) (.i i)
      | .none => primGt (.i 0) (.i i))) ∧
    (cellGreaterOrEqual E F (.int i) (.str p s) = ret (match E.stringToNumeric s with
      | .int n => primGte (.i i) (.i n)
      | .dbl d => primGte (.i i) (.d d)
      | .none => primGte (.i i) (.i 0))) ∧
    (cellGreaterOrEqual E F (.str p s) (.int i) = ret (match E.stringToNumeric s with
      | .int n => primGte (.i n) (.i i)
      | .dbl d => primGte (.d d) (.i i)
      | .none => primGte (.i 0) (.i i))) ∧
    (cellCompare E F (.int i) (.str p s) = ret (match E.stringToNumeric s with
      | .int n => PHPPrimitiveCmp (.i i) (.i n)
      | .dbl d => PHPPrimitiveCmp (.i i) (.d d)
      | .none => PHPPrimitiveCmp (.i i) (.i 0))) ∧
    (cellCompare E F (.str p s) (.int i) = ret (match E.stringToNumeric s with
      | .int n => PHPPrimitiveCmp (.i n) (.i i)
      | .dbl d => PHPPrimitiveCmp (.d d) (.i i)
      | .none => PHPPrimitiveCmp (.i 0) (.i i))) ∧
    (E.stringToNumeric "123" = .int 123 →
      cellEqual E F (.int 123) (.str p "123") = ret true) ∧
    (E.stringToNumeric "abc" = .none →
      cellEqual E F (.int 0) (.str p "abc") = ret true) := by
  refine ⟨?_, ?_, ?_, ?_, ?_, ?_, ?_, ?_, ?_, ?_, ?_, ?_, ?h1, ?h2⟩
  case h1 =>
    intro h
    simp only [cellEqual, cellRelOp, cellRelOpString, h]
    rfl
  case h2 =>
    intro h
    simp only [cellEqual, cellRelOp, cellRelOpString, h]
    rfl
  all_goals
    simp only [cellEqual, cellLess, cellLessOrEqual, cellGreater, cellGreaterOrEqual,
      cellCompare, cellRelOp, cellRelOpString, cellRelOpInt64, strRelOp, Policy.Eq,
      Policy.Lt, Policy.Lte, Policy.Gt, Policy.Gte, Policy.Cmp, CompareBase]
    try (cases E.stringToNumeric s <;> rfl)

/-- Witness of C1 on the example runtime, whose parser reads `"123"` as 123 and
`"abc"` as not numeric. -/
theorem C1_numeric_string_coercion_witness :
    cellEqual exampleEnv flagsOff (.int 123) (.str false "123") = ret true ∧
    cellEqual exampleEnv flagsOff (.int 0) (.str false "abc") = ret true :=
  ⟨(C1_numeric_string_coercion exampleEnv flagsOff 123 false "123").2.2.2.2.2.2.2.2.2.2.2.2.1
      (by decide),
   (C1_numeric_string_coercion exampleEnv flagsOff 0 false "abc").2.2.2.2.2.2.2.2.2.2.2.2.2
      (by decide)⟩

/-! ## Isolation of the newer container family -/

/-- C2: equal on two operands of different newer-family kinds (vector,
dictionary, set), in either order and whatever the handles and flags, returns
false and raises neither an error nor a diagnostic. -/
theorem C2_equal_across_hack_arrays (E : Env) (F : RuntimeOption) (p q : Bool)
    (x y : ArrayData) :
    cellEqual E F (.vec p x) (.dict q y) = ret false ∧
    cellEqual E F (.dict q y) (.vec p x) = ret false ∧
    cellEqual E F (.vec p x) (.keyset q y) = ret false ∧
    cellEqual E F (.keyset q y) (.vec p x) = ret false ∧
    cellEqual E F (.dict p x) (.keyset q y) = ret false ∧
    cellEqual E F (.keyset q y) (.dict p x) = ret false := by
  refine ⟨?_, ?_, ?_, ?_, ?_, ?_⟩ <;> rfl

/-- C3: each ordering operator (less, lessOrEqual, greater, greaterOrEqual,
compare) on two operands of different newer-family kinds raises a mismatch
error (the one of the left operand's kind) and returns no value, in either
order. -/
theorem C3_ordering_across_hack_arrays (E : Env) (F : RuntimeOption) (p q : Bool)
    (x y : ArrayData) :
    (∀ a b : Cell, ∀ e : Err,
      (a, b, e) ∈ [(Cell.vec p x, Cell.dict q y, Err.vecCompare),
                   (Cell.dict q y, Cell.vec p x, Err.dictCompare),
                   (Cell.vec p x, Cell.keyset q y, Err.vecCompare),
                   (Cell.keyset q y, Cell.vec p x, Err.keysetCompare),
                   (Cell.dict p x, Cell.keyset q y, Err.dictCompare),
                   (Cell.keyset q y, Cell.dict p x, Err.keysetCompare)] →
      cellLess E F a b = throw e ∧
      cellLessOrEqual E F a b = throw e ∧
      cellGreater E F a b = throw e ∧
      cellGreaterOrEqual E F a b = throw e ∧
      cellCompare E F a b = throw e) := by
  intro a b e h
  simp only [List.mem_cons, Prod.mk.injEq, List.mem_singleton, List.not_mem_nil,
    or_false] at h
  rcases h with h | h | h | h | h | h <;> obtain ⟨rfl, rfl, rfl⟩ := h <;>
    exact ⟨rfl, rfl, rfl, rfl, rfl⟩

/-- Witness of C3: less on a vector and a dictionary throws the vector
mismatch error. -/
theorem C3_ordering_across_hack_arrays_witness :
    cellLess exampleEnv flagsOff (.vec false ⟨1⟩) (.dict false ⟨2⟩) =
      Outcome.throw Err.vecCompare :=
  (C3_ordering_across_hack_arrays exampleEnv flagsOff false false ⟨1⟩ ⟨2⟩
    (.vec false ⟨1⟩) (.dict false ⟨2⟩) .vecCompare (by simp)).1

/-! ## Not-a-number under the three-way comparison -/

/-- C4: compare of the double not-a-number against any double, on either
side, returns -1; in particular against 1.0. -/
theorem C4_compare_nan (E : Env) (F : RuntimeOption) (d : Dbl) :
    cellCompare E F (.dbl .nan) (.dbl d) = ret (-1) ∧
    cellCompare E F (.dbl d) (.dbl .nan) = ret (-1) ∧
    cellCompare E F (.dbl .nan) (.dbl (.fin 1)) = ret (-1) ∧
    cellCompare E F (.dbl (.fin 1)) (.dbl .nan) = ret (-1) := by
  have h1 : ∀ x : Dbl, PHPPrimitiveCmp (.d .nan) (.d x) = -1 := by
    intro x
    cases x <;> rfl
  have h2 : ∀ x : Dbl, PHPPrimitiveCmp (.d x) (.d .nan) = -1 := by
    intro x
    cases x <;> rfl
  refine ⟨?_, ?_, ?_, ?_⟩ <;>
    simp only [cellCompare, cellRelOp, cellRelOpDouble, Policy.Cmp, CompareBase, h1, h2]

/-! ## Strict equality -/

/-- C5: strict equality does no numeric and no boolean coercion: an integer is
never strictly equal to a double, a string or a boolean, in either order; in
particular `1` against `1.0` and `123` against `"123"`. -/
theorem C5_same_no_coercion (E : Env) (F : RuntimeOption) (i : Int) (d : Dbl) (b p : Bool)
    (s : StringData) :
    cellSame E F (.int i) (.dbl d) = ret false ∧
    cellSame E F (.dbl d) (.int i) = ret false ∧
    cellSame E F (.int i) (.str p s) = ret false ∧
    cellSame E F (.str p s) (.int i) = ret false ∧
    cellSame E F (.bool b) (.int i) = ret false ∧
    cellSame E F (.int i) (.bool b) = ret false ∧
    cellSame E F (.int 1) (.dbl (.fin 1)) = ret false ∧
    cellSame E F (.int 123) (.str p "123") = ret false := by
  refine ⟨?_, ?_, ?_, ?_, ?_, ?_, ?_, ?_⟩ <;> rfl

/-- C6, the claim as stated fails: Uninit and Null are strictly equal although
their kinds differ and neither is a string. -/
theorem C6_same_distinct_kinds_counterexample :
    ¬ (∀ (E : Env) (F : RuntimeOption) (a b : Cell), (cellSame E F a b).res = .ok true →
        a.kind = b.kind ∨
        (∃ p s f, a = .str p s ∧ b = .func f ∧ E.strSame s (E.funcName f) = true) ∨
        (∃ p s f, a = .func f ∧ b = .str p s ∧ E.strSame (E.funcName f) s = true) ∨
        (∃ p s c, a = .str p s ∧ b = .cls c ∧ E.strSame s (E.className c) = true) ∨
        (∃ p s c, a = .cls c ∧ b = .str p s ∧ E.strSame (E.className c) s = true)) := by
  intro h
  have h1 := h exampleEnv flagsOff .uninit .null rfl
  simp [Cell.kind] at h1

/-- C6 as amended: when strict equality returns true the two kinds agree, or
both operands are null-like (Uninit / Null), or one is a string and the other
a function or class whose name is `same` as it, or one is a class-method pair
and the other a vector (unification flag on) or a legacy array (flag off) that
the container's strict equality identifies with the materialised pair. -/
theorem C6_same_kinds (E : Env) (F : RuntimeOption) (a b : Cell)
    (h : (cellSame E F a b).res = .ok true) :
    a.kind = b.kind ∨
    (a.isNullType = true ∧ b.isNullType = true) ∨
    (∃ p s f, a = .str p s ∧ b = .func f ∧ E.strSame s (E.funcName f) = true) ∨
    (∃ p s f, a = .func f ∧ b = .str p s ∧ E.strSame (E.funcName f) s = true) ∨
    (∃ p s c, a = .str p s ∧ b = .cls c ∧ E.strSame s (E.className c) = true) ∨
    (∃ p s c, a = .cls c ∧ b = .str p s ∧ E.strSame (E.className c) s = true) ∨
    (∃ p v m, F.EvalHackArrDVArrs = true ∧ a = .vec p v ∧ b = .clsmeth m ∧
      E.vecSame v (E.clsMethToVec m) = true) ∨
    (∃ p v m, F.EvalHackArrDVArrs = true ∧ a = .clsmeth m ∧ b = .vec p v ∧
      E.vecSame (E.clsMethToVec m) v = true) ∨
    (∃ p v m, F.EvalHackArrDVArrs = false ∧ a = .arr p v ∧ b = .clsmeth m ∧
      E.arrSame v (E.clsMethToVec m) = true) ∨
    (∃ p v m, F.EvalHackArrDVArrs = false ∧ a = .clsmeth m ∧ b = .arr p v ∧
      E.arrSame (E.clsMethToVec m) v = true) := by
  cases a <;> cases b
  case str.func p s f =>
    exact Or.inr (Or.inr (Or.inl ⟨p, s, f, rfl, rfl, by simpa [cellSame, Cell.isNullType] using h⟩))
  case func.str f p s =>
    exact Or.inr (Or.inr (Or.inr (Or.inl
      ⟨p, s, f, rfl, rfl, by simpa [cellSame, Cell.isNullType] using h⟩)))
  case str.cls p s c =>
    exact Or.inr (Or.inr (Or.inr (Or.inr (Or.inl
      ⟨p, s, c, rfl, rfl, by simpa [cellSame, Cell.isNullType] using h⟩))))
  case cls.str c p s =>
    exact Or.inr (Or.inr (Or.inr (Or.inr (Or.inr (Or.inl
      ⟨p, s, c, rfl, rfl, by simpa [cellSame, Cell.isNullType] using h⟩)))))
  case vec.clsmeth p v m =>
    cases hF : F.EvalHackArrDVArrs <;> simp [cellSame, Cell.isNullType, hF] at h
    exact Or.inr (Or.inr (Or.inr (Or.inr (Or.inr (Or.inr (Or.inl
      ⟨p, v, m, rfl, rfl, rfl, h⟩))))))
  case clsmeth.vec m p v =>
    cases hF : F.EvalHackArrDVArrs <;> simp [cellSame, Cell.isNullType, hF] at h
    exact Or.inr (Or.inr (Or.inr (Or.inr (Or.inr (Or.inr (Or.inr (Or.inl
      ⟨p, v, m, rfl, rfl, rfl, h⟩)))))))
  case arr.clsmeth p v m =>
    cases hF : F.EvalHackArrDVArrs <;> simp [cellSame, Cell.isNullType, hF] at h
    exact Or.inr (Or.inr (Or.inr (Or.inr (Or.inr (Or.inr (Or.inr (Or.inr (Or.inl
      ⟨p, v, m, rfl, rfl, rfl, h⟩))))))))
  case clsmeth.arr m p v =>
    cases hF : F.EvalHackArrDVArrs <;> simp [cellSame, Cell.isNullType, hF] at h
    exact Or.inr (Or.inr (Or.inr (Or.inr (Or.inr (Or.inr (Or.inr (Or.inr (Or.inr
      ⟨p, v, m, rfl, rfl, rfl, h⟩))))))))
  all_goals
    simp [cellSame, Cell.isNullType, Cell.kind, Cell.isArrayType, Cell.isHackArrayType,
      Cell.isVecType, Cell.isDictType, Cell.isKeysetType] at h ⊢

/-- Witness of C6 as amended: with the flag on, a class-method pair is strictly
equal to the vector it materialises to. -/
theorem C6_same_kinds_witness :
    (cellSame exampleEnv flagsOn (.clsmeth ⟨⟨0⟩, ⟨0⟩⟩) (.vec false ⟨1000⟩)).res = .ok true ∧
    (∃ p v m, flagsOn.EvalHackArrDVArrs = true ∧
      Cell.clsmeth ⟨⟨0⟩, ⟨0⟩⟩ = .clsmeth m ∧ Cell.vec false ⟨1000⟩ = .vec p v ∧
      exampleEnv.vecSame (exampleEnv.clsMethToVec m) v = true) :=
  ⟨by decide, by
    have h := C6_same_kinds exampleEnv flagsOn (.clsmeth ⟨⟨0⟩, ⟨0⟩⟩) (.vec false ⟨1000⟩)
      (by decide)
    simpa [Cell.kind, Cell.isNullType] using h⟩


/-! ## Symmetry and reflexivity -/

theorem Dbl.eq_symm (x y : Dbl) : Dbl.eq x y = Dbl.eq y x := by
  cases x <;> cases y <;> simp [Dbl.eq, eq_comm]

/-- C7, evaluated on the failing inputs: a record on the left of a vector,
dictionary, set, null or boolean makes equal return a boolean, while the same
pair with the record on the right throws the record-vs-non-record error. -/
theorem C7_equal_record_asymmetry (E : Env) (F : RuntimeOption) (r : RecordData) (p b : Bool)
    (v : ArrayData) :
    cellEqual E F (.record r) (.vec p v) = ret false ∧
    cellEqual E F (.vec p v) (.record r) = Outcome.throw Err.recNonRecCompare ∧
    cellEqual E F (.record r) (.dict p v) = ret false ∧
    cellEqual E F (.dict p v) (.record r) = Outcome.throw Err.recNonRecCompare ∧
    cellEqual E F (.record r) (.keyset p v) = ret false ∧
    cellEqual E F (.keyset p v) (.record r) = Outcome.throw Err.recNonRecCompare ∧
    cellEqual E F (.record r) .null = ret (primEq (.b (E.cellToBool (.record r))) (.b false)) ∧
    cellEqual E F .null (.record r) = Outcome.throw Err.recNonRecCompare ∧
    cellEqual E F (.record r) (.bool b) = ret (primEq (.b (E.cellToBool (.record r))) (.b b)) ∧
    cellEqual E F (.bool b) (.record r) = Outcome.throw Err.recNonRecCompare := by
  refine ⟨?_, ?_, ?_, ?_, ?_, ?_, ?_, ?_, ?_, ?_⟩ <;>
    simp [cellEqual, cellRelOp, cellRelOpVec, cellRelOpDict, cellRelOpKeyset, cellRelOpRecord,
      cellRelOpBool, Cell.isDictType, Cell.isKeysetType, Cell.isVecType,
      Cell.isArrayType, Cell.isClsMethType]

/-- C8: strict equality is symmetric, diagnostics included, on plausible
cells, as soon as the strict-equality collaborators of strings, containers
and records are symmetric. -/
theorem C8_same_symmetric (E : Env) (F : RuntimeOption) (a b : Cell)
    (hstr : ∀ s t, E.strSame s t = E.strSame t s)
    (hvec : ∀ x y, E.vecSame x y = E.vecSame y x)
    (hdict : ∀ x y, E.dictSame x y = E.dictSame y x)
    (hkeyset : ∀ x y, E.keysetSame x y = E.keysetSame y x)
    (harr : ∀ x y, E.arrSame x y = E.arrSame y x)
    (hrec : ∀ x y, E.recSame x y = E.recSame y x)
    (ha : a.isPlausible = true) (hb : b.isPlausible = true) :
    cellSame E F a b = cellSame E F b a := by
  cases a <;> cases b <;>
    simp [cellSame, Cell.isNullType, Cell.isArrayType, Cell.isHackArrayType,
      Cell.isVecType, Cell.isDictType, Cell.isKeysetType, Cell.isPlausible] at ha hb ⊢ <;>
    first
    | (rw [hvec]; cases F.EvalHackArrDVArrs <;> simp)
    | rw [Dbl.eq_symm]
    | rw [hstr]
    | rw [hvec]
    | rw [hdict]
    | rw [hkeyset]
    | rw [harr]
    | rw [hrec]
    | simp only [eq_comm]

/-- Witness of C8 on the example runtime, whose strict equalities compare
contents and addresses. -/
theorem C8_same_symmetric_witness :
    cellSame exampleEnv flagsOn (.vec false ⟨1000⟩) (.clsmeth ⟨⟨0⟩, ⟨0⟩⟩) =
      cellSame exampleEnv flagsOn (.clsmeth ⟨⟨0⟩, ⟨0⟩⟩) (.vec false ⟨1000⟩) :=
  C8_same_symmetric exampleEnv flagsOn (.vec false ⟨1000⟩) (.clsmeth ⟨⟨0⟩, ⟨0⟩⟩)
    (fun s t => by simp [exampleEnv, eq_comm]) (fun x y => by simp [exampleEnv, eq_comm])
    (fun x y => by simp [exampleEnv, eq_comm]) (fun x y => by simp [exampleEnv, eq_comm])
    (fun x y => by simp [exampleEnv, eq_comm]) (fun x y => by simp [exampleEnv, eq_comm])
    rfl rfl

/-- C9, the claim as stated fails: the double not-a-number is neither equal
nor strictly equal to itself. -/
theorem C9_reflexive_counterexample :
    cellEqual exampleEnv flagsOff (.dbl .nan) (.dbl .nan) = ret false ∧
    cellSame exampleEnv flagsOff (.dbl .nan) (.dbl .nan) = ret false := by
  decide

/-- C9 as amended: equal and strict equality are reflexive on every plausible
value other than the double not-a-number, as soon as the equality
collaborators of strings, containers, objects and records are reflexive and
the boolean conversion sends null to false and a boolean to itself. -/
theorem C9_reflexive (E : Env) (F : RuntimeOption) (x : Cell)
    (hstrE : ∀ s, E.strEqual s s = true) (hstrS : ∀ s, E.strSame s s = true)
    (harrE : ∀ a, E.arrEqual a a = true) (harrS : ∀ a, E.arrSame a a = true)
    (hvecE : ∀ a, E.vecEqual a a = true) (hvecS : ∀ a, E.vecSame a a = true)
    (hdictE : ∀ a, E.dictEqual a a = true) (hdictS : ∀ a, E.dictSame a a = true)
    (hkeysetE : ∀ a, E.keysetEqual a a = true) (hkeysetS : ∀ a, E.keysetSame a a = true)
    (hobjE : ∀ o, E.objEqual o o = true)
    (hrecE : ∀ r, E.recEqual r r = true) (hrecS : ∀ r, E.recSame r r = true)
    (hnull : E.cellToBool .null = false) (huninit : E.cellToBool .uninit = false)
    (hbool : ∀ v, E.cellToBool (.bool v) = v)
    (hx : x.isPlausible = true) (hnan : x ≠ .dbl .nan) :
    cellEqual E F x x = ret true ∧ cellSame E F x x = ret true := by
  cases x <;>
    simp [cellEqual, cellSame, cellRelOp, cellRelOpBool, cellRelOpInt64, cellRelOpDouble,
      cellRelOpString, cellRelOpArray, cellRelOpObject, cellRelOpRecord, cellRelOpResource,
      cellRelOpVec, cellRelOpDict, cellRelOpKeyset, cellRelOpClsMeth, cellRelOpFunc,
      cellRelOpClass, Cell.isNullType, Cell.isVecType, Cell.isDictType, Cell.isKeysetType,
      Cell.isClsMethType, Cell.isArrayType, Cell.isPlausible, primEq, Prim.isDbl, Prim.asInt,
      Prim.asDbl, hstrE, hstrS, harrE, harrS, hvecE, hvecS, hdictE, hdictS, hkeysetE,
      hkeysetS, hobjE, hrecE, hrecS, hnull, huninit, hbool] at hx hnan ⊢
  rename_i d
  cases d <;> simp_all [Dbl.eq]

/-- Witness of C9 as amended: a boolean and the double 1.5 on the example
runtime. -/
theorem C9_reflexive_witness :
    cellEqual exampleEnv flagsOn (.dbl (.fin (3 / 2))) (.dbl (.fin (3 / 2))) = ret true ∧
    cellSame exampleEnv flagsOn (.dbl (.fin (3 / 2))) (.dbl (.fin (3 / 2))) = ret true :=
  C9_reflexive exampleEnv flagsOn (.dbl (.fin (3 / 2)))
    (fun _ => by simp [exampleEnv]) (fun _ => by simp [exampleEnv])
    (fun _ => by simp [exampleEnv]) (fun _ => by simp [exampleEnv])
    (fun _ => by simp [exampleEnv]) (fun _ => by simp [exampleEnv])
    (fun _ => by simp [exampleEnv]) (fun _ => by simp [exampleEnv])
    (fun _ => by simp [exampleEnv]) (fun _ => by simp [exampleEnv])
    (fun _ => by simp [exampleEnv])
    (fun _ => by simp [exampleEnv]) (fun _ => by simp [exampleEnv])
    rfl rfl (fun _ => rfl) rfl (by simp)

/-! ## Three-way consistency -/

theorem Dbl.isNum_ofInt (n : Int) : (Dbl.ofInt n).isNum = true := by
  unfold Dbl.ofInt
  split <;> rfl

theorem Dbl.isNum_iff (d : Dbl) : d.isNum = true ↔ d ≠ .nan := by
  cases d <;> simp [Dbl.isNum]

theorem Prim.isNum_b (x : Bool) : Prim.isNum (.b x) = true := rfl

theorem Prim.isNum_i (x : Int) : Prim.isNum (.i x) = true := rfl

theorem Prim.isNum_asDbl (x : Prim) (h : x.isNum = true) : x.asDbl.isNum = true := by
  cases x <;> simp_all [Prim.isNum, Prim.asDbl, Dbl.isNum_ofInt]

theorem Dbl.trichotomy (x y : Dbl) (hx : x.isNum = true) (hy : y.isNum = true) :
    (Dbl.eq x y = true ∧ Dbl.lt x y = false ∧ Dbl.lt y x = false) ∨
    (Dbl.eq x y = false ∧ Dbl.lt x y = true ∧ Dbl.lt y x = false) ∨
    (Dbl.eq x y = false ∧ Dbl.lt x y = false ∧ Dbl.lt y x = true) := by
  cases x <;> cases y <;> simp [Dbl.eq, Dbl.lt, Dbl.isNum] at hx hy ⊢
  rename_i a b
  rcases lt_trichotomy a b with h | h | h
  · right; left
    exact ⟨ne_of_lt h, h, le_of_lt h⟩
  · left
    exact ⟨h, by rw [h], by rw [h]⟩
  · right; right
    exact ⟨ne_of_gt h, le_of_lt h, h⟩

theorem threeWay_prim (x y : Prim) (hx : x.isNum = true) (hy : y.isNum = true) :
    ThreeWay (PHPPrimitiveCmp x y) (primLt x y) (primEq x y) (primGt x y) := by
  unfold ThreeWay PHPPrimitiveCmp primLt primEq primGt
  by_cases hd : (x.isDbl || y.isDbl) = true
  · simp only [hd, if_true, Dbl.gt]
    rcases Dbl.trichotomy x.asDbl y.asDbl (Prim.isNum_asDbl x hx) (Prim.isNum_asDbl y hy)
      with ⟨h1, h2, h3⟩ | ⟨h1, h2, h3⟩ | ⟨h1, h2, h3⟩ <;> simp [h1, h2, h3]
  · simp only [hd]
    rcases lt_trichotomy x.asInt y.asInt with h | h | h
    · simp [h, ne_of_lt h, not_lt_of_lt h]
    · simp [h]
    · simp [h, ne_of_gt h, not_lt_of_lt h]

theorem threeWay_iff (c : Int) (l e g : Bool) :
    ThreeWay c l e g ↔ ((c < 0 ↔ l = true) ∧ (c = 0 ↔ e = true) ∧ (0 < c ↔ g = true)) := by
  unfold ThreeWay
  rfl

theorem threeWay_int (n : Int) (e : Bool) (h : n = 0 ↔ e = true) :
    ThreeWay (PHPPrimitiveCmp (.i n) (.i 0)) (primLt (.i n) (.i 0)) e (primGt (.i n) (.i 0)) := by
  have k := (threeWay_iff _ _ _ _).1 (threeWay_prim (.i n) (.i 0) rfl rfl)
  rw [threeWay_iff]
  refine ⟨k.1, ?_, k.2.2⟩
  rw [k.2.1, ← h]
  simp [primEq, Prim.isDbl, Prim.asInt]

theorem agree_ret (c : Int) (l e g : Bool) :
    Agree (ret c) (ret l) (ret e) (ret g) ↔ ThreeWay c l e g := by
  constructor
  · intro h
    exact h c l e g rfl rfl rfl rfl
  · intro h c1 l1 e1 g1 h1 h2 h3 h4
    simp only [Outcome.ret_res, Except.ok.injEq] at h1 h2 h3 h4
    subst h1 h2 h3 h4
    exact h

theorem agree_throw1 (x : Err) (L E G : Outcome Bool) : Agree (Outcome.throw x) L E G := by
  intro c l e g h
  simp at h

theorem agree_raise1 (d : Diag) (C : Outcome Int) (L E G : Outcome Bool) :
    Agree (raise d C) L E G ↔ Agree C L E G := Iff.rfl

theorem agree_raise2 (d : Diag) (C : Outcome Int) (L E G : Outcome Bool) :
    Agree C (raise d L) E G ↔ Agree C L E G := Iff.rfl

theorem agree_raise3 (d : Diag) (C : Outcome Int) (L E G : Outcome Bool) :
    Agree C L (raise d E) G ↔ Agree C L E G := Iff.rfl

theorem agree_raise4 (d : Diag) (C : Outcome Int) (L E G : Outcome Bool) :
    Agree C L E (raise d G) ↔ Agree C L E G := Iff.rfl

theorem agree_raiseIf1 (b : Bool) (d : Diag) (C : Outcome Int) (L E G : Outcome Bool) :
    Agree (raiseIf b d C) L E G ↔ Agree C L E G := by
  cases b <;> rfl

theorem agree_raiseIf2 (b : Bool) (d : Diag) (C : Outcome Int) (L E G : Outcome Bool) :
    Agree C (raiseIf b d L) E G ↔ Agree C L E G := by
  cases b <;> rfl

theorem agree_raiseIf3 (b : Bool) (d : Diag) (C : Outcome Int) (L E G : Outcome Bool) :
    Agree C L (raiseIf b d E) G ↔ Agree C L E G := by
  cases b <;> rfl

theorem agree_raiseIf4 (b : Bool) (d : Diag) (C : Outcome Int) (L E G : Outcome Bool) :
    Agree C L E (raiseIf b d G) ↔ Agree C L E G := by
  cases b <;> rfl

theorem agree_ite (p : Prop) [Decidable p] (C1 C2 : Outcome Int) (L1 L2 E1 E2 G1 G2 : Outcome Bool) :
    Agree (if p then C1 else C2) (if p then L1 else L2) (if p then E1 else E2)
      (if p then G1 else G2) ↔ (p → Agree C1 L1 E1 G1) ∧ (¬ p → Agree C2 L2 E2 G2) := by
  by_cases h : p <;> simp [h]

theorem agree_numeric (n : Numeric) (C1 : Int → Outcome Int) (C2 : Dbl → Outcome Int)
    (C3 : Unit → Outcome Int) (L1 E1 G1 : Int → Outcome Bool) (L2 E2 G2 : Dbl → Outcome Bool)
    (L3 E3 G3 : Unit → Outcome Bool) :
    Agree (strRelOp.match_1 (fun _ => Outcome Int) n C1 C2 C3)
      (strRelOp.match_1 (fun _ => Outcome Bool) n L1 L2 L3)
      (strRelOp.match_1 (fun _ => Outcome Bool) n E1 E2 E3)
      (strRelOp.match_1 (fun _ => Outcome Bool) n G1 G2 G3) ↔
    (∀ k, n = .int k → Agree (C1 k) (L1 k) (E1 k) (G1 k)) ∧
    (∀ d, n = .dbl d → Agree (C2 d) (L2 d) (E2 d) (G2 d)) ∧
    (n = .none → Agree (C3 ()) (L3 ()) (E3 ()) (G3 ())) := by
  cases n <;> simp

theorem threeWay_numeric (n : Numeric) (C1 : Int → Int) (C2 : Dbl → Int)
    (C3 : Unit → Int) (L1 E1 G1 : Int → Bool) (L2 E2 G2 : Dbl → Bool)
    (L3 E3 G3 : Unit → Bool) :
    ThreeWay (strRelOp.match_1 (fun _ => Int) n C1 C2 C3)
      (strRelOp.match_1 (fun _ => Bool) n L1 L2 L3)
      (strRelOp.match_1 (fun _ => Bool) n E1 E2 E3)
      (strRelOp.match_1 (fun _ => Bool) n G1 G2 G3) ↔
    (∀ k, n = .int k → ThreeWay (C1 k) (L1 k) (E1 k) (G1 k)) ∧
    (∀ d, n = .dbl d → ThreeWay (C2 d) (L2 d) (E2 d) (G2 d)) ∧
    (n = .none → ThreeWay (C3 ()) (L3 ()) (E3 ()) (G3 ())) := by
  cases n <;> simp

theorem threeWay_str (E : Env)
    (hstr : ∀ s t, E.strCompare s t = 0 ↔ E.strEqual s t = true) (s t : StringData) :
    ThreeWay (PHPPrimitiveCmp (.i (E.strCompare s t)) (.i 0))
      (primLt (.i (E.strCompare s t)) (.i 0)) (E.strEqual s t)
      (primGt (.i (E.strCompare s t)) (.i 0)) :=
  threeWay_int _ _ (hstr s t)

theorem threeWay_res (E : Env)
    (hres : ∀ r r', E.resToInt64 r = E.resToInt64 r' → r = r') (r r' : ResourceData) :
    ThreeWay (PHPPrimitiveCmp (.i (E.resToInt64 r)) (.i (E.resToInt64 r')))
      (primLt (.i (E.resToInt64 r)) (.i (E.resToInt64 r'))) (decide (r = r'))
      (primGt (.i (E.resToInt64 r)) (.i (E.resToInt64 r'))) := by
  have h := (threeWay_iff _ _ _ _).1
    (threeWay_prim (.i (E.resToInt64 r)) (.i (E.resToInt64 r')) rfl rfl)
  rw [threeWay_iff]
  refine ⟨h.1, ?_, h.2.2⟩
  rw [h.2.1]
  simp only [primEq, Prim.isDbl, Prim.asInt, Bool.or_self, Bool.false_eq_true, if_false,
    decide_eq_true_eq]
  exact ⟨hres r r', fun h => by rw [h]⟩

theorem threeWay_clsmeth_eq (E : Env)
    (hfn : ∀ f g, E.strCompare (E.funcName f) (E.funcName g) = 0 ↔ f = g)
    (hcn : ∀ c d, E.strCompare (E.className c) (E.className d) = 0 ↔ c = d)
    (m n : ClsMethDataRef)
    (h : ¬ E.strCompare (E.className m.getCls) (E.className n.getCls) ≠ 0) :
    ThreeWay
      (PHPPrimitiveCmp (.i (E.strCompare (E.funcName m.getFunc) (E.funcName n.getFunc))) (.i 0))
      (primLt (.i (E.strCompare (E.funcName m.getFunc) (E.funcName n.getFunc))) (.i 0))
      (decide (m = n))
      (primGt (.i (E.strCompare (E.funcName m.getFunc) (E.funcName n.getFunc))) (.i 0)) := by
  apply threeWay_int
  have hc := (hcn _ _).1 (not_not.1 h)
  rw [hfn, decide_eq_true_eq]
  cases m
  cases n
  simp_all

theorem threeWay_clsmeth_ne (E : Env)
    (hcn : ∀ c d, E.strCompare (E.className c) (E.className d) = 0 ↔ c = d)
    (m n : ClsMethDataRef)
    (h : E.strCompare (E.className m.getCls) (E.className n.getCls) ≠ 0) :
    ThreeWay
      (PHPPrimitiveCmp (.i (E.strCompare (E.className m.getCls) (E.className n.getCls))) (.i 0))
      (primLt (.i (E.strCompare (E.className m.getCls) (E.className n.getCls))) (.i 0))
      (decide (m = n))
      (primGt (.i (E.strCompare (E.className m.getCls) (E.className n.getCls))) (.i 0)) := by
  apply threeWay_int
  rw [decide_eq_true_eq]
  constructor
  · intro h0
    exact absurd h0 h
  · intro hmn
    exact absurd ((hcn _ _).2 (by rw [hmn])) h

theorem agree_ite3 (p : Prop) [Decidable p] (C1 C2 : Outcome Int)
    (L1 L2 G1 G2 : Outcome Bool) (e : Bool) :
    Agree (if p then C1 else C2) (if p then L1 else L2) (ret e)
      (if p then G1 else G2) ↔ (p → Agree C1 L1 (ret e) G1) ∧ (¬ p → Agree C2 L2 (ret e) G2) := by
  by_cases h : p <;> simp [h]

theorem Prim.isNum_of_cell_ne (d : Dbl) (h : Cell.dbl d ≠ Cell.dbl .nan) :
    Prim.isNum (.d d) = true :=
  (Dbl.isNum_iff d).2 (fun e => h (by rw [e]))

/-- C10, the claim as stated fails: on the doubles not-a-number and 1.0 none of
the four operators raises, compare returns -1, and less returns false. -/
theorem C10_three_way_counterexample :
    cellCompare exampleEnv flagsOff (.dbl .nan) (.dbl (.fin 1)) = ret (-1) ∧
    cellLess exampleEnv flagsOff (.dbl .nan) (.dbl (.fin 1)) = ret false ∧
    cellEqual exampleEnv flagsOff (.dbl .nan) (.dbl (.fin 1)) = ret false ∧
    cellGreater exampleEnv flagsOff (.dbl .nan) (.dbl (.fin 1)) = ret false := by
  decide

set_option maxHeartbeats 4000000 in
/-- C10 as amended: on every pair of values that are not both function
references and not both class references, when no operand and no number
produced by a conversion is not-a-number, when the compare collaborators of
strings, arrays, vectors and objects agree with their less / equal / greater
collaborators, and when resources and names identify what they stand for:
if compare, less, equal and greater all return, then compare is negative iff
less, zero iff equal, positive iff greater. -/
theorem C10_three_way (E : Env) (F : RuntimeOption) (a b : Cell)
    (hnum : ∀ s d, E.stringToNumeric s = .dbl d → d.isNum = true)
    (hsd : ∀ s, (E.strToDouble s).isNum = true)
    (hod : ∀ o, (E.objToDouble o).isNum = true)
    (hrd : ∀ r, (E.resToDouble r).isNum = true)
    (hstr : ∀ s t, E.strCompare s t = 0 ↔ E.strEqual s t = true)
    (harr : ∀ x y, (E.arrCompare x y < 0 ↔ E.arrLt x y = true) ∧
      (E.arrCompare x y = 0 ↔ E.arrEqual x y = true) ∧
      (0 < E.arrCompare x y ↔ E.arrGt x y = true))
    (hvec : ∀ x y, (E.vecCmp x y < 0 ↔ E.vecLt x y = true) ∧
      (E.vecCmp x y = 0 ↔ E.vecEqual x y = true) ∧
      (0 < E.vecCmp x y ↔ E.vecGt x y = true))
    (hobj : ∀ x y, (E.objCompare x y < 0 ↔ E.objLess x y = true) ∧
      (E.objCompare x y = 0 ↔ E.objEqual x y = true) ∧
      (0 < E.objCompare x y ↔ E.objMore x y = true))
    (hres : ∀ r r', E.resToInt64 r = E.resToInt64 r' → r = r')
    (hfn : ∀ f g, E.strCompare (E.funcName f) (E.funcName g) = 0 ↔ f = g)
    (hcn : ∀ c d, E.strCompare (E.className c) (E.className d) = 0 ↔ c = d)
    (ha : a ≠ .dbl .nan) (hb : b ≠ .dbl .nan)
    (hff : ¬ (a.isFuncType = true ∧ b.isFuncType = true))
    (hcc : ¬ (a.isClassType = true ∧ b.isClassType = true))
    (c : Int) (l e g : Bool)
    (hc : (cellCompare E F a b).res = .ok c) (hl : (cellLess E F a b).res = .ok l)
    (he : (cellEqual E F a b).res = .ok e) (hg : (cellGreater E F a b).res = .ok g) :
    (c < 0 ↔ l = true) ∧ (c = 0 ↔ e = true) ∧ (0 < c ↔ g = true) := by
  have key : Agree (cellCompare E F a b) (cellLess E F a b) (cellEqual E F a b)
      (cellGreater E F a b) := by
    clear hc hl he hg
    have harr' : ∀ x y, ThreeWay (E.arrCompare x y) (E.arrLt x y) (E.arrEqual x y)
        (E.arrGt x y) := fun x y => (threeWay_iff _ _ _ _).2 (harr x y)
    have hvec' : ∀ x y, ThreeWay (E.vecCmp x y) (E.vecLt x y) (E.vecEqual x y)
        (E.vecGt x y) := fun x y => (threeWay_iff _ _ _ _).2 (hvec x y)
    have hobj' : ∀ x y, ThreeWay (E.objCompare x y) (E.objLess x y) (E.objEqual x y)
        (E.objMore x y) := fun x y => (threeWay_iff _ _ _ _).2 (hobj x y)
    have hnum' : ∀ s d, E.stringToNumeric s = .dbl d → Prim.isNum (.d d) = true := hnum
    replace hod : ∀ o, Prim.isNum (.d (E.objToDouble o)) = true := hod
    replace hrd : ∀ r, Prim.isNum (.d (E.resToDouble r)) = true := hrd
    replace hsd : ∀ s, Prim.isNum (.d (E.strToDouble s)) = true := hsd
    clear harr hvec hobj hnum
    cases a <;> cases b <;>
      simp only [cellCompare, cellLess, cellEqual, cellGreater, cellRelOp, cellRelOpBool,
        cellRelOpInt64, cellRelOpDouble, cellRelOpString, cellRelOpArray, cellRelOpObject,
        cellRelOpRecord, cellRelOpResource, cellRelOpVec, cellRelOpDict, cellRelOpKeyset,
        cellRelOpClsMeth, cellRelOpFunc, cellRelOpClass, strRelOp, Policy.Lt,
        Policy.Gt, Policy.Cmp, Cell.isVecType, Cell.isDictType,
        Cell.isKeysetType, Cell.isClsMethType, Cell.isArrayType, Cell.isFuncType,
        Cell.isClassType, Outcome.bind_throw, Policy.Eq_prim, Policy.Eq_str, Policy.Eq_arr,
        Policy.Eq_func, Policy.Eq_cls, Policy.Eq_obj, Policy.Eq_res, Policy.Eq_vec,
        Policy.Eq_dict, Policy.Eq_keyset, Policy.Eq_clsmeth, Policy.Eq_record,
        Policy.Eq_vecVsNonVec, Policy.Eq_dictVsNonDict, Policy.Eq_keysetVsNonKeyset,
        Policy.Eq_collectionVsNonObj, Policy.Eq_recordVsNonRecord,
        Policy.Eq_clsmethVsNonClsMeth, Policy.Eq_noticeOnArrNonArr,
        Policy.Eq_noticeOnArrHackArr,
        CompareBase_prim, CompareBase_str, CompareBase_arr,
        CompareBase_func, CompareBase_cls, CompareBase_obj, CompareBase_res, CompareBase_vec,
        CompareBase_dict, CompareBase_keyset, CompareBase_clsmeth, CompareBase_record,
        CompareBase_vecVsNonVec, CompareBase_dictVsNonDict, CompareBase_keysetVsNonKeyset,
        CompareBase_collectionVsNonObj, CompareBase_recordVsNonRecord,
        CompareBase_clsmethVsNonClsMeth, CompareBase_noticeOnArrNonArr,
        CompareBase_noticeOnArrHackArr,
        agree_ret, agree_throw1, agree_raise1, agree_raise2,
        agree_raise3, agree_raise4, agree_raiseIf1, agree_raiseIf2, agree_raiseIf3,
        agree_raiseIf4, agree_ite, agree_ite3, agree_numeric, threeWay_numeric, Bool.false_eq_true, if_false, if_true,
        Bool.and_false, Bool.and_true, Bool.false_and, implies_true, and_self,
        Outcome.raiseIf_false]
    all_goals
      repeat' first
        | intro _
        | constructor
    all_goals
      first
      | exact absurd (And.intro (Eq.refl true) (Eq.refl true)) hff
      | exact absurd (And.intro (Eq.refl true) (Eq.refl true)) hcc
      | with_reducible exact threeWay_str E hstr _ _
      | with_reducible exact threeWay_res E hres _ _
      | with_reducible exact harr' _ _
      | with_reducible exact hvec' _ _
      | with_reducible exact hobj' _ _
      | with_reducible exact threeWay_clsmeth_eq E hfn hcn _ _ (by assumption)
      | with_reducible exact threeWay_clsmeth_ne E hcn _ _ (by assumption)
      | with_reducible (refine threeWay_prim _ _ ?_ ?_ <;>
          first
          | exact Prim.isNum_b _
          | exact Prim.isNum_i _
          | exact hod _
          | exact hrd _
          | exact hsd _
          | exact Prim.isNum_of_cell_ne _ ha
          | exact Prim.isNum_of_cell_ne _ hb
          | exact hnum' _ _ (by assumption))
  exact (threeWay_iff _ _ _ _).1 (key c l e g hc hl he hg)


/-! ## The example runtime satisfies the assumptions made on collaborators -/

theorem cmp3_threeWay (a b : Int) :
    (cmp3 a b < 0 ↔ decide (a < b) = true) ∧ (cmp3 a b = 0 ↔ a = b) ∧
    (0 < cmp3 a b ↔ decide (b < a) = true) := by
  unfold cmp3
  rcases lt_trichotomy a b with h | h | h
  · simp [h, ne_of_lt h, not_lt_of_lt h]
  · simp [h]
  · simp [h, ne_of_gt h, not_lt_of_lt h]

theorem exampleEnv_numeric (s : StringData) (d : Dbl)
    (h : exampleEnv.stringToNumeric s = .dbl d) : d.isNum = true := by
  simp only [exampleEnv] at h
  split at h
  · simp at h
  · split at h
    · simp only [Numeric.dbl.injEq] at h
      rw [← h]
      rfl
    · simp at h

theorem exampleEnv_strToDouble (s : StringData) : (exampleEnv.strToDouble s).isNum = true := by
  simp only [exampleEnv]
  split
  · rfl
  · split <;> rfl

theorem exampleEnv_str (s t : StringData) :
    exampleEnv.strCompare s t = 0 ↔ exampleEnv.strEqual s t = true := by
  simp only [exampleEnv, decide_eq_true_eq]
  by_cases h : s = t
  · simp [h]
  · simp only [h, if_false, iff_false]
    split <;> simp

theorem arrayData_addr_inj (a b : ArrayData) : (a.addr : Int) = b.addr ↔ a = b := by
  cases a
  cases b
  simp

theorem objectData_addr_inj (a b : ObjectData) : (a.addr : Int) = b.addr ↔ a = b := by
  cases a
  cases b
  simp

theorem exampleEnv_arr (x y : ArrayData) :
    (exampleEnv.arrCompare x y < 0 ↔ exampleEnv.arrLt x y = true) ∧
    (exampleEnv.arrCompare x y = 0 ↔ exampleEnv.arrEqual x y = true) ∧
    (0 < exampleEnv.arrCompare x y ↔ exampleEnv.arrGt x y = true) := by
  have h := cmp3_threeWay x.addr y.addr
  simp only [exampleEnv, decide_eq_true_eq, ← arrayData_addr_inj] at h ⊢
  simpa using h

theorem exampleEnv_vec (x y : ArrayData) :
    (exampleEnv.vecCmp x y < 0 ↔ exampleEnv.vecLt x y = true) ∧
    (exampleEnv.vecCmp x y = 0 ↔ exampleEnv.vecEqual x y = true) ∧
    (0 < exampleEnv.vecCmp x y ↔ exampleEnv.vecGt x y = true) := exampleEnv_arr x y

theorem exampleEnv_obj (x y : ObjectData) :
    (exampleEnv.objCompare x y < 0 ↔ exampleEnv.objLess x y = true) ∧
    (exampleEnv.objCompare x y = 0 ↔ exampleEnv.objEqual x y = true) ∧
    (0 < exampleEnv.objCompare x y ↔ exampleEnv.objMore x y = true) := by
  have h := cmp3_threeWay x.addr y.addr
  simp only [exampleEnv, decide_eq_true_eq, ← objectData_addr_inj] at h ⊢
  simpa using h

theorem exampleEnv_res (r r' : ResourceData)
    (h : exampleEnv.resToInt64 r = exampleEnv.resToInt64 r') : r = r' := by
  cases r
  cases r'
  simpa [exampleEnv] using h

theorem replicate_name_inj (c : Char) (m n : Nat) :
    String.mk (List.replicate (m + 1) c) = String.mk (List.replicate (n + 1) c) ↔ m = n := by
  constructor
  · intro h
    have h2 := congrArg (fun s => s.data.length) h
    simpa using h2
  · intro h
    rw [h]

theorem exampleEnv_funcName (f g : Func) :
    exampleEnv.strCompare (exampleEnv.funcName f) (exampleEnv.funcName g) = 0 ↔ f = g := by
  rw [exampleEnv_str]
  cases f
  cases g
  simp [exampleEnv, replicate_name_inj]

theorem exampleEnv_className (c d : Class) :
    exampleEnv.strCompare (exampleEnv.className c) (exampleEnv.className d) = 0 ↔ c = d := by
  rw [exampleEnv_str]
  cases c
  cases d
  simp [exampleEnv, replicate_name_inj]

theorem exampleEnv_resToDouble (r : ResourceData) :
    (exampleEnv.resToDouble r).isNum = true := by
  simp only [exampleEnv]
  exact Dbl.isNum_ofInt _

/-- Witness of C10 as amended: the integer 1 against the string `"123"` on the
example runtime: compare is -1, less is true, equal and greater are false. -/
theorem C10_three_way_witness :
    ((-1 : Int) < 0 ↔ true = true) ∧ ((-1 : Int) = 0 ↔ false = true) ∧
    ((0 : Int) < -1 ↔ false = true) :=
  C10_three_way exampleEnv flagsOff (.int 1) (.str false "123")
    exampleEnv_numeric exampleEnv_strToDouble (fun _ => rfl) exampleEnv_resToDouble
    exampleEnv_str exampleEnv_arr exampleEnv_vec exampleEnv_obj exampleEnv_res
    exampleEnv_funcName exampleEnv_className (by simp) (by simp) (by simp [Cell.isFuncType])
    (by simp [Cell.isClassType]) (-1) true false false (by decide) (by decide) (by decide)
    (by decide)

/-! ## Antisymmetry of less and greater -/

theorem both_ret {α β : Type} (P : α → β → Prop) (x : α) (y : β) :
    Both P (ret x) (ret y) ↔ P x y := by
  constructor
  · rintro ⟨x1, y1, h1, h2, h3⟩
    simp only [Outcome.ret_res, Except.ok.injEq] at h1 h2
    subst h1 h2
    exact h3
  · intro h
    exact ⟨x, y, rfl, rfl, h⟩

theorem both_raise1 {α β : Type} (P : α → β → Prop) (d : Diag) (X : Outcome α)
    (Y : Outcome β) : Both P (raise d X) Y ↔ Both P X Y := Iff.rfl

theorem both_raise2 {α β : Type} (P : α → β → Prop) (d : Diag) (X : Outcome α)
    (Y : Outcome β) : Both P X (raise d Y) ↔ Both P X Y := Iff.rfl

theorem both_raiseIf1 {α β : Type} (P : α → β → Prop) (c : Bool) (d : Diag) (X : Outcome α)
    (Y : Outcome β) : Both P (raiseIf c d X) Y ↔ Both P X Y := by
  cases c <;> rfl

theorem both_raiseIf2 {α β : Type} (P : α → β → Prop) (c : Bool) (d : Diag) (X : Outcome α)
    (Y : Outcome β) : Both P X (raiseIf c d Y) ↔ Both P X Y := by
  cases c <;> rfl

theorem numeric_match_ret {R : Type} (f : Prim → Prim → R) (x : Prim) (n : Numeric) :
    strRelOp.match_1 (fun _ => Outcome R) n (fun k => ret (f x (.i k)))
      (fun d => ret (f x (.d d))) (fun _ => ret (f x (.i 0))) = ret (f x n.toPrim) := by
  cases n <;> rfl

theorem numeric_match_val {R : Type} (f : Prim → Prim → R) (v : Prim) (n : Numeric) :
    strRelOp.match_1 (fun _ => R) n (fun k => f (.i k) v)
      (fun d => f (.d d) v) (fun _ => f (.i 0) v) = f n.toPrim v := by
  cases n <;> rfl

theorem Dbl.lt_asymm (x y : Dbl) : ¬ (Dbl.lt x y = true ∧ Dbl.lt y x = true) := by
  cases x <;> cases y <;> simp [Dbl.lt]
  intro h
  exact le_of_lt h

theorem prim_lt_gt (x y : Prim) : ¬ (primLt x y = true ∧ primGt x y = true) := by
  unfold primLt primGt
  by_cases hd : (x.isDbl || y.isDbl) = true
  · simp only [hd, if_true, Dbl.gt]
    exact Dbl.lt_asymm _ _
  · have hd2 : (x.isDbl || y.isDbl) = false := by simpa using hd
    simp only [hd2, Bool.false_eq_true, if_false, decide_eq_true_eq]
    intro h
    exact absurd h.1 (not_lt_of_lt h.2)

/-- C11: on operands whose kinds are among Uninit, Null, Boolean, Int64, Double,
String, FunctionRef, ClassRef and Resource, less and greater both return, and
never both return true, whatever the string parser and comparator return. -/
theorem C11_less_greater_antisymmetric (E : Env) (F : RuntimeOption) (a b : Cell)
    (ha : a.kind ∈ [Kind.Uninit, Kind.Null, Kind.Boolean, Kind.Int64, Kind.Double,
      Kind.String, Kind.FunctionRef, Kind.ClassRef, Kind.Resource])
    (hb : b.kind ∈ [Kind.Uninit, Kind.Null, Kind.Boolean, Kind.Int64, Kind.Double,
      Kind.String, Kind.FunctionRef, Kind.ClassRef, Kind.Resource]) :
    ∃ l g, (cellLess E F a b).res = .ok l ∧ (cellGreater E F a b).res = .ok g ∧
      ¬ (l = true ∧ g = true) := by
  have key : Both (fun l g => ¬ (l = true ∧ g = true)) (cellLess E F a b)
      (cellGreater E F a b) := by
    cases a <;>
      simp only [Cell.kind, List.mem_cons, List.mem_singleton, reduceCtorEq, or_false,
        or_self, List.not_mem_nil] at ha <;>
      cases b <;>
      simp only [Cell.kind, List.mem_cons, List.mem_singleton, reduceCtorEq, or_false,
        or_self, List.not_mem_nil] at hb <;>
      simp only [cellLess, cellGreater, cellRelOp, cellRelOpBool,
        cellRelOpInt64, cellRelOpDouble, cellRelOpString, cellRelOpResource,
        cellRelOpFunc, cellRelOpClass, strRelOp, Policy.Lt,
        Policy.Gt, Cell.isVecType, Cell.isDictType,
        Cell.isKeysetType, Cell.isClsMethType, Cell.isArrayType,
        CompareBase_prim, CompareBase_str, CompareBase_func, CompareBase_cls, CompareBase_res,
        CompareBase_noticeOnArrNonArr, both_ret, both_raise1, both_raise2, both_raiseIf1,
        both_raiseIf2, numeric_match_ret, numeric_match_val, Bool.false_eq_true, if_false,
        Bool.and_false, id] <;>
      with_reducible exact prim_lt_gt _ _
  exact key

/-- Witness of C11: the double not-a-number against the string `"1.5"`. -/
theorem C11_less_greater_antisymmetric_witness :
    ∃ l g, (cellLess exampleEnv flagsOff (.dbl .nan) (.str false "1.5")).res = .ok l ∧
      (cellGreater exampleEnv flagsOff (.dbl .nan) (.str false "1.5")).res = .ok g ∧
      ¬ (l = true ∧ g = true) :=
  C11_less_greater_antisymmetric exampleEnv flagsOff (.dbl .nan) (.str false "1.5")
    (by decide) (by decide)

/-! ## Legacy arrays against the newer container family -/

/-- C12: equal on a legacy array and a vector, in both orders, returns false;
its log is the single array-vs-newer-family diagnostic when `checkHACCompare`
is on and is empty when it is off. -/
theorem C12_equal_array_vec (E : Env) (F : RuntimeOption) (p q : Bool) (a v : ArrayData) :
    (cellEqual E F (.arr p a) (.vec q v)).res = .ok false ∧
    (cellEqual E F (.vec q v) (.arr p a)).res = .ok false ∧
    (cellEqual E F (.arr p a) (.vec q v)).log =
      (if F.checkHACCompare = true then [Diag.arrHackArr] else []) ∧
    (cellEqual E F (.vec q v) (.arr p a)).log =
      (if F.checkHACCompare = true then [Diag.arrHackArr] else []) := by
  cases h : F.checkHACCompare <;>
    simp [cellEqual, cellRelOp, cellRelOpVec, cellRelOpArray, Cell.isDictType,
      Cell.isKeysetType, Cell.isArrayType, h]

/-- C18: strict equality of a legacy array and a vector, dictionary or set, in
both orders, returns false; its log is the single array-vs-newer-family
diagnostic when `checkHACCompare` is on and is empty when it is off. -/
theorem C18_same_array_hack_array (E : Env) (F : RuntimeOption) (p q : Bool)
    (a h : ArrayData) :
    (∀ c : Cell, c ∈ [Cell.vec q h, Cell.dict q h, Cell.keyset q h] →
      (cellSame E F (.arr p a) c).res = .ok false ∧
      (cellSame E F c (.arr p a)).res = .ok false ∧
      (cellSame E F (.arr p a) c).log =
        (if F.checkHACCompare = true then [Diag.arrHackArr] else []) ∧
      (cellSame E F c (.arr p a)).log =
        (if F.checkHACCompare = true then [Diag.arrHackArr] else [])) := by
  intro c hc
  simp only [List.mem_cons, List.mem_singleton, List.not_mem_nil, or_false] at hc
  rcases hc with rfl | rfl | rfl <;> cases hF : F.checkHACCompare <;>
    simp [cellSame, Cell.isNullType, Cell.isArrayType, Cell.isHackArrayType, Cell.isVecType,
      Cell.isDictType, Cell.isKeysetType, hF]

/-- Witness of C18: a legacy array against a dictionary with the check on. -/
theorem C18_same_array_hack_array_witness :
    (cellSame exampleEnv flagsOn (.arr false ⟨1⟩) (.dict false ⟨1⟩)).res = .ok false ∧
    (cellSame exampleEnv flagsOn (.dict false ⟨1⟩) (.arr false ⟨1⟩)).log = [Diag.arrHackArr] :=
  have h := C18_same_array_hack_array exampleEnv flagsOn false false ⟨1⟩ ⟨1⟩
    (.dict false ⟨1⟩) (by simp)
  ⟨h.1, h.2.2.2⟩

/-! ## The mismatch cases of the policies -/

/-- C15, the claim as stated fails: under Eq the record-vs-non-record case
throws, so equal on an integer and a record raises instead of returning
false. -/
theorem C15_eq_mismatch_counterexample :
    (Policy.Eq exampleEnv flagsOff).recordVsNonRecord = Outcome.throw Err.recNonRecCompare ∧
    cellEqual exampleEnv flagsOff (.record ⟨0⟩) (.int 1) = Outcome.throw Err.recNonRecCompare ∧
    cellEqual exampleEnv flagsOff (.int 1) (.record ⟨0⟩) = Outcome.throw Err.recNonRecCompare := by
  decide

/-- C15 as amended: under Eq the vector, dictionary, set, collection and
class-method-pair mismatch cases return false and the record mismatch case
throws the record-vs-non-record error; so equal with a record on the right and
any non-record on the left throws it, and so does equal with a record on the
left and an Int64, Double, String, LegacyArray, Object, Resource, FunctionRef,
ClassRef or ClassMethodPair on the right. -/
theorem C15_eq_mismatch (E : Env) (F : RuntimeOption) (r : RecordData) (x : Cell) :
    (Policy.Eq E F).vecVsNonVec = ret false ∧
    (Policy.Eq E F).dictVsNonDict = ret false ∧
    (Policy.Eq E F).keysetVsNonKeyset = ret false ∧
    (Policy.Eq E F).collectionVsNonObj = ret false ∧
    (Policy.Eq E F).clsmethVsNonClsMeth = ret false ∧
    (Policy.Eq E F).recordVsNonRecord = Outcome.throw Err.recNonRecCompare ∧
    (x.kind ≠ Kind.Record → cellEqual E F x (.record r) = Outcome.throw Err.recNonRecCompare) ∧
    (x.kind ∈ [Kind.Int64, Kind.Double, Kind.String, Kind.LegacyArray, Kind.Object,
        Kind.Resource, Kind.FunctionRef, Kind.ClassRef, Kind.ClassMethodPair] →
      cellEqual E F (.record r) x = Outcome.throw Err.recNonRecCompare) := by
  refine ⟨rfl, rfl, rfl, rfl, rfl, rfl, ?_, ?_⟩
  · intro h
    cases x <;> first | rfl | exact absurd rfl h
  · intro h
    cases x <;> first | rfl | (exfalso; revert h; simp only [Cell.kind]; decide)

/-- Witness of C15 as amended: a string on either side of a record. -/
theorem C15_eq_mismatch_witness :
    cellEqual exampleEnv flagsOff (.str false "abc") (.record ⟨0⟩) =
      Outcome.throw Err.recNonRecCompare ∧
    cellEqual exampleEnv flagsOff (.record ⟨0⟩) (.str false "abc") =
      Outcome.throw Err.recNonRecCompare :=
  have h := C15_eq_mismatch exampleEnv flagsOff ⟨0⟩ (.str false "abc")
  ⟨h.2.2.2.2.2.2.1 (by decide), h.2.2.2.2.2.2.2 (by decide)⟩

/-- C16, evaluated on the failing inputs: with a record on the left and null
or a boolean on the right every ordering operator returns the primitive
operator on the record's boolean conversion, and with a vector on the right
it throws the vector error, not the record-vs-non-record error. -/
theorem C16_record_left_ordering (E : Env) (F : RuntimeOption) (r : RecordData) (b p : Bool)
    (v : ArrayData) :
    cellLess E F (.record r) .null = ret (primLt (.b (E.cellToBool (.record r))) (.b false)) ∧
    cellLessOrEqual E F (.record r) .null =
      ret (primLte (.b (E.cellToBool (.record r))) (.b false)) ∧
    cellGreater E F (.record r) .null =
      ret (primGt (.b (E.cellToBool (.record r))) (.b false)) ∧
    cellGreaterOrEqual E F (.record r) .null =
      ret (primGte (.b (E.cellToBool (.record r))) (.b false)) ∧
    cellCompare E F (.record r) .null =
      ret (PHPPrimitiveCmp (.b (E.cellToBool (.record r))) (.b false)) ∧
    cellLess E F (.record r) (.bool b) = ret (primLt (.b (E.cellToBool (.record r))) (.b b)) ∧
    cellCompare E F (.record r) (.bool b) =
      ret (PHPPrimitiveCmp (.b (E.cellToBool (.record r))) (.b b)) ∧
    cellLess E F (.record r) (.vec p v) = Outcome.throw Err.vecCompare ∧
    cellCompare E F (.record r) (.vec p v) = Outcome.throw Err.vecCompare ∧
    cellLess E F .null (.record r) = Outcome.throw Err.recNonRecCompare ∧
    cellCompare E F .null (.record r) = Outcome.throw Err.recNonRecCompare := by
  refine ⟨?_, ?_, ?_, ?_, ?_, ?_, ?_, ?_, ?_, ?_, ?_⟩ <;>
    simp [cellLess, cellLessOrEqual, cellGreater, cellGreaterOrEqual, cellCompare, cellRelOp,
      cellRelOpBool, cellRelOpVec, cellRelOpRecord, Policy.Lt, Policy.Lte, Policy.Gt,
      Policy.Gte, Policy.Cmp, Cell.isVecType, Cell.isDictType, Cell.isKeysetType,
      Cell.isClsMethType, Cell.isArrayType]

/-- C17: in each of the five ordering policies each of the six mismatch
handlers throws its own error and returns no value. -/
theorem C17_ordering_mismatch_handlers (E : Env) (F : RuntimeOption) :
    (∀ op : Op Bool, op ∈ [Policy.Lt E F, Policy.Lte E F, Policy.Gt E F, Policy.Gte E F] →
      op.vecVsNonVec = Outcome.throw Err.vecCompare ∧
      op.dictVsNonDict = Outcome.throw Err.dictCompare ∧
      op.keysetVsNonKeyset = Outcome.throw Err.keysetCompare ∧
      op.collectionVsNonObj = Outcome.throw Err.collectionCompare ∧
      op.recordVsNonRecord = Outcome.throw Err.recNonRecCompare ∧
      op.clsmethVsNonClsMeth = Outcome.throw Err.clsmethCompare) ∧
    (Policy.Cmp E F).vecVsNonVec = Outcome.throw Err.vecCompare ∧
    (Policy.Cmp E F).dictVsNonDict = Outcome.throw Err.dictCompare ∧
    (Policy.Cmp E F).keysetVsNonKeyset = Outcome.throw Err.keysetCompare ∧
    (Policy.Cmp E F).collectionVsNonObj = Outcome.throw Err.collectionCompare ∧
    (Policy.Cmp E F).recordVsNonRecord = Outcome.throw Err.recNonRecCompare ∧
    (Policy.Cmp E F).clsmethVsNonClsMeth = Outcome.throw Err.clsmethCompare := by
  refine ⟨?_, rfl, rfl, rfl, rfl, rfl, rfl⟩
  intro op h
  simp only [List.mem_cons, List.mem_singleton, List.not_mem_nil, or_false] at h
  rcases h with rfl | rfl | rfl | rfl <;> exact ⟨rfl, rfl, rfl, rfl, rfl, rfl⟩

/-- Witness of C17: the vector mismatch handler of Lt on the example runtime. -/
theorem C17_ordering_mismatch_handlers_witness :
    (Policy.Lt exampleEnv flagsOff).vecVsNonVec = Outcome.throw Err.vecCompare :=
  ((C17_ordering_mismatch_handlers exampleEnv flagsOff).1 (Policy.Lt exampleEnv flagsOff)
    (List.mem_cons_self _ _)).1

/-! ## Function and class references -/

/-- C20, evaluated on the failing input: compare on two function references is
1 as soon as their names differ, also when the first name sorts before the
second, where compare on the two names as strings is -1; less and greater on
the references follow the names. -/
theorem C20_compare_func (E : Env) (F : RuntimeOption) (f g : Func) :
    cellCompare E F (.func f) (.func g) =
      raise .funcToString (raise .funcToString
        (ret (if PHPPrimitiveCmp (.i (E.strCompare (E.funcName f) (E.funcName g))) (.i 0) ≠ 0
          then 1 else 0))) ∧
    cellCompare E F (.str false (E.funcName f)) (.str false (E.funcName g)) =
      ret (PHPPrimitiveCmp (.i (E.strCompare (E.funcName f) (E.funcName g))) (.i 0)) ∧
    cellLess E F (.func f) (.func g) =
      raise .funcToString (raise .funcToString
        (ret (primLt (.i (E.strCompare (E.funcName f) (E.funcName g))) (.i 0)))) ∧
    cellGreater E F (.func f) (.func g) =
      raise .funcToString (raise .funcToString
        (ret (primGt (.i (E.strCompare (E.funcName f) (E.funcName g))) (.i 0)))) ∧
    (cellCompare exampleEnv flagsOff (.func ⟨0⟩) (.func ⟨1⟩)).res = .ok 1 ∧
    (cellCompare exampleEnv flagsOff (.str false (exampleEnv.funcName ⟨0⟩))
      (.str false (exampleEnv.funcName ⟨1⟩))).res = .ok (-1) ∧
    (cellCompare exampleEnv flagsOff (.cls ⟨0⟩) (.cls ⟨1⟩)).res = .ok 1 := by
  refine ⟨?_, rfl, rfl, rfl, by decide, by decide, by decide⟩
  simp [cellCompare, cellRelOp, cellRelOpFunc, Policy.Cmp]

/-! ## Results do not depend on the compatibility checks -/

theorem Outcome.res_ite {α : Type} (p : Prop) [Decidable p] (x y : Outcome α) :
    (if p then x else y).res = if p then x.res else y.res := by
  split <;> rfl

theorem Outcome.bind_res {α β : Type} (x x2 : Outcome α) (k : α → Outcome β)
    (h : x.res = x2.res) : (Outcome.bind x k).res = (Outcome.bind x2 k).res := by
  unfold Outcome.bind
  rw [h]
  cases x2.res <;> rfl

theorem cellRelOp_res_notice {R : Type} (E : Env) (F F2 : RuntimeOption) (op : Op R)
    (n1 n2 : Bool) (hF : F.EvalHackArrDVArrs = F2.EvalHackArrDVArrs) (a b : Cell) :
    (cellRelOp E F op a b).res =
      (cellRelOp E F2 { op with noticeOnArrNonArr := n1, noticeOnArrHackArr := n2 } a b).res := by
  cases a <;> cases b <;>
    simp only [cellRelOp, cellRelOpBool,
      cellRelOpInt64, cellRelOpDouble, cellRelOpString, cellRelOpArray, cellRelOpObject,
      cellRelOpRecord, cellRelOpResource, cellRelOpVec, cellRelOpDict, cellRelOpKeyset,
      cellRelOpClsMeth, cellRelOpFunc, cellRelOpClass, strRelOp, Cell.isVecType,
      Cell.isDictType, Cell.isKeysetType, Cell.isClsMethType, Cell.isArrayType,
      Outcome.res_ite, Outcome.raise_res, Outcome.raiseIf_res, Outcome.ret_res,
      Outcome.throw_res, numeric_match_ret, hF, Bool.false_eq_true, if_false, if_true]

/-- C13: for each of equal, strict equality, less, lessOrEqual, greater,
greaterOrEqual and compare, on every pair of operands and for a fixed
unification flag, the value returned or error thrown is the same whatever the
two compatibility-check flags are. -/
theorem C13_results_independent_of_checks (E : Env) (dv c1 c2 d1 d2 : Bool) (a b : Cell) :
    (cellEqual E ⟨dv, c1, c2⟩ a b).res = (cellEqual E ⟨dv, d1, d2⟩ a b).res ∧
    (cellSame E ⟨dv, c1, c2⟩ a b).res = (cellSame E ⟨dv, d1, d2⟩ a b).res ∧
    (cellLess E ⟨dv, c1, c2⟩ a b).res = (cellLess E ⟨dv, d1, d2⟩ a b).res ∧
    (cellLessOrEqual E ⟨dv, c1, c2⟩ a b).res = (cellLessOrEqual E ⟨dv, d1, d2⟩ a b).res ∧
    (cellGreater E ⟨dv, c1, c2⟩ a b).res = (cellGreater E ⟨dv, d1, d2⟩ a b).res ∧
    (cellGreaterOrEqual E ⟨dv, c1, c2⟩ a b).res =
      (cellGreaterOrEqual E ⟨dv, d1, d2⟩ a b).res ∧
    (cellCompare E ⟨dv, c1, c2⟩ a b).res = (cellCompare E ⟨dv, d1, d2⟩ a b).res := by
  refine ⟨?_, ?_, ?_, ?_, ?_, ?_, ?_⟩
  · exact cellRelOp_res_notice E ⟨dv, c1, c2⟩ ⟨dv, d1, d2⟩ (Policy.Eq E ⟨dv, c1, c2⟩)
      false d1 rfl a b
  · cases a <;> cases b <;>
      simp only [cellSame, Cell.isNullType, Cell.isArrayType, Cell.isHackArrayType,
        Cell.isVecType, Cell.isDictType, Cell.isKeysetType, Outcome.res_ite,
        Outcome.raise_res, Outcome.raiseIf_res, Outcome.ret_res, Outcome.throw_res,
        Bool.false_eq_true, if_false, if_true, Bool.and_self, Bool.or_self, Bool.and_false,
        Bool.and_true, Bool.or_false, Bool.or_true, Bool.not_eq_true']
  · exact cellRelOp_res_notice E ⟨dv, c1, c2⟩ ⟨dv, d1, d2⟩ (Policy.Lt E ⟨dv, c1, c2⟩)
      d2 d1 rfl a b
  · exact cellRelOp_res_notice E ⟨dv, c1, c2⟩ ⟨dv, d1, d2⟩ (Policy.Lte E ⟨dv, c1, c2⟩)
      d2 d1 rfl a b
  · exact cellRelOp_res_notice E ⟨dv, c1, c2⟩ ⟨dv, d1, d2⟩ (Policy.Gt E ⟨dv, c1, c2⟩)
      d2 d1 rfl a b
  · exact cellRelOp_res_notice E ⟨dv, c1, c2⟩ ⟨dv, d1, d2⟩ (Policy.Gte E ⟨dv, c1, c2⟩)
      d2 d1 rfl a b
  · exact cellRelOp_res_notice E ⟨dv, c1, c2⟩ ⟨dv, d1, d2⟩ (Policy.Cmp E ⟨dv, c1, c2⟩)
      d2 d1 rfl a b

/-! ## The range of compare -/

theorem always_ret {α : Type} (P : α → Prop) (x : α) : Always P (ret x) ↔ P x := by
  constructor
  · intro h
    exact h x rfl
  · intro h y hy
    simp only [Outcome.ret_res, Except.ok.injEq] at hy
    subst hy
    exact h

theorem always_throw {α : Type} (P : α → Prop) (e : Err) :
    Always P (Outcome.throw e) ↔ True := by
  simp [Always]

theorem always_raise {α : Type} (P : α → Prop) (d : Diag) (X : Outcome α) :
    Always P (raise d X) ↔ Always P X := Iff.rfl

theorem always_raiseIf {α : Type} (P : α → Prop) (c : Bool) (d : Diag) (X : Outcome α) :
    Always P (raiseIf c d X) ↔ Always P X := by
  cases c <;> rfl

theorem always_ite {α : Type} (P : α → Prop) (p : Prop) [Decidable p] (X Y : Outcome α) :
    Always P (if p then X else Y) ↔ (p → Always P X) ∧ (¬ p → Always P Y) := by
  by_cases h : p <;> simp [h]

theorem php_range (x y : Prim) :
    PHPPrimitiveCmp x y = -1 ∨ PHPPrimitiveCmp x y = 0 ∨ PHPPrimitiveCmp x y = 1 := by
  unfold PHPPrimitiveCmp
  split
  · exact Or.inr (Or.inl rfl)
  · split
    · exact Or.inr (Or.inr rfl)
    · exact Or.inl rfl

theorem ofBool_range (b : Bool) :
    (if b = true then (1 : Int) else 0) = -1 ∨ (if b = true then (1 : Int) else 0) = 0 ∨
      (if b = true then (1 : Int) else 0) = 1 := by
  cases b <;> simp

/-- C14: on operands whose kinds are among Uninit, Null, Boolean, Int64, Double,
String, Resource, FunctionRef, ClassRef and ClassMethodPair, whatever compare
returns is -1, 0 or 1, whatever integer the string comparator returns. -/
theorem C14_compare_range (E : Env) (F : RuntimeOption) (a b : Cell)
    (ha : a.kind ∈ [Kind.Uninit, Kind.Null, Kind.Boolean, Kind.Int64, Kind.Double,
      Kind.String, Kind.Resource, Kind.FunctionRef, Kind.ClassRef, Kind.ClassMethodPair])
    (hb : b.kind ∈ [Kind.Uninit, Kind.Null, Kind.Boolean, Kind.Int64, Kind.Double,
      Kind.String, Kind.Resource, Kind.FunctionRef, Kind.ClassRef, Kind.ClassMethodPair])
    (c : Int) (h : (cellCompare E F a b).res = .ok c) : c = -1 ∨ c = 0 ∨ c = 1 := by
  have key : Always (fun c => c = -1 ∨ c = 0 ∨ c = 1) (cellCompare E F a b) := by
    clear h
    cases a <;>
      simp only [Cell.kind, List.mem_cons, List.mem_singleton, reduceCtorEq, or_false,
        or_self, List.not_mem_nil] at ha <;>
      cases b <;>
      simp only [Cell.kind, List.mem_cons, List.mem_singleton, reduceCtorEq, or_false,
        or_self, List.not_mem_nil] at hb <;>
      simp only [cellCompare, cellRelOp, cellRelOpBool,
        cellRelOpInt64, cellRelOpDouble, cellRelOpString, cellRelOpResource,
        cellRelOpFunc, cellRelOpClass, cellRelOpClsMeth, strRelOp, Policy.Cmp,
        Cell.isVecType, Cell.isDictType,
        Cell.isKeysetType, Cell.isClsMethType, Cell.isArrayType,
        CompareBase_prim, CompareBase_str, CompareBase_func, CompareBase_cls, CompareBase_res,
        CompareBase_clsmeth, CompareBase_vecVsNonVec, CompareBase_clsmethVsNonClsMeth,
        CompareBase_noticeOnArrNonArr, always_ret, always_raise, always_raiseIf,
        always_throw, always_ite, numeric_match_ret, numeric_match_val, Bool.false_eq_true,
        if_false, if_true, Bool.and_false, implies_true, and_self, and_true, true_and] <;>
      (repeat' first
        | intro _
        | exact trivial
        | refine And.intro ?_ ?_) <;>
      first
      | with_reducible exact php_range _ _
      | with_reducible exact ofBool_range _
  exact key c h

/-- Witness of C14: compare on two function references of the example runtime. -/
theorem C14_compare_range_witness : (1 : Int) = -1 ∨ (1 : Int) = 0 ∨ (1 : Int) = 1 :=
  C14_compare_range exampleEnv flagsOff (.func ⟨0⟩) (.func ⟨1⟩) (by decide) (by decide) 1
    (by decide)

/-! ## The decision table is exhaustive -/

theorem noFatal_ret {α : Type} (x : α) : NoFatal (ret x) ↔ True := by
  simp [NoFatal]

theorem noFatal_throw {α : Type} (e : Err) :
    NoFatal (Outcome.throw e : Outcome α) ↔ (e ≠ .notReached ∧ e ≠ .invalidRead) := by
  simp [NoFatal]

theorem noFatal_raise {α : Type} (d : Diag) (X : Outcome α) :
    NoFatal (raise d X) ↔ NoFatal X := Iff.rfl

theorem noFatal_raiseIf {α : Type} (c : Bool) (d : Diag) (X : Outcome α) :
    NoFatal (raiseIf c d X) ↔ NoFatal X := by
  cases c <;> rfl

theorem noFatal_ite {α : Type} (p : Prop) [Decidable p] (X Y : Outcome α) :
    NoFatal (if p then X else Y) ↔ (p → NoFatal X) ∧ (¬ p → NoFatal Y) := by
  by_cases h : p <;> simp [h]

theorem cellRelOp_noFatal {R : Type} (E : Env) (F : RuntimeOption) (op : Op R)
    (hfunc : ∀ f g, NoFatal (op.func f g) ↔ True) (hcls : ∀ c d, NoFatal (op.cls c d) ↔ True)
    (hdict : ∀ x y, NoFatal (op.dict x y) ↔ True)
    (hkeyset : ∀ x y, NoFatal (op.keyset x y) ↔ True)
    (hclsmeth : ∀ m n, NoFatal (op.clsmeth m n) ↔ True)
    (hrecord : ∀ r s, NoFatal (op.record r s) ↔ True)
    (h1 : NoFatal op.vecVsNonVec ↔ True) (h2 : NoFatal op.dictVsNonDict ↔ True)
    (h3 : NoFatal op.keysetVsNonKeyset ↔ True) (h4 : NoFatal op.collectionVsNonObj ↔ True)
    (h5 : NoFatal op.clsmethVsNonClsMeth ↔ True)
    (h6 : op.recordVsNonRecord = Outcome.throw Err.recNonRecCompare)
    (a b : Cell) (ha : a.isPlausible = true) (hb : b.isPlausible = true) :
    NoFatal (cellRelOp E F op a b) := by
  cases a <;> cases b <;>
    simp only [cellRelOp, cellRelOpBool,
      cellRelOpInt64, cellRelOpDouble, cellRelOpString, cellRelOpArray, cellRelOpObject,
      cellRelOpRecord, cellRelOpResource, cellRelOpVec, cellRelOpDict, cellRelOpKeyset,
      cellRelOpClsMeth, cellRelOpFunc, cellRelOpClass, strRelOp, Cell.isVecType,
      Cell.isDictType, Cell.isKeysetType, Cell.isClsMethType, Cell.isArrayType,
      Cell.isPlausible, noFatal_ret, noFatal_throw, noFatal_raise, noFatal_raiseIf,
      noFatal_ite, numeric_match_ret, hfunc, hcls, hdict, hkeyset, hclsmeth, hrecord, h1, h2,
      h3, h4, h5, h6, Outcome.bind_throw, Bool.false_eq_true, if_false, if_true,
      implies_true, and_self, ne_eq, reduceCtorEq, not_false_eq_true] at ha hb ⊢

theorem compareBase_noFatal {R : Type} (E : Env) (F : RuntimeOption)
    (P : Prim → Prim → R) (tb : R → Bool) (ob : Bool → R)
    (arr : ArrayData → ArrayData → R) (obj : ObjectData → ObjectData → R)
    (vec : ArrayData → ArrayData → R) (a b : Cell) (ha : a.isPlausible = true)
    (hb : b.isPlausible = true) :
    NoFatal (cellRelOp E F (CompareBase E F P tb ob arr obj vec) a b) := by
  apply cellRelOp_noFatal <;>
    first
    | exact ha
    | exact hb
    | rfl
    | (intros
       simp only [CompareBase_func, CompareBase_cls, CompareBase_dict, CompareBase_keyset,
         CompareBase_clsmeth, CompareBase_record, CompareBase_vecVsNonVec,
         CompareBase_dictVsNonDict, CompareBase_keysetVsNonKeyset,
         CompareBase_collectionVsNonObj, CompareBase_clsmethVsNonClsMeth, noFatal_ret,
         noFatal_throw, noFatal_raise, noFatal_ite, implies_true, and_self, ne_eq,
         reduceCtorEq, not_false_eq_true])

/-- C19: on plausible operands (neither of kind `KindOfRef`) and for every
flag setting, none of equal, strict equality, less, lessOrEqual, greater,
greaterOrEqual and compare reaches `not_reached()` or reads a payload under
the wrong discriminant: each returns a value or throws one of the typed
comparison errors. -/
theorem C19_dispatch_exhaustive (E : Env) (F : RuntimeOption) (a b : Cell)
    (ha : a.isPlausible = true) (hb : b.isPlausible = true) :
    NoFatal (cellEqual E F a b) ∧ NoFatal (cellSame E F a b) ∧ NoFatal (cellLess E F a b) ∧
    NoFatal (cellLessOrEqual E F a b) ∧ NoFatal (cellGreater E F a b) ∧
    NoFatal (cellGreaterOrEqual E F a b) ∧ NoFatal (cellCompare E F a b) := by
  refine ⟨?_, ?_, compareBase_noFatal E F _ _ _ _ _ _ a b ha hb,
    compareBase_noFatal E F _ _ _ _ _ _ a b ha hb,
    compareBase_noFatal E F _ _ _ _ _ _ a b ha hb,
    compareBase_noFatal E F _ _ _ _ _ _ a b ha hb,
    compareBase_noFatal E F _ _ _ _ _ _ a b ha hb⟩
  · apply cellRelOp_noFatal <;>
      first
      | exact ha
      | exact hb
      | rfl
      | (intros
         simp only [Policy.Eq_func, Policy.Eq_cls, Policy.Eq_dict, Policy.Eq_keyset,
           Policy.Eq_clsmeth, Policy.Eq_record, Policy.Eq_vecVsNonVec,
           Policy.Eq_dictVsNonDict, Policy.Eq_keysetVsNonKeyset,
           Policy.Eq_collectionVsNonObj, Policy.Eq_clsmethVsNonClsMeth, noFatal_ret])
  · cases a <;> cases b <;>
      simp only [cellSame, Cell.isNullType, Cell.isArrayType, Cell.isHackArrayType,
        Cell.isVecType, Cell.isDictType, Cell.isKeysetType, Cell.isPlausible, noFatal_ret,
        noFatal_raise, noFatal_raiseIf, noFatal_ite, noFatal_throw,
        Bool.false_eq_true, if_false, if_true, Bool.and_self, Bool.or_self, Bool.and_false,
        Bool.and_true, Bool.or_false, Bool.or_true, implies_true, and_self] at ha hb ⊢

/-- Witness of C19: a record against a string on the example runtime. -/
theorem C19_dispatch_exhaustive_witness :
    NoFatal (cellEqual exampleEnv flagsOn (.record ⟨0⟩) (.str false "abc")) ∧
    NoFatal (cellCompare exampleEnv flagsOn (.record ⟨0⟩) (.str false "abc")) :=
  have h := C19_dispatch_exhaustive exampleEnv flagsOn (.record ⟨0⟩) (.str false "abc") rfl rfl
  ⟨h.1, h.2.2.2.2.2.2⟩

/-! ## Function and class references under equal -/

/-- C21: under equal two function references are equal iff they are the same
function and two class references iff they are the same class, while a
function against a class, and a function or class against a string in either
order, are compared by the string-equality collaborator on the names. -/
theorem C21_equal_func_class (E : Env) (F : RuntimeOption) (f g : Func) (c d : Class)
    (p : Bool) (s : StringData) :
    (cellEqual E F (.func f) (.func g)).res = .ok (decide (f = g)) ∧
    (cellEqual E F (.cls c) (.cls d)).res = .ok (decide (c = d)) ∧
    (cellEqual E F (.func f) (.cls c)).res = .ok (E.strEqual (E.funcName f) (E.className c)) ∧
    (cellEqual E F (.cls c) (.func f)).res = .ok (E.strEqual (E.className c) (E.funcName f)) ∧
    (cellEqual E F (.func f) (.str p s)).res = .ok (E.strEqual (E.funcName f) s) ∧
    (cellEqual E F (.str p s) (.func f)).res = .ok (E.strEqual s (E.funcName f)) ∧
    (cellEqual E F (.cls c) (.str p s)).res = .ok (E.strEqual (E.className c) s) ∧
    (cellEqual E F (.str p s) (.cls c)).res = .ok (E.strEqual s (E.className c)) :=
  ⟨rfl, rfl, rfl, rfl, rfl, rfl, rfl, rfl⟩

/-! ## Class-method pairs with the unification flag on -/

/-- C22, the claim as stated fails: with the flag on, a class-method pair
against a vector is materialised and compared as a vector, so equal can
return true; and against a dictionary less throws the dictionary error. -/
theorem C22_clsmeth_flag_on_counterexample :
    cellEqual exampleEnv flagsOn (.clsmeth ⟨⟨0⟩, ⟨0⟩⟩) (.vec false ⟨1000⟩) =
      raise .clsMethToVec (ret true) ∧
    cellEqual exampleEnv flagsOn (.vec false ⟨1000⟩) (.clsmeth ⟨⟨0⟩, ⟨0⟩⟩) =
      raise .clsMethToVec (ret true) ∧
    cellLess exampleEnv flagsOn (.clsmeth ⟨⟨0⟩, ⟨0⟩⟩) (.dict false ⟨1⟩) =
      Outcome.throw Err.dictCompare := by
  decide

/-- C22 as amended: with the flag on, for a class-method pair p and a value x of
kind Uninit, Null, Boolean, Int64, Double, String, LegacyArray or Object, in
both orders, and of kind Resource, FunctionRef or ClassRef with x on the left,
equal returns false and every ordering operator throws the class-method-pair
error, with no diagnostic and without materialising p.  Against a vector p is
materialised, with the conversion diagnostic, and each of the six operators
is the policy's vector operator, in both orders; against a dictionary or a
set equal is false and every ordering operator throws that family's error,
in both orders; against a record every one of the six operators throws the
record mismatch error, in both orders. -/
theorem C22_clsmeth_flag_on (E : Env) (F : RuntimeOption) (hF : F.EvalHackArrDVArrs = true)
    (p : ClsMethDataRef) (x : Cell) :
    (x.kind ∈ [Kind.Uninit, Kind.Null, Kind.Boolean, Kind.Int64, Kind.Double, Kind.String,
        Kind.LegacyArray, Kind.Object] →
      cellEqual E F (.clsmeth p) x = ret false ∧ cellEqual E F x (.clsmeth p) = ret false ∧
      (∀ X : Outcome Bool,
        X ∈ [cellLess E F (.clsmeth p) x, cellLess E F x (.clsmeth p),
          cellLessOrEqual E F (.clsmeth p) x, cellLessOrEqual E F x (.clsmeth p),
          cellGreater E F (.clsmeth p) x, cellGreater E F x (.clsmeth p),
          cellGreaterOrEqual E F (.clsmeth p) x, cellGreaterOrEqual E F x (.clsmeth p)] →
        X = Outcome.throw Err.clsmethCompare) ∧
      cellCompare E F (.clsmeth p) x = Outcome.throw Err.clsmethCompare ∧
      cellCompare E F x (.clsmeth p) = Outcome.throw Err.clsmethCompare) ∧
    (x.kind ∈ [Kind.Resource, Kind.FunctionRef, Kind.ClassRef] →
      cellEqual E F x (.clsmeth p) = ret false ∧
      (∀ X : Outcome Bool,
        X ∈ [cellLess E F x (.clsmeth p), cellLessOrEqual E F x (.clsmeth p),
          cellGreater E F x (.clsmeth p), cellGreaterOrEqual E F x (.clsmeth p)] →
        X = Outcome.throw Err.clsmethCompare) ∧
      cellCompare E F x (.clsmeth p) = Outcome.throw Err.clsmethCompare) ∧
    (∀ q v, x = .vec q v →
      cellEqual E F (.clsmeth p) x =
        raise .clsMethToVec (ret (E.vecEqual (E.clsMethToVec p) v)) ∧
      cellEqual E F x (.clsmeth p) =
        raise .clsMethToVec (ret (E.vecEqual v (E.clsMethToVec p))) ∧
      cellLess E F (.clsmeth p) x = raise .clsMethToVec (ret (E.vecLt (E.clsMethToVec p) v)) ∧
      cellLess E F x (.clsmeth p) = raise .clsMethToVec (ret (E.vecLt v (E.clsMethToVec p))) ∧
      cellLessOrEqual E F (.clsmeth p) x =
        raise .clsMethToVec (ret (E.vecLte (E.clsMethToVec p) v)) ∧
      cellLessOrEqual E F x (.clsmeth p) =
        raise .clsMethToVec (ret (E.vecLte v (E.clsMethToVec p))) ∧
      cellGreater E F (.clsmeth p) x =
        raise .clsMethToVec (ret (E.vecGt (E.clsMethToVec p) v)) ∧
      cellGreater E F x (.clsmeth p) =
        raise .clsMethToVec (ret (E.vecGt v (E.clsMethToVec p))) ∧
      cellGreaterOrEqual E F (.clsmeth p) x =
        raise .clsMethToVec (ret (E.vecGte (E.clsMethToVec p) v)) ∧
      cellGreaterOrEqual E F x (.clsmeth p) =
        raise .clsMethToVec (ret (E.vecGte v (E.clsMethToVec p))) ∧
      cellCompare E F (.clsmeth p) x =
        raise .clsMethToVec (ret (E.vecCmp (E.clsMethToVec p) v)) ∧
      cellCompare E F x (.clsmeth p) =
        raise .clsMethToVec (ret (E.vecCmp v (E.clsMethToVec p)))) ∧
    (∀ q v, x = .dict q v →
      cellEqual E F (.clsmeth p) x = ret false ∧ cellEqual E F x (.clsmeth p) = ret false ∧
      (∀ X : Outcome Bool,
        X ∈ [cellLess E F (.clsmeth p) x, cellLess E F x (.clsmeth p),
          cellLessOrEqual E F (.clsmeth p) x, cellLessOrEqual E F x (.clsmeth p),
          cellGreater E F (.clsmeth p) x, cellGreater E F x (.clsmeth p),
          cellGreaterOrEqual E F (.clsmeth p) x, cellGreaterOrEqual E F x (.clsmeth p)] →
        X = Outcome.throw Err.dictCompare) ∧
      cellCompare E F (.clsmeth p) x = Outcome.throw Err.dictCompare ∧
      cellCompare E F x (.clsmeth p) = Outcome.throw Err.dictCompare) ∧
    (∀ q v, x = .keyset q v →
      cellEqual E F (.clsmeth p) x = ret false ∧ cellEqual E F x (.clsmeth p) = ret false ∧
      (∀ X : Outcome Bool,
        X ∈ [cellLess E F (.clsmeth p) x, cellLess E F x (.clsmeth p),
          cellLessOrEqual E F (.clsmeth p) x, cellLessOrEqual E F x (.clsmeth p),
          cellGreater E F (.clsmeth p) x, cellGreater E F x (.clsmeth p),
          cellGreaterOrEqual E F (.clsmeth p) x, cellGreaterOrEqual E F x (.clsmeth p)] →
        X = Outcome.throw Err.keysetCompare) ∧
      cellCompare E F (.clsmeth p) x = Outcome.throw Err.keysetCompare ∧
      cellCompare E F x (.clsmeth p) = Outcome.throw Err.keysetCompare) ∧
    (∀ r, x = .record r →
      cellEqual E F (.clsmeth p) x = Outcome.throw Err.recNonRecCompare ∧
      cellEqual E F x (.clsmeth p) = Outcome.throw Err.recNonRecCompare ∧
      (∀ X : Outcome Bool,
        X ∈ [cellLess E F (.clsmeth p) x, cellLess E F x (.clsmeth p),
          cellLessOrEqual E F (.clsmeth p) x, cellLessOrEqual E F x (.clsmeth p),
          cellGreater E F (.clsmeth p) x, cellGreater E F x (.clsmeth p),
          cellGreaterOrEqual E F (.clsmeth p) x, cellGreaterOrEqual E F x (.clsmeth p)] →
        X = Outcome.throw Err.recNonRecCompare) ∧
      cellCompare E F (.clsmeth p) x = Outcome.throw Err.recNonRecCompare ∧
      cellCompare E F x (.clsmeth p) = Outcome.throw Err.recNonRecCompare) := by
  refine ⟨?_, ?_, ?_, ?_, ?_, ?_⟩
  · intro hx
    cases x <;> simp only [Cell.kind, List.mem_cons, List.mem_singleton, reduceCtorEq, or_false,
      or_self, List.not_mem_nil] at hx <;>
      simp [cellEqual, cellLess, cellLessOrEqual, cellGreater, cellGreaterOrEqual, cellCompare,
        cellRelOp, cellRelOpBool, cellRelOpInt64, cellRelOpDouble, cellRelOpString,
        cellRelOpArray, cellRelOpObject, cellRelOpClsMeth, Policy.Lt, Policy.Lte, Policy.Gt,
        Policy.Gte, Policy.Cmp, Cell.isVecType, Cell.isDictType, Cell.isKeysetType,
        Cell.isClsMethType, hF]
  · intro hx
    cases x <;> simp only [Cell.kind, List.mem_cons, List.mem_singleton, reduceCtorEq, or_false,
      or_self, List.not_mem_nil] at hx <;>
      simp [cellEqual, cellLess, cellLessOrEqual, cellGreater, cellGreaterOrEqual, cellCompare,
        cellRelOp, cellRelOpClsMeth, Policy.Lt, Policy.Lte, Policy.Gt, Policy.Gte, Policy.Cmp,
        hF]
  · rintro q v rfl
    simp [cellEqual, cellLess, cellLessOrEqual, cellGreater, cellGreaterOrEqual, cellCompare,
      cellRelOp, cellRelOpVec, cellRelOpClsMeth, Policy.Lt, Policy.Lte, Policy.Gt, Policy.Gte,
      Policy.Cmp, hF]
  · rintro q v rfl
    simp [cellEqual, cellLess, cellLessOrEqual, cellGreater, cellGreaterOrEqual, cellCompare,
      cellRelOp, cellRelOpDict, cellRelOpClsMeth, Policy.Lt, Policy.Lte, Policy.Gt, Policy.Gte,
      Policy.Cmp, Cell.isVecType, Cell.isKeysetType, Cell.isArrayType]
  · rintro q v rfl
    simp [cellEqual, cellLess, cellLessOrEqual, cellGreater, cellGreaterOrEqual, cellCompare,
      cellRelOp, cellRelOpKeyset, cellRelOpClsMeth, Policy.Lt, Policy.Lte, Policy.Gt,
      Policy.Gte, Policy.Cmp, Cell.isVecType, Cell.isDictType, Cell.isArrayType]
  · rintro r rfl
    simp [cellEqual, cellLess, cellLessOrEqual, cellGreater, cellGreaterOrEqual, cellCompare,
      cellRelOp, cellRelOpRecord, cellRelOpClsMeth, Policy.Lt, Policy.Lte, Policy.Gt,
      Policy.Gte, Policy.Cmp, Outcome.bind, Outcome.throw]

/-- Witness of C22 as amended: a class-method pair against the integer 5 with
the flags on. -/
theorem C22_clsmeth_flag_on_witness :
    cellEqual exampleEnv flagsOn (.clsmeth ⟨⟨0⟩, ⟨0⟩⟩) (.int 5) = ret false ∧
    cellCompare exampleEnv flagsOn (.int 5) (.clsmeth ⟨⟨0⟩, ⟨0⟩⟩) =
      Outcome.throw Err.clsmethCompare :=
  have h := (C22_clsmeth_flag_on exampleEnv flagsOn rfl ⟨⟨0⟩, ⟨0⟩⟩ (.int 5)).1 (by decide)
  ⟨h.1, h.2.2.2.2⟩

/-! ## Class-method pairs against legacy arrays -/

/-- C23: with the unification flag off, each of the six operators on a
class-method pair and a legacy array raises the conversion diagnostic once
and returns the policy's legacy-array operator on the materialised pair and
the array, the materialised pair standing on the side of the pair. -/
theorem C23_clsmeth_array_flag_off (E : Env) (F : RuntimeOption)
    (hF : F.EvalHackArrDVArrs = false) (p : ClsMethDataRef) (q : Bool) (a : ArrayData) :
    cellEqual E F (.clsmeth p) (.arr q a) =
      raise .clsMethToVec (ret (E.arrEqual (E.clsMethToVec p) a)) ∧
    cellEqual E F (.arr q a) (.clsmeth p) =
      raise .clsMethToVec (ret (E.arrEqual a (E.clsMethToVec p))) ∧
    cellLess E F (.clsmeth p) (.arr q a) =
      raise .clsMethToVec (ret (E.arrLt (E.clsMethToVec p) a)) ∧
    cellLess E F (.arr q a) (.clsmeth p) =
      raise .clsMethToVec (ret (E.arrLt a (E.clsMethToVec p))) ∧
    cellLessOrEqual E F (.clsmeth p) (.arr q a) =
      raise .clsMethToVec (ret (E.arrLte (E.clsMethToVec p) a)) ∧
    cellLessOrEqual E F (.arr q a) (.clsmeth p) =
      raise .clsMethToVec (ret (E.arrLte a (E.clsMethToVec p))) ∧
    cellGreater E F (.clsmeth p) (.arr q a) =
      raise .clsMethToVec (ret (E.arrGt (E.clsMethToVec p) a)) ∧
    cellGreater E F (.arr q a) (.clsmeth p) =
      raise .clsMethToVec (ret (E.arrGt a (E.clsMethToVec p))) ∧
    cellGreaterOrEqual E F (.clsmeth p) (.arr q a) =
      raise .clsMethToVec (ret (E.arrGte (E.clsMethToVec p) a)) ∧
    cellGreaterOrEqual E F (.arr q a) (.clsmeth p) =
      raise .clsMethToVec (ret (E.arrGte a (E.clsMethToVec p))) ∧
    cellCompare E F (.clsmeth p) (.arr q a) =
      raise .clsMethToVec (ret (E.arrCompare (E.clsMethToVec p) a)) ∧
    cellCompare E F (.arr q a) (.clsmeth p) =
      raise .clsMethToVec (ret (E.arrCompare a (E.clsMethToVec p))) := by
  refine ⟨?_, ?_, ?_, ?_, ?_, ?_, ?_, ?_, ?_, ?_, ?_, ?_⟩ <;>
    simp [cellEqual, cellLess, cellLessOrEqual, cellGreater, cellGreaterOrEqual, cellCompare,
      cellRelOp, cellRelOpArray, cellRelOpClsMeth, Policy.Lt, Policy.Lte, Policy.Gt,
      Policy.Gte, Policy.Cmp, hF]

/-- Witness of C23 on the example runtime with every flag off. -/
theorem C23_clsmeth_array_flag_off_witness :
    cellEqual exampleEnv flagsOff (.clsmeth ⟨⟨0⟩, ⟨0⟩⟩) (.arr false ⟨1000⟩) =
      raise .clsMethToVec (ret true) :=
  (C23_clsmeth_array_flag_off exampleEnv flagsOff rfl ⟨⟨0⟩, ⟨0⟩⟩ false ⟨1000⟩).1

/-! ## Collections against non-objects -/

/-- C24, the claim as stated fails: a collection against null, a boolean or a
resource is compared as a boolean, without the collection check. -/
theorem C24_collection_mismatch_counterexample :
    exampleEnv.objIsCollection ⟨1⟩ = true ∧
    cellLess exampleEnv flagsOff (.obj ⟨1⟩) .null = ret false ∧
    cellCompare exampleEnv flagsOff .null (.obj ⟨1⟩) = ret (-1) ∧
    cellLess exampleEnv flagsOff (.res ⟨1⟩) (.obj ⟨1⟩) = ret true ∧
    cellGreater exampleEnv flagsOff (.obj ⟨1⟩) (.bool false) = ret true := by
  decide

/-- C24 as amended: for a collection o and an operand x of kind Int64, Double,
String or LegacyArray, in both orders, equal returns false and less,
lessOrEqual, greater, greaterOrEqual and compare throw the collection
error.  For every object o, collection or not: against Uninit, Null or a
resource each of the six operators compares true against false, in both
orders; and against a boolean each of the six operators is the primitive
operator on the boolean conversion of the object and the boolean, in the
order of the operands; no collection check is made. -/
theorem C24_collection_mismatch (E : Env) (F : RuntimeOption) (o : ObjectData) (x : Cell) :
    (E.objIsCollection o = true →
      x.kind ∈ [Kind.Int64, Kind.Double, Kind.String, Kind.LegacyArray] →
      (cellEqual E F (.obj o) x).res = .ok false ∧ (cellEqual E F x (.obj o)).res = .ok false ∧
      (∀ X : Outcome Bool,
        X ∈ [cellLess E F (.obj o) x, cellLess E F x (.obj o),
          cellLessOrEqual E F (.obj o) x, cellLessOrEqual E F x (.obj o),
          cellGreater E F (.obj o) x, cellGreater E F x (.obj o),
          cellGreaterOrEqual E F (.obj o) x, cellGreaterOrEqual E F x (.obj o)] →
        X.res = .error Err.collectionCompare) ∧
      (cellCompare E F (.obj o) x).res = .error Err.collectionCompare ∧
      (cellCompare E F x (.obj o)).res = .error Err.collectionCompare) ∧
    (x.kind ∈ [Kind.Uninit, Kind.Null, Kind.Resource] →
      cellEqual E F (.obj o) x = ret false ∧ cellEqual E F x (.obj o) = ret false ∧
      cellLess E F (.obj o) x = ret false ∧ cellLess E F x (.obj o) = ret true ∧
      cellLessOrEqual E F (.obj o) x = ret false ∧ cellLessOrEqual E F x (.obj o) = ret true ∧
      cellGreater E F (.obj o) x = ret true ∧ cellGreater E F x (.obj o) = ret false ∧
      cellGreaterOrEqual E F (.obj o) x = ret true ∧
      cellGreaterOrEqual E F x (.obj o) = ret false ∧
      cellCompare E F (.obj o) x = ret 1 ∧ cellCompare E F x (.obj o) = ret (-1)) ∧
    (∀ v, x = .bool v →
      cellEqual E F (.obj o) x = ret (primEq (.b (E.cellToBool (.obj o))) (.b v)) ∧
      cellEqual E F x (.obj o) = ret (primEq (.b v) (.b (E.objToBoolean o))) ∧
      cellLess E F (.obj o) x = ret (primLt (.b (E.cellToBool (.obj o))) (.b v)) ∧
      cellLess E F x (.obj o) = ret (primLt (.b v) (.b (E.objToBoolean o))) ∧
      cellLessOrEqual E F (.obj o) x = ret (primLte (.b (E.cellToBool (.obj o))) (.b v)) ∧
      cellLessOrEqual E F x (.obj o) = ret (primLte (.b v) (.b (E.objToBoolean o))) ∧
      cellGreater E F (.obj o) x = ret (primGt (.b (E.cellToBool (.obj o))) (.b v)) ∧
      cellGreater E F x (.obj o) = ret (primGt (.b v) (.b (E.objToBoolean o))) ∧
      cellGreaterOrEqual E F (.obj o) x =
        ret (primGte (.b (E.cellToBool (.obj o))) (.b v)) ∧
      cellGreaterOrEqual E F x (.obj o) = ret (primGte (.b v) (.b (E.objToBoolean o))) ∧
      cellCompare E F (.obj o) x = ret (PHPPrimitiveCmp (.b (E.cellToBool (.obj o))) (.b v)) ∧
      cellCompare E F x (.obj o) = ret (PHPPrimitiveCmp (.b v) (.b (E.objToBoolean o)))) := by
  refine ⟨?_, ?_, ?_⟩
  · intro hcoll hx
    cases x <;> simp only [Cell.kind, List.mem_cons, List.mem_singleton, reduceCtorEq, or_false,
      or_self, List.not_mem_nil] at hx <;>
      simp [cellEqual, cellLess, cellLessOrEqual, cellGreater, cellGreaterOrEqual, cellCompare,
        cellRelOp, cellRelOpInt64, cellRelOpDouble, cellRelOpString,
        cellRelOpArray, cellRelOpObject, Policy.Lt, Policy.Lte, Policy.Gt,
        Policy.Gte, Policy.Cmp, hcoll]
  · intro hx
    cases x <;> simp only [Cell.kind, List.mem_cons, List.mem_singleton, reduceCtorEq, or_false,
      or_self, List.not_mem_nil] at hx <;>
      simp [cellEqual, cellLess, cellLessOrEqual, cellGreater, cellGreaterOrEqual, cellCompare,
        cellRelOp, cellRelOpResource, cellRelOpObject, Policy.Lt, Policy.Lte, Policy.Gt,
        Policy.Gte, Policy.Cmp] <;> decide
  · rintro v rfl
    simp [cellEqual, cellLess, cellLessOrEqual, cellGreater, cellGreaterOrEqual, cellCompare,
      cellRelOp, cellRelOpBool, cellRelOpObject, Policy.Lt, Policy.Lte, Policy.Gt, Policy.Gte,
      Policy.Cmp, Cell.isVecType, Cell.isDictType, Cell.isKeysetType, Cell.isClsMethType,
      Cell.isArrayType]

/-- Witness of C24 as amended: object 1 of the example runtime, a collection,
against the integer 5. -/
theorem C24_collection_mismatch_witness :
    (cellEqual exampleEnv flagsOff (.obj ⟨1⟩) (.int 5)).res = .ok false ∧
    (cellCompare exampleEnv flagsOff (.int 5) (.obj ⟨1⟩)).res = .error Err.collectionCompare :=
  have h := (C24_collection_mismatch exampleEnv flagsOff ⟨1⟩ (.int 5)).1 (by decide)
    (by decide)
  ⟨h.1, h.2.2.2.2⟩

/-! ## Objects against strings -/

/-- C26: equal on two resources is identity of the handle; less, lessOrEqual,
greater, greaterOrEqual and compare on two resources are the primitive
operator on their integer projections; and each operator on a resource and an
integer is the primitive operator on the projection and the integer. -/
theorem C26_resources (E : Env) (F : RuntimeOption) (r1 r2 : ResourceData) (i : Int) :
    cellEqual E F (.res r1) (.res r2) = ret (decide (r1 = r2)) ∧
    cellLess E F (.res r1) (.res r2) =
      ret (primLt (.i (E.resToInt64 r1)) (.i (E.resToInt64 r2))) ∧
    cellLessOrEqual E F (.res r1) (.res r2) =
      ret (primLte (.i (E.resToInt64 r1)) (.i (E.resToInt64 r2))) ∧
    cellGreater E F (.res r1) (.res r2) =
      ret (primGt (.i (E.resToInt64 r1)) (.i (E.resToInt64 r2))) ∧
    cellGreaterOrEqual E F (.res r1) (.res r2) =
      ret (primGte (.i (E.resToInt64 r1)) (.i (E.resToInt64 r2))) ∧
    cellCompare E F (.res r1) (.res r2) =
      ret (PHPPrimitiveCmp (.i (E.resToInt64 r1)) (.i (E.resToInt64 r2))) ∧
    cellEqual E F (.res r1) (.int i) = ret (primEq (.i (E.resToInt64 r1)) (.i i)) ∧
    cellLess E F (.res r1) (.int i) = ret (primLt (.i (E.resToInt64 r1)) (.i i)) ∧
    cellLessOrEqual E F (.res r1) (.int i) = ret (primLte (.i (E.resToInt64 r1)) (.i i)) ∧
    cellGreater E F (.res r1) (.int i) = ret (primGt (.i (E.resToInt64 r1)) (.i i)) ∧
    cellGreaterOrEqual E F (.res r1) (.int i) = ret (primGte (.i (E.resToInt64 r1)) (.i i)) ∧
    cellCompare E F (.res r1) (.int i) = ret (PHPPrimitiveCmp (.i (E.resToInt64 r1)) (.i i)) :=
  ⟨rfl, rfl, rfl, rfl, rfl, rfl, rfl, rfl, rfl, rfl, rfl, rfl⟩

/-! ## Ordering of two containers of the same kind -/

/-- C27, the claim as stated fails: less on two dictionaries throws the
dictionary compare error, and on two sets the set compare error. -/
theorem C27_same_kind_ordering_counterexample :
    cellLess exampleEnv flagsOff (.dict false ⟨1⟩) (.dict false ⟨1⟩) =
      Outcome.throw Err.dictCompare ∧
    cellLess exampleEnv flagsOff (.keyset false ⟨1⟩) (.keyset false ⟨1⟩) =
      Outcome.throw Err.keysetCompare := by
  decide

/-- C27 as amended: each ordering operator on two legacy arrays, and on two
vectors, returns the value of that container's own ordering primitive and
raises nothing; on two dictionaries it throws the dictionary compare error and
on two sets the set compare error. -/
theorem C27_same_kind_ordering (E : Env) (F : RuntimeOption) (p q : Bool) (x y : ArrayData) :
    cellLess E F (.arr p x) (.arr q y) = ret (E.arrLt x y) ∧
    cellLessOrEqual E F (.arr p x) (.arr q y) = ret (E.arrLte x y) ∧
    cellGreater E F (.arr p x) (.arr q y) = ret (E.arrGt x y) ∧
    cellGreaterOrEqual E F (.arr p x) (.arr q y) = ret (E.arrGte x y) ∧
    cellCompare E F (.arr p x) (.arr q y) = ret (E.arrCompare x y) ∧
    cellLess E F (.vec p x) (.vec q y) = ret (E.vecLt x y) ∧
    cellLessOrEqual E F (.vec p x) (.vec q y) = ret (E.vecLte x y) ∧
    cellGreater E F (.vec p x) (.vec q y) = ret (E.vecGt x y) ∧
    cellGreaterOrEqual E F (.vec p x) (.vec q y) = ret (E.vecGte x y) ∧
    cellCompare E F (.vec p x) (.vec q y) = ret (E.vecCmp x y) ∧
    cellLess E F (.dict p x) (.dict q y) = Outcome.throw Err.dictCompare ∧
    cellLessOrEqual E F (.dict p x) (.dict q y) = Outcome.throw Err.dictCompare ∧
    cellGreater E F (.dict p x) (.dict q y) = Outcome.throw Err.dictCompare ∧
    cellGreaterOrEqual E F (.dict p x) (.dict q y) = Outcome.throw Err.dictCompare ∧
    cellCompare E F (.dict p x) (.dict q y) = Outcome.throw Err.dictCompare ∧
    cellLess E F (.keyset p x) (.keyset q y) = Outcome.throw Err.keysetCompare ∧
    cellLessOrEqual E F (.keyset p x) (.keyset q y) = Outcome.throw Err.keysetCompare ∧
    cellGreater E F (.keyset p x) (.keyset q y) = Outcome.throw Err.keysetCompare ∧
    cellGreaterOrEqual E F (.keyset p x) (.keyset q y) = Outcome.throw Err.keysetCompare ∧
    cellCompare E F (.keyset p x) (.keyset q y) = Outcome.throw Err.keysetCompare :=
  ⟨rfl, rfl, rfl, rfl, rfl, rfl, rfl, rfl, rfl, rfl, rfl, rfl, rfl, rfl, rfl, rfl, rfl, rfl,
    rfl, rfl⟩

/-! ## The array-vs-non-array diagnostic -/

/-- C28: for a legacy array against an integer, a double or a string, in both
orders, equal raises no diagnostic whatever the flags, and each ordering
operator raises exactly the array-vs-non-array diagnostic, once, when
`checkHACCompareNonAnyArray` is on and nothing when it is off. -/
theorem C28_array_scalar_notice (E : Env) (F : RuntimeOption) (q : Bool) (a : ArrayData)
    (x : Cell) (hx : x.kind ∈ [Kind.Int64, Kind.Double, Kind.String]) :
    (cellEqual E F (.arr q a) x).log = [] ∧ (cellEqual E F x (.arr q a)).log = [] ∧
    (∀ l : List Diag,
      l ∈ [(cellLess E F (.arr q a) x).log, (cellLess E F x (.arr q a)).log,
        (cellLessOrEqual E F (.arr q a) x).log, (cellLessOrEqual E F x (.arr q a)).log,
        (cellGreater E F (.arr q a) x).log, (cellGreater E F x (.arr q a)).log,
        (cellGreaterOrEqual E F (.arr q a) x).log, (cellGreaterOrEqual E F x (.arr q a)).log,
        (cellCompare E F (.arr q a) x).log, (cellCompare E F x (.arr q a)).log] →
      l = if F.checkHACCompareNonAnyArray = true then [Diag.arrNonArr] else []) := by
  cases x <;> simp only [Cell.kind, List.mem_cons, List.mem_singleton, reduceCtorEq, or_false,
    or_self, List.not_mem_nil] at hx <;>
    cases hF : F.checkHACCompareNonAnyArray <;>
    simp [cellEqual, cellLess, cellLessOrEqual, cellGreater, cellGreaterOrEqual, cellCompare,
      cellRelOp, cellRelOpInt64, cellRelOpDouble, cellRelOpString, cellRelOpArray, Policy.Lt,
      Policy.Lte, Policy.Gt, Policy.Gte, Policy.Cmp, hF]

/-- Witness of C28: an array against the integer 5 with the checks on. -/
theorem C28_array_scalar_notice_witness :
    (cellEqual exampleEnv flagsOn (.arr false ⟨1⟩) (.int 5)).log = [] ∧
    (cellLess exampleEnv flagsOn (.int 5) (.arr false ⟨1⟩)).log = [Diag.arrNonArr] :=
  have h := C28_array_scalar_notice exampleEnv flagsOn false ⟨1⟩ (.int 5) (by decide)
  ⟨h.1, h.2.2 _ (by simp)⟩

/-! ## Consistency of the operators on scalars -/

theorem prim_scalar_six (x y : Prim) (hx : x.isDbl = false) (hy : y.isDbl = false) :
    ∃ (c : Int) (l e g le ge : Bool),
      (ret (PHPPrimitiveCmp x y) : Outcome Int) = ret c ∧
      (ret (primLt x y) : Outcome Bool) = ret l ∧
      (ret (primEq x y) : Outcome Bool) = ret e ∧
      (ret (primGt x y) : Outcome Bool) = ret g ∧
      (ret (primLte x y) : Outcome Bool) = ret le ∧
      (ret (primGte x y) : Outcome Bool) = ret ge ∧
      (c < 0 ↔ l = true) ∧ (c = 0 ↔ e = true) ∧ (0 < c ↔ g = true) ∧
      le = (l || e) ∧ ge = (g || e) ∧
      ((l = true ∧ e = false ∧ g = false) ∨ (l = false ∧ e = true ∧ g = false) ∨
        (l = false ∧ e = false ∧ g = true)) := by
  refine ⟨_, _, _, _, _, _, rfl, rfl, rfl, rfl, rfl, rfl, ?_⟩
  simp only [PHPPrimitiveCmp, primLt, primEq, primGt, primLte, primGte, hx, hy, Bool.or_self,
    Bool.false_eq_true, if_false]
  rcases lt_trichotomy x.asInt y.asInt with h | h | h
  · simp [h, ne_of_lt h, not_lt_of_lt h, le_of_lt h, not_le_of_lt h]
  · simp [h]
  · simp [h, ne_of_gt h, not_lt_of_lt h, le_of_lt h, not_le_of_lt h]

theorem prim_scalar_swap (x y : Prim) (hx : x.isDbl = false) (hy : y.isDbl = false) :
    primLt x y = primGt y x ∧ primLte x y = primGte y x ∧
      PHPPrimitiveCmp x y = -PHPPrimitiveCmp y x := by
  simp only [PHPPrimitiveCmp, primLt, primEq, primGt, primLte, primGte, hx, hy, Bool.or_self,
    Bool.false_eq_true, if_false]
  rcases lt_trichotomy x.asInt y.asInt with h | h | h
  · simp [h, ne_of_lt h, ne_of_gt h, not_lt_of_lt h]
  · simp [h]
  · simp [h, ne_of_lt h, ne_of_gt h, not_lt_of_lt h]

theorem primLt_boolInt (v : Bool) (y : Prim) :
    primLt (.i (if v = true then 1 else 0)) y = primLt (.b v) y := rfl

theorem primLte_boolInt (v : Bool) (y : Prim) :
    primLte (.i (if v = true then 1 else 0)) y = primLte (.b v) y := rfl

theorem phpCmp_boolInt (v : Bool) (y : Prim) :
    PHPPrimitiveCmp (.i (if v = true then 1 else 0)) y = PHPPrimitiveCmp (.b v) y := rfl

/-- C29: on operands whose kinds are among Uninit, Null, Boolean and Int64 the
six operators return without a diagnostic and agree with one another: compare
is negative iff less, zero iff equal, positive iff greater; lessOrEqual is
less or equal; greaterOrEqual is greater or equal; and exactly one of less,
equal, greater holds. -/
theorem C29_scalar_operators_agree (E : Env) (F : RuntimeOption) (a b : Cell)
    (ha : a.kind ∈ [Kind.Uninit, Kind.Null, Kind.Boolean, Kind.Int64])
    (hb : b.kind ∈ [Kind.Uninit, Kind.Null, Kind.Boolean, Kind.Int64]) :
    ∃ (c : Int) (l e g le ge : Bool),
      cellCompare E F a b = ret c ∧ cellLess E F a b = ret l ∧ cellEqual E F a b = ret e ∧
      cellGreater E F a b = ret g ∧ cellLessOrEqual E F a b = ret le ∧
      cellGreaterOrEqual E F a b = ret ge ∧
      (c < 0 ↔ l = true) ∧ (c = 0 ↔ e = true) ∧ (0 < c ↔ g = true) ∧
      le = (l || e) ∧ ge = (g || e) ∧
      ((l = true ∧ e = false ∧ g = false) ∨ (l = false ∧ e = true ∧ g = false) ∨
        (l = false ∧ e = false ∧ g = true)) := by
  cases a <;>
    simp only [Cell.kind, List.mem_cons, List.mem_singleton, reduceCtorEq, or_false,
      or_self, List.not_mem_nil] at ha <;>
    cases b <;>
    simp only [Cell.kind, List.mem_cons, List.mem_singleton, reduceCtorEq, or_false,
      or_self, List.not_mem_nil] at hb <;>
    simp only [cellCompare, cellLess, cellEqual, cellGreater, cellLessOrEqual,
      cellGreaterOrEqual, cellRelOp, cellRelOpBool, cellRelOpInt64, Policy.Lt, Policy.Lte,
      Policy.Gt, Policy.Gte, Policy.Cmp, Cell.isVecType, Cell.isDictType, Cell.isKeysetType,
      Cell.isClsMethType, Cell.isArrayType, CompareBase_prim, Policy.Eq_prim,
      CompareBase_noticeOnArrNonArr, Policy.Eq_noticeOnArrNonArr, Bool.false_eq_true,
      if_false, Bool.and_false, Outcome.raiseIf_false] <;>
    exact prim_scalar_six _ _ rfl rfl

/-- Witness of C29: the boolean true against the integer 0. -/
theorem C29_scalar_operators_agree_witness :
    ∃ (c : Int) (l e g le ge : Bool),
      cellCompare exampleEnv flagsOff (.bool true) (.int 0) = ret c ∧
      cellLess exampleEnv flagsOff (.bool true) (.int 0) = ret l ∧
      cellEqual exampleEnv flagsOff (.bool true) (.int 0) = ret e ∧
      cellGreater exampleEnv flagsOff (.bool true) (.int 0) = ret g ∧
      cellLessOrEqual exampleEnv flagsOff (.bool true) (.int 0) = ret le ∧
      cellGreaterOrEqual exampleEnv flagsOff (.bool true) (.int 0) = ret ge ∧
      (c < 0 ↔ l = true) ∧ (c = 0 ↔ e = true) ∧ (0 < c ↔ g = true) ∧
      le = (l || e) ∧ ge = (g || e) ∧
      ((l = true ∧ e = false ∧ g = false) ∨ (l = false ∧ e = true ∧ g = false) ∨
        (l = false ∧ e = false ∧ g = true)) :=
  C29_scalar_operators_agree exampleEnv flagsOff (.bool true) (.int 0) (by decide) (by decide)

/-! ## Swapping the operands -/

/-- C30: when the boolean conversion sends null and uninit to false, a boolean
to itself, an integer to whether it is non-zero and a legacy array to whether
it is non-empty, then for operands whose kinds are among Uninit, Null,
Boolean, Int64 and LegacyArray, not both legacy arrays, all calls return and
less(a, b) = greater(b, a), lessOrEqual(a, b) = greaterOrEqual(b, a) and
compare(a, b) = -compare(b, a). -/
theorem C30_swap_reverses (E : Env) (F : RuntimeOption) (a b : Cell)
    (huninit : E.cellToBool .uninit = false) (hnull : E.cellToBool .null = false)
    (hbool : ∀ v, E.cellToBool (.bool v) = v)
    (hint : ∀ n, E.cellToBool (.int n) = decide (n ≠ 0))
    (harr : ∀ p x, E.cellToBool (.arr p x) = !E.arrEmpty x)
    (ha : a.kind ∈ [Kind.Uninit, Kind.Null, Kind.Boolean, Kind.Int64, Kind.LegacyArray])
    (hb : b.kind ∈ [Kind.Uninit, Kind.Null, Kind.Boolean, Kind.Int64, Kind.LegacyArray])
    (hab : ¬ (a.kind = Kind.LegacyArray ∧ b.kind = Kind.LegacyArray)) :
    (∃ l g, (cellLess E F a b).res = .ok l ∧ (cellGreater E F b a).res = .ok g ∧ l = g) ∧
    (∃ l g, (cellLessOrEqual E F a b).res = .ok l ∧ (cellGreaterOrEqual E F b a).res = .ok g ∧
      l = g) ∧
    (∃ c d, (cellCompare E F a b).res = .ok c ∧ (cellCompare E F b a).res = .ok d ∧
      c = -d) := by
  have key : Both (fun l g => l = g) (cellLess E F a b) (cellGreater E F b a) ∧
      Both (fun l g => l = g) (cellLessOrEqual E F a b) (cellGreaterOrEqual E F b a) ∧
      Both (fun c d => c = -d) (cellCompare E F a b) (cellCompare E F b a) := by
    cases a <;>
      simp only [Cell.kind, List.mem_cons, List.mem_singleton, reduceCtorEq, or_false,
        or_self, List.not_mem_nil] at ha <;>
      cases b <;>
      simp only [Cell.kind, List.mem_cons, List.mem_singleton, reduceCtorEq, or_false,
        or_self, List.not_mem_nil, and_self, not_true_eq_false] at hb hab <;>
      simp only [cellCompare, cellLess, cellGreater, cellLessOrEqual,
        cellGreaterOrEqual, cellRelOp, cellRelOpBool, cellRelOpInt64, cellRelOpArray,
        Policy.Lt, Policy.Lte, Policy.Gt, Policy.Gte, Policy.Cmp, Cell.isVecType,
        Cell.isDictType, Cell.isKeysetType, Cell.isClsMethType, Cell.isArrayType,
        CompareBase_prim, CompareBase_noticeOnArrNonArr, Bool.false_eq_true,
        if_false, Bool.and_false, Bool.and_true, both_ret, both_raiseIf1, both_raiseIf2,
        huninit, hnull, hbool, hint, harr, primLt_boolInt, primLte_boolInt,
        phpCmp_boolInt] <;>
      exact prim_scalar_swap _ _ rfl rfl
  exact key

/-- Witness of C30 on the example runtime: an empty array against true. -/
theorem C30_swap_reverses_witness :
    (∃ l g, (cellLess exampleEnv flagsOn (.arr false ⟨0⟩) (.bool true)).res = .ok l ∧
      (cellGreater exampleEnv flagsOn (.bool true) (.arr false ⟨0⟩)).res = .ok g ∧ l = g) ∧
    (∃ l g, (cellLessOrEqual exampleEnv flagsOn (.arr false ⟨0⟩) (.bool true)).res = .ok l ∧
      (cellGreaterOrEqual exampleEnv flagsOn (.bool true) (.arr false ⟨0⟩)).res = .ok g ∧
      l = g) ∧
    (∃ c d, (cellCompare exampleEnv flagsOn (.arr false ⟨0⟩) (.bool true)).res = .ok c ∧
      (cellCompare exampleEnv flagsOn (.bool true) (.arr false ⟨0⟩)).res = .ok d ∧
      c = -d) :=
  C30_swap_reverses exampleEnv flagsOn (.arr false ⟨0⟩) (.bool true) rfl rfl (fun _ => rfl)
    (fun _ => rfl) (fun _ _ => by simp [exampleEnv, exampleCellToBool]) (by decide) (by decide)
    (by decide)

/-! ## Legacy arrays against numbers and strings -/

/-- C31: a legacy array is greater than every integer, double and string,
whatever its contents: equal returns false in both orders, less(x, a) and
greater(a, x) return true, less(a, x) and greater(x, a) return false,
compare(a, x) returns 1 and compare(x, a) returns -1. -/
theorem C31_array_greater_than_scalars (E : Env) (F : RuntimeOption) (q : Bool)
    (a : ArrayData) (x : Cell) (hx : x.kind ∈ [Kind.Int64, Kind.Double, Kind.String]) :
    (cellEqual E F (.arr q a) x).res = .ok false ∧
    (cellEqual E F x (.arr q a)).res = .ok false ∧
    (cellLess E F x (.arr q a)).res = .ok true ∧
    (cellGreater E F (.arr q a) x).res = .ok true ∧
    (cellLess E F (.arr q a) x).res = .ok false ∧
    (cellGreater E F x (.arr q a)).res = .ok false ∧
    (cellCompare E F (.arr q a) x).res = .ok 1 ∧
    (cellCompare E F x (.arr q a)).res = .ok (-1) := by
  cases x <;> simp only [Cell.kind, List.mem_cons, List.mem_singleton, reduceCtorEq, or_false,
    or_self, List.not_mem_nil] at hx <;>
    simp [cellEqual, cellLess, cellGreater, cellCompare, cellRelOp, cellRelOpInt64,
      cellRelOpDouble, cellRelOpString, cellRelOpArray, Policy.Lt, Policy.Gt, Policy.Cmp] <;>
    decide

/-- Witness of C31: the empty array of the example runtime against the
string `"abc"`. -/
theorem C31_array_greater_than_scalars_witness :
    (cellEqual exampleEnv flagsOn (.arr false ⟨0⟩) (.str false "abc")).res = .ok false ∧
    (cellLess exampleEnv flagsOn (.str false "abc") (.arr false ⟨0⟩)).res = .ok true ∧
    (cellCompare exampleEnv flagsOn (.arr false ⟨0⟩) (.str false "abc")).res = .ok 1 :=
  have h := C31_array_greater_than_scalars exampleEnv flagsOn false ⟨0⟩ (.str false "abc")
    (by decide)
  ⟨h.1, h.2.2.1, h.2.2.2.2.2.2.1⟩

/-! ## Null and booleans against integers -/

/-- C32: null against an integer is compared as booleans: equal(null, i) is
true iff i = 0, less(null, i) is true iff i is not 0, greater(null, i) is
false, compare(null, i) is 0 when i = 0 and -1 otherwise; and each operator on
a boolean b and an integer i is the primitive operator on b and (i ≠ 0). -/
theorem C32_null_bool_vs_int (E : Env) (F : RuntimeOption) (i : Int) (b : Bool) :
    cellEqual E F .null (.int i) = ret (decide (i = 0)) ∧
    cellLess E F .null (.int i) = ret (decide (i ≠ 0)) ∧
    cellGreater E F .null (.int i) = ret false ∧
    cellCompare E F .null (.int i) = ret (if i = 0 then 0 else -1) ∧
    cellEqual E F (.bool b) (.int i) = ret (primEq (.b b) (.b (decide (i ≠ 0)))) ∧
    cellLess E F (.bool b) (.int i) = ret (primLt (.b b) (.b (decide (i ≠ 0)))) ∧
    cellLessOrEqual E F (.bool b) (.int i) = ret (primLte (.b b) (.b (decide (i ≠ 0)))) ∧
    cellGreater E F (.bool b) (.int i) = ret (primGt (.b b) (.b (decide (i ≠ 0)))) ∧
    cellGreaterOrEqual E F (.bool b) (.int i) = ret (primGte (.b b) (.b (decide (i ≠ 0)))) ∧
    cellCompare E F (.bool b) (.int i) =
      ret (PHPPrimitiveCmp (.b b) (.b (decide (i ≠ 0)))) := by
  refine ⟨?_, ?_, ?_, ?_, rfl, rfl, rfl, rfl, rfl, rfl⟩ <;>
    by_cases h : i = 0 <;>
    simp [cellEqual, cellLess, cellGreater, cellCompare, cellRelOp, cellRelOpInt64,
      Policy.Lt, Policy.Gt, Policy.Cmp, primEq, primLt, primGt, PHPPrimitiveCmp, Prim.isDbl,
      Prim.asInt, h]

/-! ## Ordering of dictionaries, sets and records -/

/-- C33: less, lessOrEqual, greater, greaterOrEqual and compare throw the
dictionary compare error on two dictionaries, the set compare error on two
sets and the record compare error on two records, whatever the operands;
equal on such a pair returns the content equality of the container or
record. -/
theorem C33_unordered_kinds (E : Env) (F : RuntimeOption) (p q : Bool) (x y : ArrayData)
    (r s : RecordData) :
    (∀ X : Outcome Bool,
      X ∈ [cellLess E F (.dict p x) (.dict q y), cellLessOrEqual E F (.dict p x) (.dict q y),
        cellGreater E F (.dict p x) (.dict q y),
        cellGreaterOrEqual E F (.dict p x) (.dict q y)] →
      X = Outcome.throw Err.dictCompare) ∧
    cellCompare E F (.dict p x) (.dict q y) = Outcome.throw Err.dictCompare ∧
    (∀ X : Outcome Bool,
      X ∈ [cellLess E F (.keyset p x) (.keyset q y),
        cellLessOrEqual E F (.keyset p x) (.keyset q y),
        cellGreater E F (.keyset p x) (.keyset q y),
        cellGreaterOrEqual E F (.keyset p x) (.keyset q y)] →
      X = Outcome.throw Err.keysetCompare) ∧
    cellCompare E F (.keyset p x) (.keyset q y) = Outcome.throw Err.keysetCompare ∧
    (∀ X : Outcome Bool,
      X ∈ [cellLess E F (.record r) (.record s), cellLessOrEqual E F (.record r) (.record s),
        cellGreater E F (.record r) (.record s),
        cellGreaterOrEqual E F (.record r) (.record s)] →
      X = Outcome.throw Err.recordCompare) ∧
    cellCompare E F (.record r) (.record s) = Outcome.throw Err.recordCompare ∧
    cellEqual E F (.dict p x) (.dict q y) = ret (E.dictEqual x y) ∧
    cellEqual E F (.keyset p x) (.keyset q y) = ret (E.keysetEqual x y) ∧
    cellEqual E F (.record r) (.record s) = ret (E.recEqual r s) := by
  refine ⟨?_, rfl, ?_, rfl, ?_, rfl, rfl, rfl, rfl⟩ <;>
    · intro X hX
      simp only [List.mem_cons, List.mem_singleton, List.not_mem_nil, or_false] at hX
      rcases hX with h | h | h | h <;> rw [h] <;> rfl

/-! ## Two different newer-family containers -/

/-- C34: for every ordering operator, a vector on the left of a dictionary or
set throws the vector error, a dictionary on the left of a vector or set the
dictionary error, a set on the left of a vector or dictionary the set error;
and when the left operand is null, a boolean, a number, a string, a legacy
array, an object or a resource, the error is that of the right operand. -/
theorem C34_left_kind_decides (E : Env) (F : RuntimeOption) (a b : Cell) :
    (a.kind = Kind.Vector → b.kind ∈ [Kind.Dictionary, Kind.Set] →
      OrderingsThrow E F a b Err.vecCompare) ∧
    (a.kind = Kind.Dictionary → b.kind ∈ [Kind.Vector, Kind.Set] →
      OrderingsThrow E F a b Err.dictCompare) ∧
    (a.kind = Kind.Set → b.kind ∈ [Kind.Vector, Kind.Dictionary] →
      OrderingsThrow E F a b Err.keysetCompare) ∧
    (a.kind ∈ [Kind.Uninit, Kind.Null, Kind.Boolean, Kind.Int64, Kind.Double, Kind.String,
        Kind.LegacyArray, Kind.Object, Kind.Resource] →
      (b.kind = Kind.Vector → OrderingsThrow E F a b Err.vecCompare) ∧
      (b.kind = Kind.Dictionary → OrderingsThrow E F a b Err.dictCompare) ∧
      (b.kind = Kind.Set → OrderingsThrow E F a b Err.keysetCompare)) := by
  refine ⟨?_, ?_, ?_, ?_⟩
  · intro ha hb
    cases a <;> simp only [Cell.kind, reduceCtorEq] at ha
    cases b <;>
      simp only [Cell.kind, List.mem_cons, List.mem_singleton, reduceCtorEq, or_false,
        or_self, List.not_mem_nil] at hb <;>
      simp [OrderingsThrow, cellLess, cellLessOrEqual, cellGreater, cellGreaterOrEqual,
        cellCompare, cellRelOp, cellRelOpVec, cellRelOpDict, cellRelOpKeyset, Policy.Lt,
        Policy.Lte, Policy.Gt, Policy.Gte, Policy.Cmp, Cell.isVecType, Cell.isDictType,
        Cell.isKeysetType]
  · intro ha hb
    cases a <;> simp only [Cell.kind, reduceCtorEq] at ha
    cases b <;>
      simp only [Cell.kind, List.mem_cons, List.mem_singleton, reduceCtorEq, or_false,
        or_self, List.not_mem_nil] at hb <;>
      simp [OrderingsThrow, cellLess, cellLessOrEqual, cellGreater, cellGreaterOrEqual,
        cellCompare, cellRelOp, cellRelOpVec, cellRelOpDict, cellRelOpKeyset, Policy.Lt,
        Policy.Lte, Policy.Gt, Policy.Gte, Policy.Cmp, Cell.isVecType, Cell.isDictType,
        Cell.isKeysetType]
  · intro ha hb
    cases a <;> simp only [Cell.kind, reduceCtorEq] at ha
    cases b <;>
      simp only [Cell.kind, List.mem_cons, List.mem_singleton, reduceCtorEq, or_false,
        or_self, List.not_mem_nil] at hb <;>
      simp [OrderingsThrow, cellLess, cellLessOrEqual, cellGreater, cellGreaterOrEqual,
        cellCompare, cellRelOp, cellRelOpVec, cellRelOpDict, cellRelOpKeyset, Policy.Lt,
        Policy.Lte, Policy.Gt, Policy.Gte, Policy.Cmp, Cell.isVecType, Cell.isDictType,
        Cell.isKeysetType]
  · intro ha
    cases a <;>
      simp only [Cell.kind, List.mem_cons, List.mem_singleton, reduceCtorEq, or_false,
        or_self, List.not_mem_nil] at ha <;>
      refine ⟨?_, ?_, ?_⟩ <;> intro hb <;>
      cases b <;> simp only [Cell.kind, reduceCtorEq] at hb <;>
      simp [OrderingsThrow, cellLess, cellLessOrEqual, cellGreater, cellGreaterOrEqual,
        cellCompare, cellRelOp, cellRelOpVec, cellRelOpDict, cellRelOpKeyset, Policy.Lt,
        Policy.Lte, Policy.Gt, Policy.Gte, Policy.Cmp, Cell.isVecType, Cell.isDictType,
        Cell.isKeysetType]

/-- Witness of C34: a dictionary on the left of a vector, and an integer on
the left of a set. -/
theorem C34_left_kind_decides_witness :
    OrderingsThrow exampleEnv flagsOn (.dict false ⟨1⟩) (.vec false ⟨2⟩) Err.dictCompare ∧
    OrderingsThrow exampleEnv flagsOn (.int 3) (.keyset false ⟨2⟩) Err.keysetCompare :=
  ⟨(C34_left_kind_decides exampleEnv flagsOn (.dict false ⟨1⟩) (.vec false ⟨2⟩)).2.1 rfl
      (by decide),
   ((C34_left_kind_decides exampleEnv flagsOn (.int 3) (.keyset false ⟨2⟩)).2.2.2
      (by decide)).2.2 rfl⟩

/-! ## Class-method pairs against vectors -/

/-- C35: with the unification flag on, each operator on a class-method pair
and a vector raises the conversion diagnostic once and returns the policy's
vector operator on the materialised pair and the vector, in the order of the
operands, while against a legacy array equal returns false and the ordering
operators throw the class-method-pair error; with the flag off, against a
vector equal returns false and the ordering operators throw the vector
error, in both orders. -/
theorem C35_clsmeth_vector (E : Env) (F : RuntimeOption) (p : ClsMethDataRef) (q : Bool)
    (v : ArrayData) :
    (F.EvalHackArrDVArrs = true →
      cellEqual E F (.clsmeth p) (.vec q v) =
        raise .clsMethToVec (ret (E.vecEqual (E.clsMethToVec p) v)) ∧
      cellEqual E F (.vec q v) (.clsmeth p) =
        raise .clsMethToVec (ret (E.vecEqual v (E.clsMethToVec p))) ∧
      cellLess E F (.clsmeth p) (.vec q v) =
        raise .clsMethToVec (ret (E.vecLt (E.clsMethToVec p) v)) ∧
      cellLess E F (.vec q v) (.clsmeth p) =
        raise .clsMethToVec (ret (E.vecLt v (E.clsMethToVec p))) ∧
      cellLessOrEqual E F (.clsmeth p) (.vec q v) =
        raise .clsMethToVec (ret (E.vecLte (E.clsMethToVec p) v)) ∧
      cellLessOrEqual E F (.vec q v) (.clsmeth p) =
        raise .clsMethToVec (ret (E.vecLte v (E.clsMethToVec p))) ∧
      cellGreater E F (.clsmeth p) (.vec q v) =
        raise .clsMethToVec (ret (E.vecGt (E.clsMethToVec p) v)) ∧
      cellGreater E F (.vec q v) (.clsmeth p) =
        raise .clsMethToVec (ret (E.vecGt v (E.clsMethToVec p))) ∧
      cellGreaterOrEqual E F (.clsmeth p) (.vec q v) =
        raise .clsMethToVec (ret (E.vecGte (E.clsMethToVec p) v)) ∧
      cellGreaterOrEqual E F (.vec q v) (.clsmeth p) =
        raise .clsMethToVec (ret (E.vecGte v (E.clsMethToVec p))) ∧
      cellCompare E F (.clsmeth p) (.vec q v) =
        raise .clsMethToVec (ret (E.vecCmp (E.clsMethToVec p) v)) ∧
      cellCompare E F (.vec q v) (.clsmeth p) =
        raise .clsMethToVec (ret (E.vecCmp v (E.clsMethToVec p))) ∧
      cellEqual E F (.clsmeth p) (.arr q v) = ret false ∧
      OrderingsThrow E F (.clsmeth p) (.arr q v) Err.clsmethCompare) ∧
    (F.EvalHackArrDVArrs = false →
      cellEqual E F (.clsmeth p) (.vec q v) = ret false ∧
      cellEqual E F (.vec q v) (.clsmeth p) = ret false ∧
      OrderingsThrow E F (.clsmeth p) (.vec q v) Err.vecCompare ∧
      OrderingsThrow E F (.vec q v) (.clsmeth p) Err.vecCompare) := by
  constructor <;> intro hF <;>
    simp [OrderingsThrow, cellEqual, cellLess, cellLessOrEqual, cellGreater,
      cellGreaterOrEqual, cellCompare, cellRelOp, cellRelOpVec, cellRelOpArray,
      cellRelOpClsMeth, Policy.Lt, Policy.Lte, Policy.Gt, Policy.Gte, Policy.Cmp, hF]

/-- Witness of C35: the pair (class 0, function 0) of the example runtime is
materialised at address 1000. -/
theorem C35_clsmeth_vector_witness :
    cellEqual exampleEnv flagsOn (.clsmeth ⟨⟨0⟩, ⟨0⟩⟩) (.vec false ⟨1000⟩) =
      raise .clsMethToVec (ret true) ∧
    OrderingsThrow exampleEnv flagsOff (.vec false ⟨1000⟩) (.clsmeth ⟨⟨0⟩, ⟨0⟩⟩)
      Err.vecCompare :=
  ⟨((C35_clsmeth_vector exampleEnv flagsOn ⟨⟨0⟩, ⟨0⟩⟩ false ⟨1000⟩).1 rfl).1,
   ((C35_clsmeth_vector exampleEnv flagsOff ⟨⟨0⟩, ⟨0⟩⟩ false ⟨1000⟩).2 rfl).2.2.2⟩

/-! ## Two class-method pairs -/

/-- C36: on two class-method pairs equal is identity of the pair; each ordering
operator is, when the string comparator gives c ≠ 0 on the class names, the
primitive operator on (c, 0), and otherwise the policy's string operator on
the two function names. -/
theorem C36_clsmeth_lexicographic (E : Env) (F : RuntimeOption) (p q : ClsMethDataRef) :
    cellEqual E F (.clsmeth p) (.clsmeth q) = ret (decide (p = q)) ∧
    (∀ c : Int, c = E.strCompare (E.className p.getCls) (E.className q.getCls) → c ≠ 0 →
      (cellLess E F (.clsmeth p) (.clsmeth q)).res = .ok (primLt (.i c) (.i 0)) ∧
      (cellLessOrEqual E F (.clsmeth p) (.clsmeth q)).res = .ok (primLte (.i c) (.i 0)) ∧
      (cellGreater E F (.clsmeth p) (.clsmeth q)).res = .ok (primGt (.i c) (.i 0)) ∧
      (cellGreaterOrEqual E F (.clsmeth p) (.clsmeth q)).res = .ok (primGte (.i c) (.i 0)) ∧
      (cellCompare E F (.clsmeth p) (.clsmeth q)).res =
        .ok (PHPPrimitiveCmp (.i c) (.i 0))) ∧
    (E.strCompare (E.className p.getCls) (E.className q.getCls) = 0 →
      (cellLess E F (.clsmeth p) (.clsmeth q)).res =
        .ok ((Policy.Lt E F).str (E.funcName p.getFunc) (E.funcName q.getFunc)) ∧
      (cellLessOrEqual E F (.clsmeth p) (.clsmeth q)).res =
        .ok ((Policy.Lte E F).str (E.funcName p.getFunc) (E.funcName q.getFunc)) ∧
      (cellGreater E F (.clsmeth p) (.clsmeth q)).res =
        .ok ((Policy.Gt E F).str (E.funcName p.getFunc) (E.funcName q.getFunc)) ∧
      (cellGreaterOrEqual E F (.clsmeth p) (.clsmeth q)).res =
        .ok ((Policy.Gte E F).str (E.funcName p.getFunc) (E.funcName q.getFunc)) ∧
      (cellCompare E F (.clsmeth p) (.clsmeth q)).res =
        .ok ((Policy.Cmp E F).str (E.funcName p.getFunc) (E.funcName q.getFunc))) := by
  refine ⟨rfl, ?_, ?_⟩
  · rintro c rfl hc
    simp [cellLess, cellLessOrEqual, cellGreater, cellGreaterOrEqual, cellCompare, cellRelOp,
      cellRelOpClsMeth, Policy.Lt, Policy.Lte, Policy.Gt, Policy.Gte, Policy.Cmp, hc]
  · intro hc
    simp [cellLess, cellLessOrEqual, cellGreater, cellGreaterOrEqual, cellCompare, cellRelOp,
      cellRelOpClsMeth, Policy.Lt, Policy.Lte, Policy.Gt, Policy.Gte, Policy.Cmp, hc]

/-- Witness of C36: classes `C` and `CC` differ, so the function names are not
looked at; with the same class the function names `f` and `ff` decide. -/
theorem C36_clsmeth_lexicographic_witness :
    (cellLess exampleEnv flagsOff (.clsmeth ⟨⟨0⟩, ⟨5⟩⟩) (.clsmeth ⟨⟨1⟩, ⟨0⟩⟩)).res =
      .ok (primLt (.i (-1)) (.i 0)) ∧
    (cellCompare exampleEnv flagsOff (.clsmeth ⟨⟨0⟩, ⟨0⟩⟩) (.clsmeth ⟨⟨0⟩, ⟨1⟩⟩)).res =
      .ok ((Policy.Cmp exampleEnv flagsOff).str "f" "ff") :=
  ⟨((C36_clsmeth_lexicographic exampleEnv flagsOff ⟨⟨0⟩, ⟨5⟩⟩ ⟨⟨1⟩, ⟨0⟩⟩).2.1 (-1)
      (by decide) (by decide)).1,
   ((C36_clsmeth_lexicographic exampleEnv flagsOff ⟨⟨0⟩, ⟨0⟩⟩ ⟨⟨0⟩, ⟨1⟩⟩).2.2
      (by decide)).2.2.2.2⟩

/-! ## Storage-class twins -/

theorem cellRelOp_twin_right {R : Type} (E : Env) (F : RuntimeOption) (op : Op R)
    (a b b' : Cell) (hb : b.eraseStorage = b'.eraseStorage) :
    cellRelOp E F op a b = cellRelOp E F op a b' := by
  cases b <;> cases b' <;> simp only [Cell.eraseStorage, reduceCtorEq] at hb <;>
    first
    | rfl
    | (cases hb; rfl)

theorem cellRelOp_twin_left {R : Type} (E : Env) (F : RuntimeOption) (op : Op R)
    (a a' b : Cell) (ha : a.eraseStorage = a'.eraseStorage)
    (hcb : E.cellToBool a = E.cellToBool a') :
    cellRelOp E F op a b = cellRelOp E F op a' b := by
  cases a <;> cases a' <;> simp only [Cell.eraseStorage, reduceCtorEq] at ha <;>
    (try cases ha) <;> cases b <;>
    first
    | rfl
    | simp only [cellRelOp, cellRelOpBool, Cell.isVecType, Cell.isDictType, Cell.isKeysetType,
        Cell.isClsMethType, Cell.isArrayType, hcb]

theorem cellSame_twin_right (E : Env) (F : RuntimeOption)
    (a b b' : Cell) (hb : b.eraseStorage = b'.eraseStorage) :
    cellSame E F a b = cellSame E F a b' := by
  cases b <;> cases b' <;> simp only [Cell.eraseStorage, reduceCtorEq] at hb <;>
    (try cases hb) <;> cases a <;> rfl

theorem cellSame_twin_left (E : Env) (F : RuntimeOption)
    (a a' b : Cell) (ha : a.eraseStorage = a'.eraseStorage) :
    cellSame E F a b = cellSame E F a' b := by
  cases a <;> cases a' <;> simp only [Cell.eraseStorage, reduceCtorEq] at ha <;>
    (try cases ha) <;> cases b <;> rfl

/-- C37: when the boolean conversion does not tell storage-class twins apart,
replacing either operand by a twin (the persistent or non-persistent cell of
the same payload, or Null for Uninit) changes nothing in the outcome (value,
error and diagnostics) of equal, strict equal, less, lessOrEqual, greater,
greaterOrEqual and compare. -/
theorem C37_storage_twins (E : Env) (F : RuntimeOption) (a a' b b' : Cell)
    (hcb : ∀ c c', c.eraseStorage = c'.eraseStorage → E.cellToBool c = E.cellToBool c')
    (ha : a.eraseStorage = a'.eraseStorage) (hb : b.eraseStorage = b'.eraseStorage) :
    cellEqual E F a b = cellEqual E F a' b' ∧
    cellSame E F a b = cellSame E F a' b' ∧
    cellLess E F a b = cellLess E F a' b' ∧
    cellLessOrEqual E F a b = cellLessOrEqual E F a' b' ∧
    cellGreater E F a b = cellGreater E F a' b' ∧
    cellGreaterOrEqual E F a b = cellGreaterOrEqual E F a' b' ∧
    cellCompare E F a b = cellCompare E F a' b' := by
  have h : ∀ {R : Type} (op : Op R), cellRelOp E F op a b = cellRelOp E F op a' b' :=
    fun op => (cellRelOp_twin_left E F op a a' b ha (hcb a a' ha)).trans
      (cellRelOp_twin_right E F op a' b b' hb)
  exact ⟨h _, (cellSame_twin_left E F a a' b ha).trans (cellSame_twin_right E F a' b b' hb),
    h _, h _, h _, h _, h _⟩

/-- Witness of C37: a persistent string on the left and Uninit on the right,
against the non-persistent string and Null. -/
theorem C37_storage_twins_witness :
    cellEqual exampleEnv flagsOn (.str true "abc") .uninit =
      cellEqual exampleEnv flagsOn (.str false "abc") .null ∧
    cellSame exampleEnv flagsOn (.str true "abc") .uninit =
      cellSame exampleEnv flagsOn (.str false "abc") .null :=
  have h := C37_storage_twins exampleEnv flagsOn (.str true "abc") (.str false "abc") .uninit
    .null
    (by
      intro c c' hc
      cases c <;> cases c' <;> simp only [Cell.eraseStorage, reduceCtorEq] at hc <;>
        first
        | rfl
        | (cases hc; rfl))
    rfl rfl
  ⟨h.1, h.2.1⟩

end HPHP
